import Mathlib

/-! PS3Eye shared-memory frame broadcast.

A shallow embedding of `PS3EyeSharedMemory.h` / `PS3EyeSharedMemory.cpp`:
the shared header and frame slot, the four named kernel objects the protocol
uses (mutex, new-frame event, client event, file mapping), and the methods of
`PS3EyeSharedMemoryServer` and `PS3EyeSharedMemoryClient` as pure functions that
pass the kernel-object state (`World`) explicitly.

Every method is one atomic step on the `World`; a concurrent execution is read
as a sequential interleaving of such steps.
-/

namespace PS3Eye

/-! ## Constants of `PS3EyeSharedMemory.h` -/

def PS3EYE_WIDTH : Nat := 640
def PS3EYE_HEIGHT : Nat := 480
def PS3EYE_FPS : Nat := 30
def PS3EYE_BYTES_PER_PIXEL : Nat := 3

/-- The constant `PS3EYE_WIDTH * PS3EYE_HEIGHT * PS3EYE_BYTES_PER_PIXEL`, computed in `UINT32`. -/
def PS3EYE_FRAME_SIZE : Nat :=
  (PS3EYE_WIDTH * PS3EYE_HEIGHT * PS3EYE_BYTES_PER_PIXEL) % 2 ^ 32

def PS3EYE_MAGIC : Nat := 0x45335350
def PS3EYE_PROTOCOL_VERSION : Nat := 1

/-- Field names and byte sizes of `struct PS3EyeFrameHeader`, in declaration order.
The struct is declared under `#pragma pack(push, 1)`, so a field starts where the
previous one ends. -/
def PS3EyeFrameHeader_fields : List (String × Nat) :=
  [("magic", 4), ("version", 4), ("width", 4), ("height", 4), ("stride", 4),
   ("format", 4), ("frameNumber", 8), ("timestamp", 8), ("dataOffset", 4),
   ("dataSize", 4), ("serverPID", 4), ("clientCount", 4), ("reserved", 16)]

/-- The value of `sizeof(PS3EyeFrameHeader)` for the packed struct. -/
def sizeof_PS3EyeFrameHeader : Nat := (PS3EyeFrameHeader_fields.map Prod.snd).sum

def PS3EYE_SHARED_MEMORY_SIZE : Nat := (sizeof_PS3EyeFrameHeader + PS3EYE_FRAME_SIZE) % 2 ^ 32

/-! ## Data model -/

/-- One `uint8_t`. -/
abbrev Byte := Fin 256

/-- A byte buffer seen through a pointer: the byte at each index from the pointer. -/
abbrev Buf := Nat → Byte

/-- The bytes of a list as a buffer (zero beyond its end). -/
def bufOfList (l : List Byte) : Buf := fun i => l.getD i 0

/-- The header `struct PS3EyeFrameHeader`. The `UINT32`/`UINT64` fields are naturals,
`clientCount` (a `volatile LONG`) is an integer, `reserved` holds its four words. -/
structure PS3EyeFrameHeader where
  magic : Nat
  version : Nat
  width : Nat
  height : Nat
  stride : Nat
  format : Nat
  frameNumber : Nat
  timestamp : Nat
  dataOffset : Nat
  dataSize : Nat
  serverPID : Nat
  clientCount : Int
  reserved : List Nat
  deriving DecidableEq, Repr

/-- The result of `ZeroMemory(header, sizeof(PS3EyeFrameHeader))`. -/
def PS3EyeFrameHeader.zeroed : PS3EyeFrameHeader :=
  { magic := 0, version := 0, width := 0, height := 0, stride := 0, format := 0,
    frameNumber := 0, timestamp := 0, dataOffset := 0, dataSize := 0, serverPID := 0,
    clientCount := 0, reserved := [0, 0, 0, 0] }

/-- A 32-bit two's-complement `LONG` value of an integer. -/
def wrapLONG (x : Int) : Int := (x + 2 ^ 31) % 2 ^ 32 - 2 ^ 31

/-- The Win32 `InterlockedIncrement` on a `LONG`. -/
def InterlockedIncrement (x : Int) : Int := wrapLONG (x + 1)

/-- The Win32 `InterlockedDecrement` on a `LONG`. -/
def InterlockedDecrement (x : Int) : Int := wrapLONG (x - 1)

/-- The C `memcpy(dst + dstOff, src, n)`: the `n` bytes from `dstOff` on are those of `src`. -/
def memcpy (dst : Buf) (dstOff : Nat) (src : Buf) (n : Nat) : Buf :=
  fun a => if dstOff ≤ a ∧ a < dstOff + n then src (a - dstOff) else dst a

/-- A thread that can own the channel mutex: the thread driving a server instance, the
thread driving a client instance, or any other thread of the machine. -/
inductive Party where
  | server (i : Nat)
  | client (i : Nat)
  | other (i : Nat)
  deriving DecidableEq, Repr

/-- Values returned by `WaitForSingleObject`. -/
inductive WaitResult where
  | WAIT_OBJECT_0
  | WAIT_ABANDONED
  | WAIT_TIMEOUT
  | WAIT_FAILED
  deriving DecidableEq, Repr

/-- The four named kernel objects of the channel and the content of the mapped region.

* An object exists while its handle count is positive; creating an object whose count is
  zero makes a fresh one (mutex unowned, event non-signalled, region zero-filled).
* `mutexLock = some (p, n)` says thread `p` owns the mutex, acquired `n + 1` times.
* `header` is the first `sizeof(PS3EyeFrameHeader)` bytes of the region as a struct and
  `mem a` is the byte at region offset `a`; the two views are exact for offsets from
  `sizeof(PS3EyeFrameHeader)` on, which is where `dataOffset` points after `Create`. -/
structure World where
  mutexHandles : Nat
  mutexLock : Option (Party × Nat)
  mutexAbandoned : Bool
  newFrameHandles : Nat
  newFrameSignaled : Bool
  clientEventHandles : Nat
  clientEventSignaled : Bool
  mappingHandles : Nat
  header : PS3EyeFrameHeader
  mem : Buf

/-- No named object exists. -/
def World.empty : World :=
  { mutexHandles := 0, mutexLock := none, mutexAbandoned := false,
    newFrameHandles := 0, newFrameSignaled := false,
    clientEventHandles := 0, clientEventSignaled := false,
    mappingHandles := 0, header := PS3EyeFrameHeader.zeroed, mem := fun _ => 0 }

/-- Which Win32 calls of a `Create` or `Connect` return `NULL` for a reason other than the
object's absence (resource exhaustion, access denied). -/
structure OsFaults where
  mutex : Bool := false
  newFrameEvent : Bool := false
  clientEvent : Bool := false
  fileMapping : Bool := false
  mapView : Bool := false
  deriving DecidableEq, Repr

/-! ## Win32 calls on the named objects -/

/-- The call `CreateMutexW(nullptr, FALSE, PS3EYE_MUTEX_NAME)`: a handle to the named mutex,
which is created unowned when it does not exist and opened when it does. -/
def World.CreateMutexW (w : World) (fault : Bool) : Bool × World :=
  if fault then (false, w)
  else if w.mutexHandles = 0 then
    (true, { w with mutexHandles := 1, mutexLock := none, mutexAbandoned := false })
  else (true, { w with mutexHandles := w.mutexHandles + 1 })

/-- The call `OpenMutexW(SYNCHRONIZE, FALSE, PS3EYE_MUTEX_NAME)`: fails when the mutex does
not exist. -/
def World.OpenMutexW (w : World) (fault : Bool) : Bool × World :=
  if fault ∨ w.mutexHandles = 0 then (false, w)
  else (true, { w with mutexHandles := w.mutexHandles + 1 })

/-- The call `CloseHandle` on a mutex handle. -/
def World.CloseHandle_mutex (w : World) : World :=
  { w with mutexHandles := w.mutexHandles - 1 }

/-- The call `CreateEventW(nullptr, FALSE, FALSE, PS3EYE_EVENT_NAME)` (auto-reset, initially
non-signalled; an existing event is opened as it is). -/
def World.CreateEventW_newFrame (w : World) (fault : Bool) : Bool × World :=
  if fault then (false, w)
  else if w.newFrameHandles = 0 then
    (true, { w with newFrameHandles := 1, newFrameSignaled := false })
  else (true, { w with newFrameHandles := w.newFrameHandles + 1 })

/-- The call `OpenEventW(SYNCHRONIZE, FALSE, PS3EYE_EVENT_NAME)`. -/
def World.OpenEventW_newFrame (w : World) (fault : Bool) : Bool × World :=
  if fault ∨ w.newFrameHandles = 0 then (false, w)
  else (true, { w with newFrameHandles := w.newFrameHandles + 1 })

/-- The call `CloseHandle` on a new-frame event handle. -/
def World.CloseHandle_newFrame (w : World) : World :=
  { w with newFrameHandles := w.newFrameHandles - 1 }

/-- The call `CreateEventW(nullptr, FALSE, FALSE, PS3EYE_CLIENT_EVENT_NAME)`. -/
def World.CreateEventW_client (w : World) (fault : Bool) : Bool × World :=
  if fault then (false, w)
  else if w.clientEventHandles = 0 then
    (true, { w with clientEventHandles := 1, clientEventSignaled := false })
  else (true, { w with clientEventHandles := w.clientEventHandles + 1 })

/-- The call `OpenEventW(EVENT_MODIFY_STATE, FALSE, PS3EYE_CLIENT_EVENT_NAME)`. -/
def World.OpenEventW_client (w : World) (fault : Bool) : Bool × World :=
  if fault ∨ w.clientEventHandles = 0 then (false, w)
  else (true, { w with clientEventHandles := w.clientEventHandles + 1 })

/-- The call `CloseHandle` on a client event handle. -/
def World.CloseHandle_client (w : World) : World :=
  { w with clientEventHandles := w.clientEventHandles - 1 }

/-- The call `CreateFileMappingW(INVALID_HANDLE_VALUE, nullptr, PAGE_READWRITE, 0,
PS3EYE_SHARED_MEMORY_SIZE, PS3EYE_SHARED_MEMORY_NAME)`: a handle to the named mapping, which is
created zero-filled when it does not exist and opened with its content when it does. -/
def World.CreateFileMappingW (w : World) (fault : Bool) : Bool × World :=
  if fault then (false, w)
  else if w.mappingHandles = 0 then
    (true, { w with mappingHandles := 1, header := PS3EyeFrameHeader.zeroed, mem := fun _ => 0 })
  else (true, { w with mappingHandles := w.mappingHandles + 1 })

/-- The call `OpenFileMappingW(FILE_MAP_WRITE, FALSE, PS3EYE_SHARED_MEMORY_NAME)`. -/
def World.OpenFileMappingW (w : World) (fault : Bool) : Bool × World :=
  if fault ∨ w.mappingHandles = 0 then (false, w)
  else (true, { w with mappingHandles := w.mappingHandles + 1 })

/-- The call `CloseHandle` on a file mapping handle. -/
def World.CloseHandle_mapping (w : World) : World :=
  { w with mappingHandles := w.mappingHandles - 1 }

/-- The call `SetEvent` on a new-frame event handle (`NULL` handle: no effect). -/
def World.SetEvent_newFrame (w : World) (h : Bool) : World :=
  if h then { w with newFrameSignaled := true } else w

/-- The call `SetEvent` on a client event handle. -/
def World.SetEvent_client (w : World) (h : Bool) : World :=
  if h then { w with clientEventSignaled := true } else w

/-- The call `WaitForSingleObject(m_mutex, 100)` made by thread `me` through handle `h`, with
no other thread running during the wait: an unowned mutex is acquired (reported as
`WAIT_ABANDONED` when its last owner died holding it), a mutex `me` already owns is
re-acquired, a mutex owned by another thread times out, a `NULL` handle fails. -/
def World.WaitForSingleObject_mutex (w : World) (h : Bool) (me : Party) : WaitResult × World :=
  if !h then (WaitResult.WAIT_FAILED, w)
  else match w.mutexLock with
    | none =>
      if w.mutexAbandoned then
        (WaitResult.WAIT_ABANDONED, { w with mutexLock := some (me, 0), mutexAbandoned := false })
      else (WaitResult.WAIT_OBJECT_0, { w with mutexLock := some (me, 0) })
    | some (p, n) =>
      if p = me then (WaitResult.WAIT_OBJECT_0, { w with mutexLock := some (me, n + 1) })
      else (WaitResult.WAIT_TIMEOUT, w)

/-- The call `ReleaseMutex(m_mutex)` made by thread `me`: one acquisition of the owner is
given back, a thread that does not own the mutex changes nothing. -/
def World.ReleaseMutex (w : World) (h : Bool) (me : Party) : World :=
  if !h then w
  else match w.mutexLock with
    | none => w
    | some (p, n) =>
      if p = me then
        (match n with
          | 0 => { w with mutexLock := none }
          | k + 1 => { w with mutexLock := some (me, k) })
      else w

/-- The call `WaitForSingleObject` on an auto-reset event that is not signalled during the
wait by anyone else: a signalled event satisfies the wait and is reset by it. -/
def World.WaitForSingleObject_newFrame (w : World) (h : Bool) : WaitResult × World :=
  if !h then (WaitResult.WAIT_FAILED, w)
  else if w.newFrameSignaled then (WaitResult.WAIT_OBJECT_0, { w with newFrameSignaled := false })
  else (WaitResult.WAIT_TIMEOUT, w)

/-- The call `WaitForSingleObject` on the auto-reset client event, under the same reading. -/
def World.WaitForSingleObject_client (w : World) (h : Bool) : WaitResult × World :=
  if !h then (WaitResult.WAIT_FAILED, w)
  else if w.clientEventSignaled then
    (WaitResult.WAIT_OBJECT_0, { w with clientEventSignaled := false })
  else (WaitResult.WAIT_TIMEOUT, w)

/-! ## `PS3EyeSharedMemoryServer` -/

/-- The private members of `PS3EyeSharedMemoryServer`. A handle or view pointer is `true` when
it is non-null; a non-null handle always names the channel's object of its kind. The default
values are those set by the constructor. -/
structure PS3EyeSharedMemoryServer where
  m_fileMapping : Bool := false
  m_mutex : Bool := false
  m_newFrameEvent : Bool := false
  m_clientEvent : Bool := false
  m_sharedMemory : Bool := false
  m_frameNumber : Nat := 0
  deriving DecidableEq, Repr

/-- The header as `Create` initialises it, for the process id `pid` returned by
`GetCurrentProcessId()`; it starts from the zero-filled header. -/
def initHeader (pid : Nat) : PS3EyeFrameHeader :=
  { PS3EyeFrameHeader.zeroed with
    magic := PS3EYE_MAGIC
    version := PS3EYE_PROTOCOL_VERSION
    width := PS3EYE_WIDTH
    height := PS3EYE_HEIGHT
    stride := (PS3EYE_WIDTH * PS3EYE_BYTES_PER_PIXEL) % 2 ^ 32
    format := 0
    frameNumber := 0
    timestamp := 0
    dataOffset := sizeof_PS3EyeFrameHeader
    dataSize := PS3EYE_FRAME_SIZE
    serverPID := pid
    clientCount := 0 }

/-- The method `PS3EyeSharedMemoryServer::Create()`, called in a process whose id is `pid`. -/
def PS3EyeSharedMemoryServer.Create (self : PS3EyeSharedMemoryServer) (w : World) (pid : Nat)
    (os : OsFaults) : Bool × PS3EyeSharedMemoryServer × World :=
  -- Create mutex for synchronization
  let r := w.CreateMutexW os.mutex
  let self := { self with m_mutex := r.1 }
  let w := r.2
  if !self.m_mutex then (false, self, w) else
  -- Create event for signaling new frames (auto-reset)
  let r := w.CreateEventW_newFrame os.newFrameEvent
  let self := { self with m_newFrameEvent := r.1 }
  let w := r.2
  if !self.m_newFrameEvent then
    (false, { self with m_mutex := false }, w.CloseHandle_mutex) else
  -- Create event for client connect/disconnect notifications (auto-reset)
  let r := w.CreateEventW_client os.clientEvent
  let self := { self with m_clientEvent := r.1 }
  let w := r.2
  if !self.m_clientEvent then
    (false, { self with m_newFrameEvent := false, m_mutex := false },
      w.CloseHandle_newFrame.CloseHandle_mutex) else
  -- Create file mapping for shared memory
  let r := w.CreateFileMappingW os.fileMapping
  let self := { self with m_fileMapping := r.1 }
  let w := r.2
  if !self.m_fileMapping then
    (false, { self with m_clientEvent := false, m_newFrameEvent := false, m_mutex := false },
      w.CloseHandle_client.CloseHandle_newFrame.CloseHandle_mutex) else
  -- Map view of file
  let self := { self with m_sharedMemory := !os.mapView }
  if !self.m_sharedMemory then
    (false, { self with m_fileMapping := false, m_clientEvent := false,
                        m_newFrameEvent := false, m_mutex := false },
      w.CloseHandle_mapping.CloseHandle_client.CloseHandle_newFrame.CloseHandle_mutex) else
  -- Initialize header
  let w := { w with header := initHeader pid }
  (true, { self with m_frameNumber := 0 }, w)

/-- The method `PS3EyeSharedMemoryServer::Close()`. -/
def PS3EyeSharedMemoryServer.Close (self : PS3EyeSharedMemoryServer) (w : World) :
    PS3EyeSharedMemoryServer × World :=
  let w := if self.m_sharedMemory then
      -- Mark as closed
      { w with header := { w.header with serverPID := 0 } }
    else w
  let self := { self with m_sharedMemory := false }
  let w := if self.m_fileMapping then w.CloseHandle_mapping else w
  let self := { self with m_fileMapping := false }
  let w := if self.m_newFrameEvent then w.CloseHandle_newFrame else w
  let self := { self with m_newFrameEvent := false }
  let w := if self.m_clientEvent then w.CloseHandle_client else w
  let self := { self with m_clientEvent := false }
  let w := if self.m_mutex then w.CloseHandle_mutex else w
  let self := { self with m_mutex := false }
  (self, w)

/-- The method `PS3EyeSharedMemoryServer::IsCreated()`. -/
def PS3EyeSharedMemoryServer.IsCreated (self : PS3EyeSharedMemoryServer) : Bool :=
  self.m_sharedMemory

/-- The method `PS3EyeSharedMemoryServer::GetClientCount()`. -/
def PS3EyeSharedMemoryServer.GetClientCount (self : PS3EyeSharedMemoryServer) (w : World) : Int :=
  if !self.m_sharedMemory then 0 else w.header.clientCount

/-- The method `PS3EyeSharedMemoryServer::GetFrameNumber()`. -/
def PS3EyeSharedMemoryServer.GetFrameNumber (self : PS3EyeSharedMemoryServer) : Nat :=
  self.m_frameNumber

/-- The method `PS3EyeSharedMemoryServer::WriteFrame(frameData, frameSize, timestamp)` called
by thread `me`; `frameData = none` is the null pointer. -/
def PS3EyeSharedMemoryServer.WriteFrame (self : PS3EyeSharedMemoryServer) (w : World)
    (me : Party) (frameData : Option Buf) (frameSize : Nat) (timestamp : Nat) :
    Bool × PS3EyeSharedMemoryServer × World :=
  match frameData with
  | none => (false, self, w)
  | some data =>
    if !self.m_sharedMemory then (false, self, w) else
    if frameSize > PS3EYE_FRAME_SIZE then (false, self, w) else
    -- Acquire mutex
    let r := w.WaitForSingleObject_mutex self.m_mutex me
    if r.1 ≠ WaitResult.WAIT_OBJECT_0 then (false, self, r.2) else
    let w := r.2
    -- Copy frame
    let w := { w with mem := memcpy w.mem w.header.dataOffset data frameSize }
    -- Update header
    let self := { self with m_frameNumber := (self.m_frameNumber + 1) % 2 ^ 64 }
    let w := { w with header := { w.header with
                frameNumber := self.m_frameNumber
                timestamp := timestamp
                dataSize := frameSize } }
    -- Signal new frame available
    let w := w.SetEvent_newFrame self.m_newFrameEvent
    let w := w.ReleaseMutex self.m_mutex me
    (true, self, w)

/-! ## `PS3EyeSharedMemoryClient` -/

/-- The private members of `PS3EyeSharedMemoryClient`, with the constructor's values as
defaults. -/
structure PS3EyeSharedMemoryClient where
  m_fileMapping : Bool := false
  m_mutex : Bool := false
  m_newFrameEvent : Bool := false
  m_clientEvent : Bool := false
  m_sharedMemory : Bool := false
  m_lastFrameNumber : Nat := 0
  deriving DecidableEq, Repr

/-- The method `PS3EyeSharedMemoryClient::Disconnect()`. -/
def PS3EyeSharedMemoryClient.Disconnect (self : PS3EyeSharedMemoryClient) (w : World) :
    PS3EyeSharedMemoryClient × World :=
  -- Decrement client count first (while we still have access)
  let w := if self.m_sharedMemory then
      let w := { w with header := { w.header with
                  clientCount := InterlockedDecrement w.header.clientCount } }
      -- Signal server that client count changed
      w.SetEvent_client self.m_clientEvent
    else w
  let self := { self with m_sharedMemory := false }
  let w := if self.m_fileMapping then w.CloseHandle_mapping else w
  let self := { self with m_fileMapping := false }
  let w := if self.m_newFrameEvent then w.CloseHandle_newFrame else w
  let self := { self with m_newFrameEvent := false }
  let w := if self.m_clientEvent then w.CloseHandle_client else w
  let self := { self with m_clientEvent := false }
  let w := if self.m_mutex then w.CloseHandle_mutex else w
  let self := { self with m_mutex := false }
  (self, w)

/-- The method `PS3EyeSharedMemoryClient::Connect()`. -/
def PS3EyeSharedMemoryClient.Connect (self : PS3EyeSharedMemoryClient) (w : World)
    (os : OsFaults) : Bool × PS3EyeSharedMemoryClient × World :=
  -- Open existing mutex
  let r := w.OpenMutexW os.mutex
  let self := { self with m_mutex := r.1 }
  let w := r.2
  if !self.m_mutex then (false, self, w) else
  -- Open existing event
  let r := w.OpenEventW_newFrame os.newFrameEvent
  let self := { self with m_newFrameEvent := r.1 }
  let w := r.2
  if !self.m_newFrameEvent then
    (false, { self with m_mutex := false }, w.CloseHandle_mutex) else
  -- Open existing file mapping
  let r := w.OpenFileMappingW os.fileMapping
  let self := { self with m_fileMapping := r.1 }
  let w := r.2
  if !self.m_fileMapping then
    (false, { self with m_newFrameEvent := false, m_mutex := false },
      w.CloseHandle_newFrame.CloseHandle_mutex) else
  -- Map view of file
  let self := { self with m_sharedMemory := !os.mapView }
  if !self.m_sharedMemory then
    (false, { self with m_fileMapping := false, m_newFrameEvent := false, m_mutex := false },
      w.CloseHandle_mapping.CloseHandle_newFrame.CloseHandle_mutex) else
  -- Validate header
  if w.header.magic ≠ PS3EYE_MAGIC ∨ w.header.version ≠ PS3EYE_PROTOCOL_VERSION then
    let d := self.Disconnect w
    (false, d.1, d.2) else
  -- Open client event to signal server
  let r := w.OpenEventW_client os.clientEvent
  let self := { self with m_clientEvent := r.1 }
  let w := r.2.SetEvent_client self.m_clientEvent
  -- Increment client count (for on-demand mode)
  let w := { w with header := { w.header with
              clientCount := InterlockedIncrement w.header.clientCount } }
  (true, { self with m_lastFrameNumber := 0 }, w)

/-- The method `PS3EyeSharedMemoryClient::IsConnected()`. -/
def PS3EyeSharedMemoryClient.IsConnected (self : PS3EyeSharedMemoryClient) : Bool :=
  self.m_sharedMemory

/-- The method `PS3EyeSharedMemoryClient::WaitForFrame(timeoutMs)`. -/
def PS3EyeSharedMemoryClient.WaitForFrame (self : PS3EyeSharedMemoryClient) (w : World) :
    Bool × World :=
  if !self.m_newFrameEvent then (false, w) else
  let r := w.WaitForSingleObject_newFrame self.m_newFrameEvent
  (decide (r.1 = WaitResult.WAIT_OBJECT_0), r.2)

/-- What a `ReadFrame` call leaves behind: its return value, the client, the kernel objects,
the caller's destination buffer and the two optional out-parameters (`none` is the null
pointer, `some v` a cell holding `v`). -/
structure ReadFrameResult where
  ret : Bool
  self : PS3EyeSharedMemoryClient
  world : World
  destBuffer : Option Buf
  frameNumber : Option Nat
  timestamp : Option Nat

/-- The method `PS3EyeSharedMemoryClient::ReadFrame(destBuffer, destSize, frameNumber,
timestamp)` called by thread `me`. -/
def PS3EyeSharedMemoryClient.ReadFrame (self : PS3EyeSharedMemoryClient) (w : World)
    (me : Party) (destBuffer : Option Buf) (destSize : Nat)
    (frameNumber timestamp : Option Nat) : ReadFrameResult :=
  match destBuffer with
  | none => ⟨false, self, w, destBuffer, frameNumber, timestamp⟩
  | some dest =>
    if !self.m_sharedMemory then ⟨false, self, w, destBuffer, frameNumber, timestamp⟩ else
    -- Acquire mutex for reading
    let r := w.WaitForSingleObject_mutex self.m_mutex me
    if r.1 ≠ WaitResult.WAIT_OBJECT_0 then
      ⟨false, self, r.2, destBuffer, frameNumber, timestamp⟩ else
    let w := r.2
    -- Check if server is still running
    if w.header.serverPID = 0 then
      ⟨false, self, w.ReleaseMutex self.m_mutex me, destBuffer, frameNumber, timestamp⟩ else
    -- Check if new frame
    if w.header.frameNumber = self.m_lastFrameNumber then
      ⟨false, self, w.ReleaseMutex self.m_mutex me, destBuffer, frameNumber, timestamp⟩ else
    -- Copy frame data
    let copySize := min destSize w.header.dataSize
    let dest := memcpy dest 0 (fun i => w.mem (w.header.dataOffset + i)) copySize
    -- Update tracking
    let self := { self with m_lastFrameNumber := w.header.frameNumber }
    let frameNumber := frameNumber.map (fun _ => w.header.frameNumber)
    let timestamp := timestamp.map (fun _ => w.header.timestamp)
    ⟨true, self, w.ReleaseMutex self.m_mutex me, some dest, frameNumber, timestamp⟩

/-- What a `GetFrameInfo` call leaves behind: its return value and the four optional
out-parameters. -/
structure FrameInfoResult where
  ret : Bool
  width : Option Nat
  height : Option Nat
  format : Option Nat
  frameNumber : Option Nat
  deriving DecidableEq, Repr

/-- The method `PS3EyeSharedMemoryClient::GetFrameInfo(width, height, format, frameNumber)`. -/
def PS3EyeSharedMemoryClient.GetFrameInfo (self : PS3EyeSharedMemoryClient) (w : World)
    (width height format frameNumber : Option Nat) : FrameInfoResult :=
  if !self.m_sharedMemory then ⟨false, width, height, format, frameNumber⟩ else
  ⟨true, width.map (fun _ => w.header.width), height.map (fun _ => w.header.height),
    format.map (fun _ => w.header.format), frameNumber.map (fun _ => w.header.frameNumber)⟩

/-- The method `PS3EyeSharedMemoryServer::WaitForClients(timeoutMs)`, with no other thread
running during the wait. -/
def PS3EyeSharedMemoryServer.WaitForClients (self : PS3EyeSharedMemoryServer) (w : World) :
    Bool × World :=
  if !self.m_clientEvent then (false, w) else
  -- Check if already have clients
  if self.GetClientCount w > 0 then (true, w) else
  -- Wait for client event
  let r := w.WaitForSingleObject_client self.m_clientEvent
  (decide (r.1 = WaitResult.WAIT_OBJECT_0) || decide (self.GetClientCount r.2 > 0), r.2)

/-! ## The channel with its participants -/

/-- The kernel objects together with every server instance and every client instance of the
machine, each instance driven by a thread of its own. -/
structure Machine where
  world : World
  servers : Nat → PS3EyeSharedMemoryServer
  clients : Nat → PS3EyeSharedMemoryClient

/-- Nothing exists yet and every instance is as its constructor leaves it. -/
def Machine.init : Machine :=
  { world := World.empty, servers := fun _ => {}, clients := fun _ => {} }

/-- One call on one instance, or one move of another thread on the mutex. -/
inductive Action where
  | create (i : Nat) (pid : Nat) (os : OsFaults)
  | close (i : Nat)
  | writeFrame (i : Nat) (frameData : Option Buf) (frameSize : Nat) (timestamp : Nat)
  | waitForClients (i : Nat)
  | connect (j : Nat) (os : OsFaults)
  | disconnect (j : Nat)
  | waitForFrame (j : Nat)
  | readFrame (j : Nat) (destBuffer : Option Buf) (destSize : Nat)
      (frameNumber timestamp : Option Nat)
  | getFrameInfo (j : Nat) (width height format frameNumber : Option Nat)
  | otherAcquire (k : Nat)
  | otherRelease (k : Nat)
  | otherAbandon (k : Nat)

/-- The state after one action. -/
def Machine.step (s : Machine) : Action → Machine
  | .create i pid os =>
    let r := (s.servers i).Create s.world pid os
    { s with world := r.2.2, servers := Function.update s.servers i r.2.1 }
  | .close i =>
    let r := (s.servers i).Close s.world
    { s with world := r.2, servers := Function.update s.servers i r.1 }
  | .writeFrame i frameData frameSize timestamp =>
    let r := (s.servers i).WriteFrame s.world (Party.server i) frameData frameSize timestamp
    { s with world := r.2.2, servers := Function.update s.servers i r.2.1 }
  | .waitForClients i =>
    { s with world := ((s.servers i).WaitForClients s.world).2 }
  | .connect j os =>
    let r := (s.clients j).Connect s.world os
    { s with world := r.2.2, clients := Function.update s.clients j r.2.1 }
  | .disconnect j =>
    let r := (s.clients j).Disconnect s.world
    { s with world := r.2, clients := Function.update s.clients j r.1 }
  | .waitForFrame j =>
    { s with world := ((s.clients j).WaitForFrame s.world).2 }
  | .readFrame j destBuffer destSize frameNumber timestamp =>
    let r := (s.clients j).ReadFrame s.world (Party.client j) destBuffer destSize
      frameNumber timestamp
    { s with world := r.world, clients := Function.update s.clients j r.self }
  | .getFrameInfo _ _ _ _ _ => s
  | .otherAcquire k =>
    { s with world := (s.world.WaitForSingleObject_mutex true (Party.other k)).2 }
  | .otherRelease k =>
    { s with world := s.world.ReleaseMutex true (Party.other k) }
  | .otherAbandon k =>
    { s with world :=
        if s.world.mutexLock.map Prod.fst = some (Party.other k) then
          { s.world with mutexLock := none, mutexAbandoned := true }
        else s.world }

/-- Every handle and the view pointer of the server are non-null, as a `Create` that returned
true leaves them. -/
def PS3EyeSharedMemoryServer.Created (self : PS3EyeSharedMemoryServer) : Prop :=
  self.m_fileMapping = true ∧ self.m_mutex = true ∧ self.m_newFrameEvent = true ∧
  self.m_clientEvent = true ∧ self.m_sharedMemory = true

instance (self : PS3EyeSharedMemoryServer) : Decidable self.Created := by
  unfold PS3EyeSharedMemoryServer.Created; infer_instance

/-- The header fields that `Create` stamps and no method writes afterwards hold the values
`Create` gives them; in particular the frame slot starts right after the header. -/
def World.Stamped (w : World) : Prop :=
  w.header.magic = PS3EYE_MAGIC ∧ w.header.version = PS3EYE_PROTOCOL_VERSION ∧
  w.header.width = PS3EYE_WIDTH ∧ w.header.height = PS3EYE_HEIGHT ∧
  w.header.stride = (PS3EYE_WIDTH * PS3EYE_BYTES_PER_PIXEL) % 2 ^ 32 ∧
  w.header.format = 0 ∧ w.header.dataOffset = sizeof_PS3EyeFrameHeader

instance (w : World) : Decidable w.Stamped := by
  unfold World.Stamped; infer_instance

/-- The byte `i` of the frame slot, the part of the region that follows the header. -/
def World.frameSlot (w : World) (i : Nat) : Byte := w.mem (sizeof_PS3EyeFrameHeader + i)

/-- The state after a sequence of actions. -/
def Machine.run (s : Machine) (acts : List Action) : Machine :=
  acts.foldl Machine.step s

/-- Whether an action is a `Create` call. -/
def Action.isCreate : Action → Bool
  | .create _ _ _ => true
  | _ => false

/-- Whether an action is a `WriteFrame` call. -/
def Action.isWriteFrame : Action → Bool
  | .writeFrame _ _ _ _ => true
  | _ => false

/-- Whether an action is a `Close` call. -/
def Action.isClose : Action → Bool
  | .close _ => true
  | _ => false

/-- Whether an action is a `WriteFrame` call of a server other than `i`. -/
def Action.isWriteFrameNot (i : Nat) : Action → Bool
  | .writeFrame j _ _ _ => decide (j ≠ i)
  | _ => false

/-- The number of `WriteFrame` calls of a run that return true. -/
def Machine.writes (s : Machine) : List Action → Nat
  | [] => 0
  | .writeFrame i frameData frameSize timestamp :: acts =>
    (if ((s.servers i).WriteFrame s.world (Party.server i) frameData frameSize timestamp).1
      then 1 else 0)
      + (s.step (.writeFrame i frameData frameSize timestamp)).writes acts
  | a :: acts => (s.step a).writes acts

/-- The number of `Connect` calls of a run that return true. -/
def Machine.connects (s : Machine) : List Action → Nat
  | [] => 0
  | .connect j os :: acts =>
    (if ((s.clients j).Connect s.world os).1 then 1 else 0)
      + (s.step (.connect j os)).connects acts
  | a :: acts => (s.step a).connects acts

/-- The number of `Disconnect` calls of a run that are made on a connected client. -/
def Machine.disconnects (s : Machine) : List Action → Nat
  | [] => 0
  | .disconnect j :: acts =>
    (if (s.clients j).IsConnected then 1 else 0) + (s.step (.disconnect j)).disconnects acts
  | a :: acts => (s.step a).disconnects acts

/-- The number of `Connect` calls in a list of actions, whatever they return. -/
def connectCalls : List Action → Nat
  | [] => 0
  | .connect _ _ :: acts => 1 + connectCalls acts
  | _ :: acts => connectCalls acts

/-- The number of `Disconnect` calls in a list of actions. -/
def disconnectCalls : List Action → Nat
  | [] => 0
  | .disconnect _ :: acts => 1 + disconnectCalls acts
  | _ :: acts => disconnectCalls acts

/-- The first `n` bytes of a buffer, as a list. -/
def Buf.take (b : Buf) (n : Nat) : List Byte := (List.range n).map b

/-- Every handle and the view pointer of the client are null, as the constructor and
`Disconnect` leave them. -/
def PS3EyeSharedMemoryClient.Disconnected (self : PS3EyeSharedMemoryClient) : Prop :=
  self.m_fileMapping = false ∧ self.m_mutex = false ∧ self.m_newFrameEvent = false ∧
  self.m_clientEvent = false ∧ self.m_sharedMemory = false

instance (self : PS3EyeSharedMemoryClient) : Decidable self.Disconnected := by
  unfold PS3EyeSharedMemoryClient.Disconnected; infer_instance

/-- Every handle and the view pointer of the server are null, as the constructor and `Close`
leave them. -/
def PS3EyeSharedMemoryServer.NoHandles (self : PS3EyeSharedMemoryServer) : Prop :=
  self.m_fileMapping = false ∧ self.m_mutex = false ∧ self.m_newFrameEvent = false ∧
  self.m_clientEvent = false ∧ self.m_sharedMemory = false

instance (self : PS3EyeSharedMemoryServer) : Decidable self.NoHandles := by
  unfold PS3EyeSharedMemoryServer.NoHandles; infer_instance

/-- Whether an action is a `Connect` call of client `j`. -/
def Action.isConnectOf (j : Nat) : Action → Bool
  | .connect k _ => decide (k = j)
  | _ => false

/-- The method `PS3EyeSharedMemoryServer::WaitForClients(timeoutMs)` as a blocking call: `w` is
the state of the kernel objects on entry and `w2` their state when the wait on the client event
ends, after whatever the other threads did meanwhile. -/
def PS3EyeSharedMemoryServer.WaitForClientsAt (self : PS3EyeSharedMemoryServer) (w w2 : World) :
    Bool × World :=
  if !self.m_clientEvent then (false, w) else
  -- Check if already have clients
  if self.GetClientCount w > 0 then (true, w) else
  -- Wait for client event
  let r := w2.WaitForSingleObject_client self.m_clientEvent
  (decide (r.1 = WaitResult.WAIT_OBJECT_0) || decide (self.GetClientCount r.2 > 0), r.2)

/-- Whether an action is a `WaitForFrame` call. -/
def Action.isWaitForFrame : Action → Bool
  | .waitForFrame _ => true
  | _ => false

/-- Whether an action is a call on client `j` that can change the client object: `Connect`,
`Disconnect` or `ReadFrame`. -/
def Action.isCallOf (j : Nat) : Action → Bool
  | .connect k _ => decide (k = j)
  | .disconnect k => decide (k = j)
  | .readFrame k _ _ _ _ => decide (k = j)
  | _ => false

/-- Whether an action is a `ReadFrame` or a `GetFrameInfo` call of a client other than `j`. -/
def Action.isReadOfOther (j : Nat) : Action → Bool
  | .readFrame k _ _ _ _ => decide (k ≠ j)
  | .getFrameInfo k _ _ _ _ => decide (k ≠ j)
  | _ => false

/-- The number of `WaitForFrame` calls of a run that return true. -/
def Machine.wakeups (s : Machine) : List Action → Nat
  | [] => 0
  | .waitForFrame j :: acts =>
    (if ((s.clients j).WaitForFrame s.world).1 then 1 else 0)
      + (s.step (.waitForFrame j)).wakeups acts
  | a :: acts => (s.step a).wakeups acts

/-! ## The layout of the header structs -/

/-- The members of `PS3EyeFrameHeader` in declaration order: name, size of the scalar type,
number of elements (`UINT32 reserved[4]` is four elements of size 4). -/
def PS3EyeFrameHeader_members : List (String × Nat × Nat) :=
  [("magic", 4, 1), ("version", 4, 1), ("width", 4, 1), ("height", 4, 1), ("stride", 4, 1),
   ("format", 4, 1), ("frameNumber", 8, 1), ("timestamp", 8, 1), ("dataOffset", 4, 1),
   ("dataSize", 4, 1), ("serverPID", 4, 1), ("clientCount", 4, 1), ("reserved", 4, 4)]

/-- The members of `SharedFrameHeader`, the struct `SharedMemoryTest.cpp` declares for the
header of the region, in declaration order. -/
def SharedFrameHeader_members : List (String × Nat × Nat) :=
  [("frameNumber", 8, 1), ("timestamp", 8, 1), ("width", 4, 1), ("height", 4, 1),
   ("stride", 4, 1), ("format", 4, 1), ("writerActive", 4, 1), ("readerCount", 4, 1)]

/-- The packing of a struct declared outside any `#pragma pack`: every scalar of up to 8 bytes
is aligned to its own size. -/
def defaultPack : Nat := 8

/-- The least multiple of `a` that is at least `n`. -/
def alignUp (a n : Nat) : Nat := (n + a - 1) / a * a

/-- The offsets the compiler gives the members under `#pragma pack(pack)`, laying them out
from offset `pos`: each member is aligned to the smaller of `pack` and its scalar size. -/
def memberOffsets (pack : Nat) : Nat → List (String × Nat × Nat) → List (String × Nat)
  | _, [] => []
  | pos, (name, size, count) :: rest =>
    (name, alignUp (min pack size) pos)
      :: memberOffsets pack (alignUp (min pack size) pos + size * count) rest

/-- The offset one past the last member. -/
def membersEnd (pack : Nat) : Nat → List (String × Nat × Nat) → Nat
  | pos, [] => pos
  | pos, (_, size, count) :: rest =>
    membersEnd pack (alignUp (min pack size) pos + size * count) rest

/-- The alignment of the struct: the largest alignment of a member. -/
def structAlign (pack : Nat) (members : List (String × Nat × Nat)) : Nat :=
  (members.map (fun m => min pack m.2.1)).foldl max 1

/-- The value of `sizeof` for the struct: the end of the members rounded up to the struct's
alignment. -/
def sizeofStruct (pack : Nat) (members : List (String × Nat × Nat)) : Nat :=
  alignUp (structAlign pack members) (membersEnd pack 0 members)

/-- The value of `offsetof` for a member, `none` when the struct has no such member. -/
def offsetof (pack : Nat) (members : List (String × Nat × Nat)) (name : String) : Option Nat :=
  (memberOffsets pack 0 members).lookup name

/-- The member of `PS3EyeFrameHeader` that occupies the byte at offset `off` of the region. -/
def PS3EyeFrameHeader_memberAt (off : Nat) : Option String :=
  ((memberOffsets 1 0 PS3EyeFrameHeader_members).zip PS3EyeFrameHeader_members).findSome?
    (fun m => if m.1.2 ≤ off ∧ off < m.1.2 + m.2.2.1 * m.2.2.2 then some m.1.1 else none)

/-- The size `SharedMemoryTest.cpp` maps: `sizeof(SharedFrameHeader) + PS3EYE_FRAME_SIZE` with
its own `#define PS3EYE_FRAME_SIZE (640 * 480 * 3)`. -/
def SharedMemoryTest_totalSize : Nat :=
  sizeofStruct defaultPack SharedFrameHeader_members + 640 * 480 * 3

/-! ## The capture loop of `PS3EyeCaptureService.cpp` -/

/-- The local variables of `CaptureLoop` that outlive an iteration: the server object, whether
the `camera` pointer is non-null, `cameraActive` and `noClientFrames`. -/
structure CaptureLoopState where
  sharedMemory : PS3EyeSharedMemoryServer
  camera : Bool := false
  cameraActive : Bool := false
  noClientFrames : Int := 0

/-- What one iteration of the loop gets from outside: the answers of the camera library
(`getDevices` non-empty, `init`, `isStreaming`), the frame `getFrame` delivers, the timestamp
computed from the performance counter, and what the other threads do to the kernel objects
before the iteration, during the wait of `WaitForClients` and between `WriteFrame` and
`GetClientCount`. -/
structure CaptureLoopInput where
  devices : Bool
  initOk : Bool
  isStreaming : Bool
  frame : Buf
  timestamp : Nat
  before : World → World
  duringWait : World → World
  afterWrite : World → World

/-- The lambda `initCamera` of `CaptureLoop`. -/
def initCamera (st : CaptureLoopState) (inp : CaptureLoopInput) : Bool × CaptureLoopState :=
  if st.cameraActive then (true, st) else
  if !inp.devices then (false, st) else
  let st := { st with camera := true }
  if !inp.initOk then (false, st) else
  (true, { st with cameraActive := true })

/-- The lambda `stopCamera` of `CaptureLoop`. -/
def stopCamera (st : CaptureLoopState) : CaptureLoopState :=
  if !st.cameraActive then st else
  { st with camera := false, cameraActive := false }

/-- What one iteration of the loop leaves: the local variables, the kernel objects, whether
the iteration called `WriteFrame`, and the value `GetClientCount()` returned to the check after
the publish when the iteration reached it. -/
structure CaptureLoopStep where
  state : CaptureLoopState
  world : World
  writeFrameCalled : Bool
  observed : Option Int

/-- One iteration of `while (g_running)` in `CaptureLoop`, run by the thread of server 0 on the
kernel objects `w`. -/
def CaptureLoop_iteration (st : CaptureLoopState) (w : World) (inp : CaptureLoopInput) :
    CaptureLoopStep :=
  -- On-demand: wait for clients
  if !st.cameraActive then
    let r := st.sharedMemory.WaitForClientsAt w (inp.duringWait w)
    if r.1 then ⟨(initCamera st inp).2, r.2, false, none⟩ else ⟨st, r.2, false, none⟩
  else if !st.camera || !inp.isStreaming then ⟨st, w, false, none⟩
  else
    let r := st.sharedMemory.WriteFrame w (Party.server 0) (some inp.frame) PS3EYE_FRAME_SIZE
      inp.timestamp
    let st := { st with sharedMemory := r.2.1 }
    let w := inp.afterWrite r.2.2
    -- Check clients
    let c := st.sharedMemory.GetClientCount w
    if c ≤ 0 then
      let st := { st with noClientFrames := wrapLONG (st.noClientFrames + 1) }
      if st.noClientFrames > 30 then
        ⟨{ stopCamera st with noClientFrames := 0 }, w, true, some c⟩
      else ⟨st, w, true, some c⟩
    else ⟨{ st with noClientFrames := 0 }, w, true, some c⟩

/-- The loop over a sequence of iterations. -/
def CaptureLoop_run (st : CaptureLoopState) (w : World) :
    List CaptureLoopInput → CaptureLoopState × World
  | [] => (st, w)
  | inp :: rest =>
    CaptureLoop_run (CaptureLoop_iteration st (inp.before w) inp).state
      (CaptureLoop_iteration st (inp.before w) inp).world rest

/-- Whether every iteration of the sequence reaches the check after the publish and observes
`GetClientCount() <= 0` there. -/
def noClientStreak (st : CaptureLoopState) (w : World) : List CaptureLoopInput → Bool
  | [] => true
  | inp :: rest =>
    (match (CaptureLoop_iteration st (inp.before w) inp).observed with
      | some c => decide (c ≤ 0)
      | none => false)
    && noClientStreak (CaptureLoop_iteration st (inp.before w) inp).state
        (CaptureLoop_iteration st (inp.before w) inp).world rest

/-- The value `GetClientCount()` returns to the check after the publish, in an iteration that
reaches the check. -/
def CaptureLoop_count (st : CaptureLoopState) (w : World) (inp : CaptureLoopInput) : Int :=
  (st.sharedMemory.WriteFrame w (Party.server 0) (some inp.frame) PS3EYE_FRAME_SIZE
    inp.timestamp).2.1.GetClientCount
    (inp.afterWrite (st.sharedMemory.WriteFrame w (Party.server 0) (some inp.frame)
      PS3EYE_FRAME_SIZE inp.timestamp).2.2)

/-! ## Invariants of runs -/

/-- What holds of the frame numbers while one server `i` owns the channel: the header carries
the counter of server `i`, no other server is created, and no attached client has seen a frame
number above the header's. -/
def Machine.SingleWriter (s : Machine) (i : Nat) : Prop :=
  s.world.header.frameNumber = (s.servers i).m_frameNumber ∧
  (∀ k, k ≠ i → (s.servers k).m_sharedMemory = false) ∧
  (∀ j, (s.clients j).m_sharedMemory = true →
    (s.clients j).m_lastFrameNumber ≤ s.world.header.frameNumber)

/-- The client counter is at least the number of clients that hold a view of the region. -/
def Machine.CountCoversAttached (s : Machine) : Prop :=
  ∃ S : Finset Nat, (∀ j, (s.clients j).m_sharedMemory = true → j ∈ S) ∧
    (S.card : Int) ≤ s.world.header.clientCount

/-! ## Concrete channels and runs used as examples -/

/-- A concrete channel on which another thread holds the mutex when `WriteFrame` is called. -/
def lockedWorld : World :=
  { (({} : PS3EyeSharedMemoryServer).Create World.empty 4242 {}).2.2 with
    mutexLock := some (Party.other 0, 0) }

/-- A channel with one server and one connected client, on which nothing is published yet. -/
def demoMachine : Machine :=
  Machine.init.run [.create 0 4242 {}, .connect 0 {}]

/-- A channel whose header carries protocol version 2. -/
def versionTwoWorld : World :=
  { (({} : PS3EyeSharedMemoryServer).Create World.empty 4242 {}).2.2 with
    header := { (({} : PS3EyeSharedMemoryServer).Create World.empty 4242 {}).2.2.header with
      version := 2 } }

/-- A channel owned by server 0 (process 100) that has published two frames to one connected
client. -/
def busyMachine : Machine :=
  Machine.init.run
    [.create 0 100 {}, .writeFrame 0 (some (bufOfList [1, 2, 3])) 3 1000,
     .writeFrame 0 (some (bufOfList [4, 5, 6])) 3 2000, .connect 0 {}]

/-- Client 0 has read frame 2 of server 0, and the server has then been closed and created
again while the client stayed attached. -/
def restartedMachine : Machine :=
  busyMachine.run
    [.readFrame 0 (some (fun _ => 0)) 3 (some 0) (some 0), .close 0, .create 0 100 {}]

/-- Scenario D: server 0 publishes five frames to a connected client and calls `Close`. -/
def closedMachine : Machine :=
  Machine.init.run
    [.create 0 100 {}, .connect 0 {},
     .writeFrame 0 (some (bufOfList [1])) 1 1000, .writeFrame 0 (some (bufOfList [2])) 1 2000,
     .writeFrame 0 (some (bufOfList [3])) 1 3000, .writeFrame 0 (some (bufOfList [4])) 1 4000,
     .writeFrame 0 (some (bufOfList [5])) 1 5000, .close 0]

/-- Client 0 has read the only frame server 0 has published. -/
def caughtUpMachine : Machine :=
  Machine.init.run
    [.create 0 100 {}, .connect 0 {}, .writeFrame 0 (some (bufOfList [1, 2, 3])) 3 1000,
     .readFrame 0 (some (fun _ => 0)) 3 (some 0) (some 0)]

/-- Client 0 is connected and calls `Connect` again; this time `MapViewOfFile` fails. -/
def halfOpenMachine : Machine :=
  Machine.init.run
    [.create 0 100 {}, .connect 0 {}, .connect 0 { mapView := true }]

/-- Server 0 is created; client 0 has connected and disconnected again. -/
def desertedMachine : Machine :=
  Machine.init.run [.create 0 100 {}, .connect 0 {}, .disconnect 0]

/-- Server 0 (process 100) has published one frame; no client is connected yet. -/
def publishedMachine : Machine :=
  Machine.init.run [.create 0 100 {}, .writeFrame 0 (some (bufOfList [1, 2, 3])) 3 1000]

/-- Clients 0 and 1 are connected and server 0 has published one frame to them. -/
def twoClientMachine : Machine :=
  Machine.init.run
    [.create 0 100 {}, .connect 0 {}, .connect 1 {},
     .writeFrame 0 (some (bufOfList [1, 2, 3])) 3 1000]

/-- On the channel of `twoClientMachine` another thread has acquired the mutex and ended
without releasing it. -/
def abandonedMachine : Machine :=
  twoClientMachine.run [.otherAcquire 7, .otherAbandon 7]

/-- The channel of `demoMachine` at the moment client 0 is inside `ReadFrame`, between its
acquisition of the mutex and its release. -/
def readerInsideWorld : World :=
  (demoMachine.world.WaitForSingleObject_mutex true (Party.client 0)).2

/-- The capture loop right after its `Create`, with the camera running. -/
def activeLoopState : CaptureLoopState :=
  { sharedMemory := (({} : PS3EyeSharedMemoryServer).Create World.empty 100 {}).2.1,
    camera := true, cameraActive := true, noClientFrames := 0 }

/-- The kernel objects right after the `Create` of the capture loop. -/
def loopWorld : World := (({} : PS3EyeSharedMemoryServer).Create World.empty 100 {}).2.2

/-- An iteration during which the camera streams and no other thread touches the channel. -/
def quietInput : CaptureLoopInput :=
  { devices := true, initOk := true, isStreaming := true, frame := fun _ => 0,
    timestamp := 0, before := id, duringWait := id, afterWrite := id }

/-! ## Facts about the Win32 calls -/

@[simp] theorem CreateMutexW_fst (w : World) (f : Bool) : (w.CreateMutexW f).1 = !f := by
  unfold World.CreateMutexW; split_ifs <;> simp_all

@[simp] theorem CreateEventW_newFrame_fst (w : World) (f : Bool) :
    (w.CreateEventW_newFrame f).1 = !f := by
  unfold World.CreateEventW_newFrame; split_ifs <;> simp_all

@[simp] theorem CreateEventW_client_fst (w : World) (f : Bool) :
    (w.CreateEventW_client f).1 = !f := by
  unfold World.CreateEventW_client; split_ifs <;> simp_all

@[simp] theorem CreateFileMappingW_fst (w : World) (f : Bool) :
    (w.CreateFileMappingW f).1 = !f := by
  unfold World.CreateFileMappingW; split_ifs <;> simp_all

theorem Create_ret (self : PS3EyeSharedMemoryServer) (w : World) (pid : Nat) (os : OsFaults) :
    (self.Create w pid os).1
      = (!os.mutex && !os.newFrameEvent && !os.clientEvent && !os.fileMapping && !os.mapView) := by
  obtain ⟨a, b, c, d, e⟩ := os
  cases a <;> cases b <;> cases c <;> cases d <;> cases e <;>
    simp [PS3EyeSharedMemoryServer.Create]

theorem Create_true (self : PS3EyeSharedMemoryServer) (w : World) (pid : Nat) (os : OsFaults)
    (h : (self.Create w pid os).1 = true) :
    (self.Create w pid os).2.1 = ⟨true, true, true, true, true, 0⟩ ∧
    (self.Create w pid os).2.2.header = initHeader pid := by
  rw [Create_ret] at h
  obtain ⟨a, b, c, d, e⟩ := os
  simp at h
  obtain ⟨⟨⟨⟨rfl, rfl⟩, rfl⟩, rfl⟩, rfl⟩ := h
  simp [PS3EyeSharedMemoryServer.Create]

@[simp] theorem OpenMutexW_fst (w : World) (f : Bool) :
    (w.OpenMutexW f).1 = (!f && decide (w.mutexHandles ≠ 0)) := by
  unfold World.OpenMutexW; cases f <;> by_cases h : w.mutexHandles = 0 <;> simp [h]

@[simp] theorem OpenMutexW_header (w : World) (f : Bool) :
    (w.OpenMutexW f).2.header = w.header := by
  unfold World.OpenMutexW; split_ifs <;> rfl

@[simp] theorem OpenMutexW_mem (w : World) (f : Bool) :
    (w.OpenMutexW f).2.mem = w.mem := by
  unfold World.OpenMutexW; split_ifs <;> rfl

@[simp] theorem OpenMutexW_newFrameSignaled (w : World) (f : Bool) :
    (w.OpenMutexW f).2.newFrameSignaled = w.newFrameSignaled := by
  unfold World.OpenMutexW; split_ifs <;> rfl

@[simp] theorem OpenMutexW_clientEventSignaled (w : World) (f : Bool) :
    (w.OpenMutexW f).2.clientEventSignaled = w.clientEventSignaled := by
  unfold World.OpenMutexW; split_ifs <;> rfl

@[simp] theorem OpenMutexW_mutexLock (w : World) (f : Bool) :
    (w.OpenMutexW f).2.mutexLock = w.mutexLock := by
  unfold World.OpenMutexW; split_ifs <;> rfl

@[simp] theorem OpenMutexW_mutexAbandoned (w : World) (f : Bool) :
    (w.OpenMutexW f).2.mutexAbandoned = w.mutexAbandoned := by
  unfold World.OpenMutexW; split_ifs <;> rfl

@[simp] theorem OpenMutexW_mutexHandles (w : World) (f : Bool) :
    (w.OpenMutexW f).2.mutexHandles = if (!f && decide (w.mutexHandles ≠ 0)) = true then w.mutexHandles + 1 else w.mutexHandles := by
  unfold World.OpenMutexW; cases f <;> by_cases h : w.mutexHandles = 0 <;> simp [h]

@[simp] theorem OpenMutexW_newFrameHandles (w : World) (f : Bool) :
    (w.OpenMutexW f).2.newFrameHandles = w.newFrameHandles := by
  unfold World.OpenMutexW; split_ifs <;> rfl

@[simp] theorem OpenMutexW_clientEventHandles (w : World) (f : Bool) :
    (w.OpenMutexW f).2.clientEventHandles = w.clientEventHandles := by
  unfold World.OpenMutexW; split_ifs <;> rfl

@[simp] theorem OpenMutexW_mappingHandles (w : World) (f : Bool) :
    (w.OpenMutexW f).2.mappingHandles = w.mappingHandles := by
  unfold World.OpenMutexW; split_ifs <;> rfl

@[simp] theorem OpenEventW_newFrame_fst (w : World) (f : Bool) :
    (w.OpenEventW_newFrame f).1 = (!f && decide (w.newFrameHandles ≠ 0)) := by
  unfold World.OpenEventW_newFrame; cases f <;> by_cases h : w.newFrameHandles = 0 <;> simp [h]

@[simp] theorem OpenEventW_newFrame_header (w : World) (f : Bool) :
    (w.OpenEventW_newFrame f).2.header = w.header := by
  unfold World.OpenEventW_newFrame; split_ifs <;> rfl

@[simp] theorem OpenEventW_newFrame_mem (w : World) (f : Bool) :
    (w.OpenEventW_newFrame f).2.mem = w.mem := by
  unfold World.OpenEventW_newFrame; split_ifs <;> rfl

@[simp] theorem OpenEventW_newFrame_newFrameSignaled (w : World) (f : Bool) :
    (w.OpenEventW_newFrame f).2.newFrameSignaled = w.newFrameSignaled := by
  unfold World.OpenEventW_newFrame; split_ifs <;> rfl

@[simp] theorem OpenEventW_newFrame_clientEventSignaled (w : World) (f : Bool) :
    (w.OpenEventW_newFrame f).2.clientEventSignaled = w.clientEventSignaled := by
  unfold World.OpenEventW_newFrame; split_ifs <;> rfl

@[simp] theorem OpenEventW_newFrame_mutexLock (w : World) (f : Bool) :
    (w.OpenEventW_newFrame f).2.mutexLock = w.mutexLock := by
  unfold World.OpenEventW_newFrame; split_ifs <;> rfl

@[simp] theorem OpenEventW_newFrame_mutexAbandoned (w : World) (f : Bool) :
    (w.OpenEventW_newFrame f).2.mutexAbandoned = w.mutexAbandoned := by
  unfold World.OpenEventW_newFrame; split_ifs <;> rfl

@[simp] theorem OpenEventW_newFrame_mutexHandles (w : World) (f : Bool) :
    (w.OpenEventW_newFrame f).2.mutexHandles = w.mutexHandles := by
  unfold World.OpenEventW_newFrame; split_ifs <;> rfl

@[simp] theorem OpenEventW_newFrame_newFrameHandles (w : World) (f : Bool) :
    (w.OpenEventW_newFrame f).2.newFrameHandles = if (!f && decide (w.newFrameHandles ≠ 0)) = true then w.newFrameHandles + 1 else w.newFrameHandles := by
  unfold World.OpenEventW_newFrame; cases f <;> by_cases h : w.newFrameHandles = 0 <;> simp [h]

@[simp] theorem OpenEventW_newFrame_clientEventHandles (w : World) (f : Bool) :
    (w.OpenEventW_newFrame f).2.clientEventHandles = w.clientEventHandles := by
  unfold World.OpenEventW_newFrame; split_ifs <;> rfl

@[simp] theorem OpenEventW_newFrame_mappingHandles (w : World) (f : Bool) :
    (w.OpenEventW_newFrame f).2.mappingHandles = w.mappingHandles := by
  unfold World.OpenEventW_newFrame; split_ifs <;> rfl

@[simp] theorem OpenEventW_client_fst (w : World) (f : Bool) :
    (w.OpenEventW_client f).1 = (!f && decide (w.clientEventHandles ≠ 0)) := by
  unfold World.OpenEventW_client; cases f <;> by_cases h : w.clientEventHandles = 0 <;> simp [h]

@[simp] theorem OpenEventW_client_header (w : World) (f : Bool) :
    (w.OpenEventW_client f).2.header = w.header := by
  unfold World.OpenEventW_client; split_ifs <;> rfl

@[simp] theorem OpenEventW_client_mem (w : World) (f : Bool) :
    (w.OpenEventW_client f).2.mem = w.mem := by
  unfold World.OpenEventW_client; split_ifs <;> rfl

@[simp] theorem OpenEventW_client_newFrameSignaled (w : World) (f : Bool) :
    (w.OpenEventW_client f).2.newFrameSignaled = w.newFrameSignaled := by
  unfold World.OpenEventW_client; split_ifs <;> rfl

@[simp] theorem OpenEventW_client_clientEventSignaled (w : World) (f : Bool) :
    (w.OpenEventW_client f).2.clientEventSignaled = w.clientEventSignaled := by
  unfold World.OpenEventW_client; split_ifs <;> rfl

@[simp] theorem OpenEventW_client_mutexLock (w : World) (f : Bool) :
    (w.OpenEventW_client f).2.mutexLock = w.mutexLock := by
  unfold World.OpenEventW_client; split_ifs <;> rfl

@[simp] theorem OpenEventW_client_mutexAbandoned (w : World) (f : Bool) :
    (w.OpenEventW_client f).2.mutexAbandoned = w.mutexAbandoned := by
  unfold World.OpenEventW_client; split_ifs <;> rfl

@[simp] theorem OpenEventW_client_mutexHandles (w : World) (f : Bool) :
    (w.OpenEventW_client f).2.mutexHandles = w.mutexHandles := by
  unfold World.OpenEventW_client; split_ifs <;> rfl

@[simp] theorem OpenEventW_client_newFrameHandles (w : World) (f : Bool) :
    (w.OpenEventW_client f).2.newFrameHandles = w.newFrameHandles := by
  unfold World.OpenEventW_client; split_ifs <;> rfl

@[simp] theorem OpenEventW_client_clientEventHandles (w : World) (f : Bool) :
    (w.OpenEventW_client f).2.clientEventHandles = if (!f && decide (w.clientEventHandles ≠ 0)) = true then w.clientEventHandles + 1 else w.clientEventHandles := by
  unfold World.OpenEventW_client; cases f <;> by_cases h : w.clientEventHandles = 0 <;> simp [h]

@[simp] theorem OpenEventW_client_mappingHandles (w : World) (f : Bool) :
    (w.OpenEventW_client f).2.mappingHandles = w.mappingHandles := by
  unfold World.OpenEventW_client; split_ifs <;> rfl

@[simp] theorem OpenFileMappingW_fst (w : World) (f : Bool) :
    (w.OpenFileMappingW f).1 = (!f && decide (w.mappingHandles ≠ 0)) := by
  unfold World.OpenFileMappingW; cases f <;> by_cases h : w.mappingHandles = 0 <;> simp [h]

@[simp] theorem OpenFileMappingW_header (w : World) (f : Bool) :
    (w.OpenFileMappingW f).2.header = w.header := by
  unfold World.OpenFileMappingW; split_ifs <;> rfl

@[simp] theorem OpenFileMappingW_mem (w : World) (f : Bool) :
    (w.OpenFileMappingW f).2.mem = w.mem := by
  unfold World.OpenFileMappingW; split_ifs <;> rfl

@[simp] theorem OpenFileMappingW_newFrameSignaled (w : World) (f : Bool) :
    (w.OpenFileMappingW f).2.newFrameSignaled = w.newFrameSignaled := by
  unfold World.OpenFileMappingW; split_ifs <;> rfl

@[simp] theorem OpenFileMappingW_clientEventSignaled (w : World) (f : Bool) :
    (w.OpenFileMappingW f).2.clientEventSignaled = w.clientEventSignaled := by
  unfold World.OpenFileMappingW; split_ifs <;> rfl

@[simp] theorem OpenFileMappingW_mutexLock (w : World) (f : Bool) :
    (w.OpenFileMappingW f).2.mutexLock = w.mutexLock := by
  unfold World.OpenFileMappingW; split_ifs <;> rfl

@[simp] theorem OpenFileMappingW_mutexAbandoned (w : World) (f : Bool) :
    (w.OpenFileMappingW f).2.mutexAbandoned = w.mutexAbandoned := by
  unfold World.OpenFileMappingW; split_ifs <;> rfl

@[simp] theorem OpenFileMappingW_mutexHandles (w : World) (f : Bool) :
    (w.OpenFileMappingW f).2.mutexHandles = w.mutexHandles := by
  unfold World.OpenFileMappingW; split_ifs <;> rfl

@[simp] theorem OpenFileMappingW_newFrameHandles (w : World) (f : Bool) :
    (w.OpenFileMappingW f).2.newFrameHandles = w.newFrameHandles := by
  unfold World.OpenFileMappingW; split_ifs <;> rfl

@[simp] theorem OpenFileMappingW_clientEventHandles (w : World) (f : Bool) :
    (w.OpenFileMappingW f).2.clientEventHandles = w.clientEventHandles := by
  unfold World.OpenFileMappingW; split_ifs <;> rfl

@[simp] theorem OpenFileMappingW_mappingHandles (w : World) (f : Bool) :
    (w.OpenFileMappingW f).2.mappingHandles = if (!f && decide (w.mappingHandles ≠ 0)) = true then w.mappingHandles + 1 else w.mappingHandles := by
  unfold World.OpenFileMappingW; cases f <;> by_cases h : w.mappingHandles = 0 <;> simp [h]

attribute [simp] World.CloseHandle_mutex World.CloseHandle_newFrame World.CloseHandle_client
  World.CloseHandle_mapping

/-! ## Facts about the mutex -/

theorem wait_mutex_header (w : World) (h : Bool) (me : Party) :
    (w.WaitForSingleObject_mutex h me).2.header = w.header := by
  unfold World.WaitForSingleObject_mutex
  repeat' split
  all_goals rfl

theorem wait_mutex_mem (w : World) (h : Bool) (me : Party) :
    (w.WaitForSingleObject_mutex h me).2.mem = w.mem := by
  unfold World.WaitForSingleObject_mutex
  repeat' split
  all_goals rfl

theorem wait_mutex_newFrameSignaled (w : World) (h : Bool) (me : Party) :
    (w.WaitForSingleObject_mutex h me).2.newFrameSignaled = w.newFrameSignaled := by
  unfold World.WaitForSingleObject_mutex
  repeat' split
  all_goals rfl

theorem wait_mutex_clientEventSignaled (w : World) (h : Bool) (me : Party) :
    (w.WaitForSingleObject_mutex h me).2.clientEventSignaled = w.clientEventSignaled := by
  unfold World.WaitForSingleObject_mutex
  repeat' split
  all_goals rfl

theorem wait_mutex_handles (w : World) (h : Bool) (me : Party) :
    (w.WaitForSingleObject_mutex h me).2.mutexHandles = w.mutexHandles ∧
    (w.WaitForSingleObject_mutex h me).2.newFrameHandles = w.newFrameHandles ∧
    (w.WaitForSingleObject_mutex h me).2.clientEventHandles = w.clientEventHandles ∧
    (w.WaitForSingleObject_mutex h me).2.mappingHandles = w.mappingHandles := by
  unfold World.WaitForSingleObject_mutex
  repeat' split
  all_goals exact ⟨rfl, rfl, rfl, rfl⟩

theorem release_mutex_header (w : World) (h : Bool) (me : Party) :
    (w.ReleaseMutex h me).header = w.header := by
  unfold World.ReleaseMutex
  repeat' split
  all_goals rfl

theorem release_mutex_mem (w : World) (h : Bool) (me : Party) :
    (w.ReleaseMutex h me).mem = w.mem := by
  unfold World.ReleaseMutex
  repeat' split
  all_goals rfl

theorem release_mutex_newFrameSignaled (w : World) (h : Bool) (me : Party) :
    (w.ReleaseMutex h me).newFrameSignaled = w.newFrameSignaled := by
  unfold World.ReleaseMutex
  repeat' split
  all_goals rfl

theorem release_mutex_clientEventSignaled (w : World) (h : Bool) (me : Party) :
    (w.ReleaseMutex h me).clientEventSignaled = w.clientEventSignaled := by
  unfold World.ReleaseMutex
  repeat' split
  all_goals rfl

theorem release_mutex_handles (w : World) (h : Bool) (me : Party) :
    (w.ReleaseMutex h me).mutexHandles = w.mutexHandles ∧
    (w.ReleaseMutex h me).newFrameHandles = w.newFrameHandles ∧
    (w.ReleaseMutex h me).clientEventHandles = w.clientEventHandles ∧
    (w.ReleaseMutex h me).mappingHandles = w.mappingHandles := by
  unfold World.ReleaseMutex
  repeat' split
  all_goals exact ⟨rfl, rfl, rfl, rfl⟩

/-- An acquisition followed by a release leaves the ownership of the mutex as it was. -/
theorem wait_release_mutexLock (w : World) (h : Bool) (me : Party)
    (hw : (w.WaitForSingleObject_mutex h me).1 = WaitResult.WAIT_OBJECT_0) :
    (World.ReleaseMutex (w.WaitForSingleObject_mutex h me).2 h me).mutexLock = w.mutexLock := by
  unfold World.WaitForSingleObject_mutex at hw ⊢
  cases h
  · simp at hw
  · cases hl : w.mutexLock with
    | none =>
      cases ha : w.mutexAbandoned
      · simp [hl, ha, World.ReleaseMutex]
      · simp [hl, ha] at hw
    | some pn =>
      obtain ⟨p, n⟩ := pn
      by_cases hp : p = me
      · simp [hl, hp, World.ReleaseMutex]
      · simp [hl, hp] at hw

/-- The ownership a release leaves depends on the ownership it finds only. -/
theorem release_mutexLock_congr (w1 w2 : World) (h : Bool) (me : Party)
    (hl : w1.mutexLock = w2.mutexLock) :
    (w1.ReleaseMutex h me).mutexLock = (w2.ReleaseMutex h me).mutexLock := by
  unfold World.ReleaseMutex
  cases h
  · simpa using hl
  · cases h2 : w2.mutexLock with
    | none => simp [hl, h2]
    | some pn =>
      obtain ⟨p, n⟩ := pn
      by_cases hp : p = me
      · cases n <;> simp [hl, h2, hp]
      · simp [hl, h2, hp]

/-! ## Facts about `WriteFrame` -/

theorem WriteFrame_ret (self : PS3EyeSharedMemoryServer) (w : World) (me : Party)
    (frameData : Option Buf) (frameSize timestamp : Nat) :
    (self.WriteFrame w me frameData frameSize timestamp).1 = true ↔
      frameData.isSome = true ∧ self.m_sharedMemory = true ∧ frameSize ≤ PS3EYE_FRAME_SIZE ∧
      (w.WaitForSingleObject_mutex self.m_mutex me).1 = WaitResult.WAIT_OBJECT_0 := by
  unfold PS3EyeSharedMemoryServer.WriteFrame
  cases frameData with
  | none => simp
  | some data =>
    by_cases h1 : self.m_sharedMemory = true
    · by_cases h2 : frameSize > PS3EYE_FRAME_SIZE
      · simp [h1, h2]
      · by_cases h3 : (w.WaitForSingleObject_mutex self.m_mutex me).1 = WaitResult.WAIT_OBJECT_0
        · simp [h1, h2, h3]; omega
        · simp [h1, h2, h3]
    · simp [h1]

/-- What a successful `WriteFrame` leaves behind. -/
theorem WriteFrame_true (self : PS3EyeSharedMemoryServer) (w : World) (me : Party)
    (data : Buf) (frameSize timestamp : Nat)
    (h : (self.WriteFrame w me (some data) frameSize timestamp).1 = true) :
    (self.WriteFrame w me (some data) frameSize timestamp).2.1
      = { self with m_frameNumber := (self.m_frameNumber + 1) % 2 ^ 64 } ∧
    (self.WriteFrame w me (some data) frameSize timestamp).2.2.header
      = { w.header with frameNumber := (self.m_frameNumber + 1) % 2 ^ 64
                        timestamp := timestamp
                        dataSize := frameSize } ∧
    (self.WriteFrame w me (some data) frameSize timestamp).2.2.mem
      = memcpy w.mem w.header.dataOffset data frameSize ∧
    (self.WriteFrame w me (some data) frameSize timestamp).2.2.newFrameSignaled
      = (self.m_newFrameEvent || w.newFrameSignaled) ∧
    (self.WriteFrame w me (some data) frameSize timestamp).2.2.clientEventSignaled
      = w.clientEventSignaled ∧
    (self.WriteFrame w me (some data) frameSize timestamp).2.2.mutexLock = w.mutexLock := by
  obtain ⟨-, h1, h2, h3⟩ := (WriteFrame_ret self w me (some data) frameSize timestamp).1 h
  have h2' : ¬ frameSize > PS3EYE_FRAME_SIZE := by omega
  have hl := wait_release_mutexLock w self.m_mutex me h3
  unfold PS3EyeSharedMemoryServer.WriteFrame
  simp only [h1, h2', h3, Bool.not_true, Bool.false_eq_true, if_false, ne_eq, not_true_eq_false]
  refine ⟨trivial, ?_, ?_, ?_, ?_, ?_⟩
  · rw [release_mutex_header]
    cases self.m_newFrameEvent <;> simp [World.SetEvent_newFrame, wait_mutex_header]
  · rw [release_mutex_mem]
    cases self.m_newFrameEvent <;>
      simp [World.SetEvent_newFrame, wait_mutex_header, wait_mutex_mem]
  · rw [release_mutex_newFrameSignaled]
    cases self.m_newFrameEvent <;>
      simp [World.SetEvent_newFrame, wait_mutex_newFrameSignaled]
  · rw [release_mutex_clientEventSignaled]
    cases self.m_newFrameEvent <;>
      simp [World.SetEvent_newFrame, wait_mutex_clientEventSignaled]
  · rw [← hl]
    apply release_mutexLock_congr
    cases self.m_newFrameEvent <;> simp [World.SetEvent_newFrame]

/-- What a failed `WriteFrame` leaves behind. -/
theorem WriteFrame_false (self : PS3EyeSharedMemoryServer) (w : World) (me : Party)
    (frameData : Option Buf) (frameSize timestamp : Nat)
    (h : (self.WriteFrame w me frameData frameSize timestamp).1 = false) :
    (self.WriteFrame w me frameData frameSize timestamp).2.1 = self ∧
    (self.WriteFrame w me frameData frameSize timestamp).2.2.header = w.header ∧
    (self.WriteFrame w me frameData frameSize timestamp).2.2.mem = w.mem ∧
    (self.WriteFrame w me frameData frameSize timestamp).2.2.newFrameSignaled
      = w.newFrameSignaled ∧
    (self.WriteFrame w me frameData frameSize timestamp).2.2.clientEventSignaled
      = w.clientEventSignaled := by
  have hr := WriteFrame_ret self w me frameData frameSize timestamp
  rw [h] at hr
  unfold PS3EyeSharedMemoryServer.WriteFrame
  cases frameData with
  | none => simp
  | some data =>
    by_cases h1 : self.m_sharedMemory = true
    · by_cases h2 : frameSize > PS3EYE_FRAME_SIZE
      · simp [h1, h2]
      · by_cases h3 : (w.WaitForSingleObject_mutex self.m_mutex me).1 = WaitResult.WAIT_OBJECT_0
        · exact absurd (hr.2 ⟨rfl, h1, by omega, h3⟩) (by simp)
        · simp [h1, h2, h3, wait_mutex_header, wait_mutex_mem, wait_mutex_newFrameSignaled,
            wait_mutex_clientEventSignaled]
    · simp [h1]

/-! ## Facts about `Disconnect` and `Connect` -/

theorem Disconnect_self (self : PS3EyeSharedMemoryClient) (w : World) :
    (self.Disconnect w).1 = ⟨false, false, false, false, false, self.m_lastFrameNumber⟩ := by
  simp [PS3EyeSharedMemoryClient.Disconnect]

theorem Disconnect_header (self : PS3EyeSharedMemoryClient) (w : World) :
    (self.Disconnect w).2.header =
      if self.m_sharedMemory = true then
        { w.header with clientCount := InterlockedDecrement w.header.clientCount }
      else w.header := by
  obtain ⟨a, b, c, d, e, n⟩ := self
  cases a <;> cases b <;> cases c <;> cases d <;> cases e <;>
    simp [PS3EyeSharedMemoryClient.Disconnect, World.SetEvent_client]

theorem Disconnect_mem (self : PS3EyeSharedMemoryClient) (w : World) :
    (self.Disconnect w).2.mem = w.mem := by
  obtain ⟨a, b, c, d, e, n⟩ := self
  cases a <;> cases b <;> cases c <;> cases d <;> cases e <;>
    simp [PS3EyeSharedMemoryClient.Disconnect, World.SetEvent_client]

theorem Disconnect_newFrameSignaled (self : PS3EyeSharedMemoryClient) (w : World) :
    (self.Disconnect w).2.newFrameSignaled = w.newFrameSignaled := by
  obtain ⟨a, b, c, d, e, n⟩ := self
  cases a <;> cases b <;> cases c <;> cases d <;> cases e <;>
    simp [PS3EyeSharedMemoryClient.Disconnect, World.SetEvent_client]

theorem Disconnect_mutexLock (self : PS3EyeSharedMemoryClient) (w : World) :
    (self.Disconnect w).2.mutexLock = w.mutexLock := by
  obtain ⟨a, b, c, d, e, n⟩ := self
  cases a <;> cases b <;> cases c <;> cases d <;> cases e <;>
    simp [PS3EyeSharedMemoryClient.Disconnect, World.SetEvent_client]

/-- The handle counts after a `Disconnect`: one less for each handle the client held. -/
theorem Disconnect_handles (self : PS3EyeSharedMemoryClient) (w : World) :
    (self.Disconnect w).2.mutexHandles = w.mutexHandles - (if self.m_mutex then 1 else 0) ∧
    (self.Disconnect w).2.newFrameHandles
      = w.newFrameHandles - (if self.m_newFrameEvent then 1 else 0) ∧
    (self.Disconnect w).2.clientEventHandles
      = w.clientEventHandles - (if self.m_clientEvent then 1 else 0) ∧
    (self.Disconnect w).2.mappingHandles
      = w.mappingHandles - (if self.m_fileMapping then 1 else 0) := by
  obtain ⟨a, b, c, d, e, n⟩ := self
  cases a <;> cases b <;> cases c <;> cases d <;> cases e <;>
    simp [PS3EyeSharedMemoryClient.Disconnect, World.SetEvent_client]

/-- When `Connect` returns true: the three objects exist, no call failed and the header
carries the protocol's magic and version. -/
theorem Connect_ret (self : PS3EyeSharedMemoryClient) (w : World) (os : OsFaults) :
    (self.Connect w os).1 = true ↔
      (os.mutex = false ∧ w.mutexHandles ≠ 0) ∧ (os.newFrameEvent = false ∧ w.newFrameHandles ≠ 0) ∧
      (os.fileMapping = false ∧ w.mappingHandles ≠ 0) ∧ os.mapView = false ∧
      w.header.magic = PS3EYE_MAGIC ∧ w.header.version = PS3EYE_PROTOCOL_VERSION := by
  obtain ⟨f1, f2, f3, f4, f5⟩ := os
  unfold PS3EyeSharedMemoryClient.Connect
  by_cases h4 : w.header.magic = PS3EYE_MAGIC <;>
    by_cases h5 : w.header.version = PS3EYE_PROTOCOL_VERSION <;>
    by_cases h1 : w.mutexHandles = 0 <;> by_cases h2 : w.newFrameHandles = 0 <;>
    by_cases h3 : w.mappingHandles = 0 <;> cases f1 <;> cases f2 <;> cases f4 <;> cases f5 <;>
    simp [h1, h2, h3, h4, h5]

/-- What a successful `Connect` leaves behind. -/
theorem Connect_true (self : PS3EyeSharedMemoryClient) (w : World) (os : OsFaults)
    (h : (self.Connect w os).1 = true) :
    (self.Connect w os).2.1
      = ⟨true, true, true, (!os.clientEvent && decide (w.clientEventHandles ≠ 0)), true, 0⟩ ∧
    (self.Connect w os).2.2.header
      = { w.header with clientCount := InterlockedIncrement w.header.clientCount } ∧
    (self.Connect w os).2.2.mem = w.mem ∧
    (self.Connect w os).2.2.newFrameSignaled = w.newFrameSignaled ∧
    (self.Connect w os).2.2.mutexLock = w.mutexLock := by
  obtain ⟨⟨a1, a2⟩, ⟨b1, b2⟩, ⟨c1, c2⟩, d, e1, e2⟩ := (Connect_ret self w os).1 h
  obtain ⟨f1, f2, f3, f4, f5⟩ := os
  simp only at a1 b1 c1 d
  subst a1 b1 c1 d
  unfold PS3EyeSharedMemoryClient.Connect
  by_cases h3 : w.clientEventHandles = 0 <;> cases f3 <;>
    simp [a2, b2, c2, e1, e2, h3, World.SetEvent_client]

/-- What a `Connect` that fails on the header validation leaves behind: the client is
disconnected with every handle null, and `Disconnect` has decremented `clientCount`. -/
theorem Connect_mismatch (self : PS3EyeSharedMemoryClient) (w : World) (os : OsFaults)
    (ho : (os.mutex = false ∧ w.mutexHandles ≠ 0) ∧
      (os.newFrameEvent = false ∧ w.newFrameHandles ≠ 0) ∧
      (os.fileMapping = false ∧ w.mappingHandles ≠ 0) ∧ os.mapView = false)
    (hm : w.header.magic ≠ PS3EYE_MAGIC ∨ w.header.version ≠ PS3EYE_PROTOCOL_VERSION) :
    (self.Connect w os).1 = false ∧
    (self.Connect w os).2.1 = ⟨false, false, false, false, false, self.m_lastFrameNumber⟩ ∧
    (self.Connect w os).2.2.header
      = { w.header with clientCount := InterlockedDecrement w.header.clientCount } ∧
    (self.Connect w os).2.2.mem = w.mem := by
  obtain ⟨⟨a1, a2⟩, ⟨b1, b2⟩, ⟨c1, c2⟩, d⟩ := ho
  obtain ⟨f1, f2, f3, f4, f5⟩ := os
  simp only at a1 b1 c1 d
  subst a1 b1 c1 d
  unfold PS3EyeSharedMemoryClient.Connect
  have hm2 : ¬ w.header.magic = PS3EYE_MAGIC ∨ ¬ w.header.version = PS3EYE_PROTOCOL_VERSION := hm
  simp [a2, b2, c2, hm2, Disconnect_self, Disconnect_header, Disconnect_mem]

/-- What a `Connect` that fails before the header validation leaves behind. -/
theorem Connect_not_opened (self : PS3EyeSharedMemoryClient) (w : World) (os : OsFaults)
    (ho : ¬ ((os.mutex = false ∧ w.mutexHandles ≠ 0) ∧
      (os.newFrameEvent = false ∧ w.newFrameHandles ≠ 0) ∧
      (os.fileMapping = false ∧ w.mappingHandles ≠ 0) ∧ os.mapView = false)) :
    (self.Connect w os).1 = false ∧
    (self.Connect w os).2.1.m_sharedMemory = (self.m_sharedMemory && decide
      ((os.mutex = false ∧ w.mutexHandles ≠ 0) ∧ (os.newFrameEvent = false ∧ w.newFrameHandles ≠ 0)
        ∧ (os.fileMapping = false ∧ w.mappingHandles ≠ 0)) == false) ∧
    (self.Connect w os).2.1.m_lastFrameNumber = self.m_lastFrameNumber ∧
    (self.Connect w os).2.2.header = w.header ∧
    (self.Connect w os).2.2.mem = w.mem ∧
    (self.Connect w os).2.2.newFrameSignaled = w.newFrameSignaled ∧
    (self.Connect w os).2.2.clientEventSignaled = w.clientEventSignaled ∧
    (self.Connect w os).2.2.mutexLock = w.mutexLock := by
  obtain ⟨f1, f2, f3, f4, f5⟩ := os
  unfold PS3EyeSharedMemoryClient.Connect
  by_cases h1 : w.mutexHandles = 0 <;> by_cases h2 : w.newFrameHandles = 0 <;>
    by_cases h3 : w.mappingHandles = 0 <;> cases f1 <;> cases f2 <;> cases f4 <;> cases f5 <;>
    simp [h1, h2, h3] at ho ⊢

/-! ## Facts about `ReadFrame` -/

theorem ReadFrame_ret (self : PS3EyeSharedMemoryClient) (w : World) (me : Party)
    (destBuffer : Option Buf) (destSize : Nat) (frameNumber timestamp : Option Nat) :
    (self.ReadFrame w me destBuffer destSize frameNumber timestamp).ret = true ↔
      destBuffer.isSome = true ∧ self.m_sharedMemory = true ∧
      (w.WaitForSingleObject_mutex self.m_mutex me).1 = WaitResult.WAIT_OBJECT_0 ∧
      w.header.serverPID ≠ 0 ∧ w.header.frameNumber ≠ self.m_lastFrameNumber := by
  unfold PS3EyeSharedMemoryClient.ReadFrame
  cases destBuffer with
  | none => simp
  | some dest =>
    by_cases h1 : self.m_sharedMemory = true
    · by_cases h2 : (w.WaitForSingleObject_mutex self.m_mutex me).1 = WaitResult.WAIT_OBJECT_0
      · by_cases h3 : w.header.serverPID = 0
        · simp [h1, h2, h3, wait_mutex_header]
        · by_cases h4 : w.header.frameNumber = self.m_lastFrameNumber
          · simp [h1, h2, h3, h4, wait_mutex_header]
          · simp [h1, h2, h3, h4, wait_mutex_header]
      · simp [h1, h2]
    · simp [h1]

/-- No `ReadFrame` call writes the shared region or touches the events. -/
theorem ReadFrame_world (self : PS3EyeSharedMemoryClient) (w : World) (me : Party)
    (destBuffer : Option Buf) (destSize : Nat) (frameNumber timestamp : Option Nat) :
    (self.ReadFrame w me destBuffer destSize frameNumber timestamp).world.header = w.header ∧
    (self.ReadFrame w me destBuffer destSize frameNumber timestamp).world.mem = w.mem ∧
    (self.ReadFrame w me destBuffer destSize frameNumber timestamp).world.newFrameSignaled
      = w.newFrameSignaled ∧
    (self.ReadFrame w me destBuffer destSize frameNumber timestamp).world.clientEventSignaled
      = w.clientEventSignaled := by
  unfold PS3EyeSharedMemoryClient.ReadFrame
  cases destBuffer with
  | none => simp
  | some dest =>
    by_cases h1 : self.m_sharedMemory = true
    · by_cases h2 : (w.WaitForSingleObject_mutex self.m_mutex me).1 = WaitResult.WAIT_OBJECT_0
      · by_cases h3 : w.header.serverPID = 0
        · simp [h1, h2, h3, wait_mutex_header, wait_mutex_mem, release_mutex_header,
            release_mutex_mem, release_mutex_newFrameSignaled, wait_mutex_newFrameSignaled,
            release_mutex_clientEventSignaled, wait_mutex_clientEventSignaled]
        · by_cases h4 : w.header.frameNumber = self.m_lastFrameNumber
          · simp [h1, h2, h3, h4, wait_mutex_header, wait_mutex_mem, release_mutex_header,
              release_mutex_mem, release_mutex_newFrameSignaled, wait_mutex_newFrameSignaled,
              release_mutex_clientEventSignaled, wait_mutex_clientEventSignaled]
          · simp [h1, h2, h3, h4, wait_mutex_header, wait_mutex_mem, release_mutex_header,
              release_mutex_mem, release_mutex_newFrameSignaled, wait_mutex_newFrameSignaled,
              release_mutex_clientEventSignaled, wait_mutex_clientEventSignaled]
      · simp [h1, h2, wait_mutex_header, wait_mutex_mem, wait_mutex_newFrameSignaled,
          wait_mutex_clientEventSignaled]
    · simp [h1]

/-- What a successful `ReadFrame` hands to its caller. -/
theorem ReadFrame_true (self : PS3EyeSharedMemoryClient) (w : World) (me : Party)
    (dest : Buf) (destSize : Nat) (frameNumber timestamp : Option Nat)
    (h : (self.ReadFrame w me (some dest) destSize frameNumber timestamp).ret = true) :
    (self.ReadFrame w me (some dest) destSize frameNumber timestamp).self
      = { self with m_lastFrameNumber := w.header.frameNumber } ∧
    (self.ReadFrame w me (some dest) destSize frameNumber timestamp).destBuffer
      = some (memcpy dest 0 (fun i => w.mem (w.header.dataOffset + i))
          (min destSize w.header.dataSize)) ∧
    (self.ReadFrame w me (some dest) destSize frameNumber timestamp).frameNumber
      = frameNumber.map (fun _ => w.header.frameNumber) ∧
    (self.ReadFrame w me (some dest) destSize frameNumber timestamp).timestamp
      = timestamp.map (fun _ => w.header.timestamp) ∧
    (self.ReadFrame w me (some dest) destSize frameNumber timestamp).world.mutexLock
      = w.mutexLock := by
  obtain ⟨-, h1, h2, h3, h4⟩ := (ReadFrame_ret self w me (some dest) destSize _ _).1 h
  have hl := wait_release_mutexLock w self.m_mutex me h2
  unfold PS3EyeSharedMemoryClient.ReadFrame
  simp [h1, h2, h3, h4, wait_mutex_header, wait_mutex_mem, hl]

/-- What a failed `ReadFrame` leaves behind: nothing the caller or the client can see. -/
theorem ReadFrame_false (self : PS3EyeSharedMemoryClient) (w : World) (me : Party)
    (destBuffer : Option Buf) (destSize : Nat) (frameNumber timestamp : Option Nat)
    (h : (self.ReadFrame w me destBuffer destSize frameNumber timestamp).ret = false) :
    (self.ReadFrame w me destBuffer destSize frameNumber timestamp).self = self ∧
    (self.ReadFrame w me destBuffer destSize frameNumber timestamp).destBuffer = destBuffer ∧
    (self.ReadFrame w me destBuffer destSize frameNumber timestamp).frameNumber = frameNumber ∧
    (self.ReadFrame w me destBuffer destSize frameNumber timestamp).timestamp = timestamp := by
  have hr := ReadFrame_ret self w me destBuffer destSize frameNumber timestamp
  rw [h] at hr
  unfold PS3EyeSharedMemoryClient.ReadFrame
  cases destBuffer with
  | none => simp
  | some dest =>
    by_cases h1 : self.m_sharedMemory = true
    · by_cases h2 : (w.WaitForSingleObject_mutex self.m_mutex me).1 = WaitResult.WAIT_OBJECT_0
      · by_cases h3 : w.header.serverPID = 0
        · simp [h1, h2, h3, wait_mutex_header]
        · by_cases h4 : w.header.frameNumber = self.m_lastFrameNumber
          · simp [h1, h2, h3, h4, wait_mutex_header]
          · exact absurd (hr.2 ⟨rfl, h1, h2, h3, h4⟩) (by simp)
      · simp [h1, h2]
    · simp [h1]

/-! ## Facts about `Close`, `WaitForClients` and `WaitForFrame` -/

theorem Close_self (self : PS3EyeSharedMemoryServer) (w : World) :
    (self.Close w).1 = ⟨false, false, false, false, false, self.m_frameNumber⟩ := by
  simp [PS3EyeSharedMemoryServer.Close]

theorem Close_header (self : PS3EyeSharedMemoryServer) (w : World) :
    (self.Close w).2.header =
      if self.m_sharedMemory = true then { w.header with serverPID := 0 } else w.header := by
  obtain ⟨a, b, c, d, e, n⟩ := self
  cases a <;> cases b <;> cases c <;> cases d <;> cases e <;>
    simp [PS3EyeSharedMemoryServer.Close]

theorem Close_mem (self : PS3EyeSharedMemoryServer) (w : World) :
    (self.Close w).2.mem = w.mem := by
  obtain ⟨a, b, c, d, e, n⟩ := self
  cases a <;> cases b <;> cases c <;> cases d <;> cases e <;>
    simp [PS3EyeSharedMemoryServer.Close]

theorem WaitForClients_world (self : PS3EyeSharedMemoryServer) (w : World) :
    (self.WaitForClients w).2.header = w.header ∧ (self.WaitForClients w).2.mem = w.mem := by
  unfold PS3EyeSharedMemoryServer.WaitForClients World.WaitForSingleObject_client
  repeat' split
  all_goals exact ⟨rfl, rfl⟩

theorem WaitForFrame_world (self : PS3EyeSharedMemoryClient) (w : World) :
    (self.WaitForFrame w).2.header = w.header ∧ (self.WaitForFrame w).2.mem = w.mem := by
  unfold PS3EyeSharedMemoryClient.WaitForFrame World.WaitForSingleObject_newFrame
  repeat' split
  all_goals exact ⟨rfl, rfl⟩

/-- Every `Connect` leaves the bytes of the region and every header field but `clientCount`
as they were. -/
theorem Connect_frame (self : PS3EyeSharedMemoryClient) (w : World) (os : OsFaults) :
    (self.Connect w os).2.2.header
      = { w.header with clientCount := (self.Connect w os).2.2.header.clientCount } ∧
    (self.Connect w os).2.2.mem = w.mem := by
  by_cases ho : (os.mutex = false ∧ w.mutexHandles ≠ 0) ∧
      (os.newFrameEvent = false ∧ w.newFrameHandles ≠ 0) ∧
      (os.fileMapping = false ∧ w.mappingHandles ≠ 0) ∧ os.mapView = false
  · by_cases hm : w.header.magic ≠ PS3EYE_MAGIC ∨ w.header.version ≠ PS3EYE_PROTOCOL_VERSION
    · obtain ⟨-, -, h3, h4⟩ := Connect_mismatch self w os ho hm
      exact ⟨by rw [h3], h4⟩
    · have ht : (self.Connect w os).1 = true := by
        rw [Connect_ret]
        obtain ⟨a, b, c, d⟩ := ho
        refine ⟨a, b, c, d, ?_, ?_⟩ <;> by_contra hx <;> exact hm (by simp [hx])
      obtain ⟨-, h2, h3, -⟩ := Connect_true self w os ht
      exact ⟨by rw [h2], h3⟩
  · obtain ⟨-, -, -, h4, h5, -⟩ := Connect_not_opened self w os ho
    exact ⟨by rw [h4], h5⟩

/-- Every `Disconnect` leaves every header field but `clientCount` as it was. -/
theorem Disconnect_frame (self : PS3EyeSharedMemoryClient) (w : World) :
    (self.Disconnect w).2.header
      = { w.header with clientCount := (self.Disconnect w).2.header.clientCount } := by
  rw [Disconnect_header]; split <;> rfl

/-! ## Facts about single steps and runs -/

/-- A `WriteFrame` changes at most `frameNumber`, `timestamp` and `dataSize` in the header. -/
theorem WriteFrame_frame (self : PS3EyeSharedMemoryServer) (w : World) (me : Party)
    (frameData : Option Buf) (frameSize timestamp : Nat) :
    (self.WriteFrame w me frameData frameSize timestamp).2.2.header =
      { w.header with
        frameNumber := (self.WriteFrame w me frameData frameSize timestamp).2.2.header.frameNumber
        timestamp := (self.WriteFrame w me frameData frameSize timestamp).2.2.header.timestamp
        dataSize := (self.WriteFrame w me frameData frameSize timestamp).2.2.header.dataSize } := by
  cases hr : (self.WriteFrame w me frameData frameSize timestamp).1
  · obtain ⟨-, h2, -⟩ := WriteFrame_false self w me frameData frameSize timestamp hr
    rw [h2]
  · cases frameData with
    | none => simp [PS3EyeSharedMemoryServer.WriteFrame] at hr
    | some data =>
      obtain ⟨-, h2, -⟩ := WriteFrame_true self w me data frameSize timestamp hr
      rw [h2]

/-- No action but `Create` changes a header field that `Create` stamps. -/
theorem step_header_constants (s : Machine) (a : Action) (ha : a.isCreate = false) :
    (s.step a).world.header =
      { s.world.header with
        frameNumber := (s.step a).world.header.frameNumber
        timestamp := (s.step a).world.header.timestamp
        dataSize := (s.step a).world.header.dataSize
        serverPID := (s.step a).world.header.serverPID
        clientCount := (s.step a).world.header.clientCount } := by
  cases a with
  | create i pid os => simp [Action.isCreate] at ha
  | close i =>
    simp only [Machine.step]
    rw [Close_header]; split <;> rfl
  | writeFrame i d n t =>
    simp only [Machine.step]
    have := WriteFrame_frame (s.servers i) s.world (Party.server i) d n t
    rw [this]
  | waitForClients i =>
    simp only [Machine.step]
    rw [(WaitForClients_world _ _).1]
  | connect j os =>
    simp only [Machine.step]
    have := (Connect_frame (s.clients j) s.world os).1
    rw [this]
  | disconnect j =>
    simp only [Machine.step]
    have := Disconnect_frame (s.clients j) s.world
    rw [this]
  | waitForFrame j =>
    simp only [Machine.step]
    rw [(WaitForFrame_world _ _).1]
  | readFrame j d n f t =>
    simp only [Machine.step]
    rw [(ReadFrame_world _ _ _ _ _ _ _).1]
  | getFrameInfo j a b c d => rfl
  | otherAcquire k =>
    simp only [Machine.step]
    rw [wait_mutex_header]
  | otherRelease k =>
    simp only [Machine.step]
    rw [release_mutex_header]
  | otherAbandon k =>
    simp only [Machine.step]
    split <;> rfl

/-- No action but `Create` and `WriteFrame` changes the published frame: its number, its
timestamp, its size or a byte of the region. -/
theorem step_payload (s : Machine) (a : Action) (ha : a.isCreate = false)
    (hw : a.isWriteFrame = false) :
    (s.step a).world.header.frameNumber = s.world.header.frameNumber ∧
    (s.step a).world.header.timestamp = s.world.header.timestamp ∧
    (s.step a).world.header.dataSize = s.world.header.dataSize ∧
    (s.step a).world.mem = s.world.mem := by
  cases a with
  | create i pid os => simp [Action.isCreate] at ha
  | writeFrame i d n t => simp [Action.isWriteFrame] at hw
  | close i =>
    simp only [Machine.step]
    rw [Close_header, Close_mem]; split <;> exact ⟨rfl, rfl, rfl, rfl⟩
  | waitForClients i =>
    simp only [Machine.step]
    rw [(WaitForClients_world _ _).1, (WaitForClients_world _ _).2]
    exact ⟨rfl, rfl, rfl, rfl⟩
  | connect j os =>
    simp only [Machine.step]
    have := Connect_frame (s.clients j) s.world os
    rw [this.1, this.2]
    exact ⟨rfl, rfl, rfl, rfl⟩
  | disconnect j =>
    simp only [Machine.step]
    have := Disconnect_frame (s.clients j) s.world
    rw [this, Disconnect_mem]
    exact ⟨rfl, rfl, rfl, rfl⟩
  | waitForFrame j =>
    simp only [Machine.step]
    rw [(WaitForFrame_world _ _).1, (WaitForFrame_world _ _).2]
    exact ⟨rfl, rfl, rfl, rfl⟩
  | readFrame j d n f t =>
    simp only [Machine.step]
    rw [(ReadFrame_world _ _ _ _ _ _ _).1, (ReadFrame_world _ _ _ _ _ _ _).2.1]
    exact ⟨rfl, rfl, rfl, rfl⟩
  | getFrameInfo j a b c d => exact ⟨rfl, rfl, rfl, rfl⟩
  | otherAcquire k =>
    simp only [Machine.step]
    rw [wait_mutex_header, wait_mutex_mem]
    exact ⟨rfl, rfl, rfl, rfl⟩
  | otherRelease k =>
    simp only [Machine.step]
    rw [release_mutex_header, release_mutex_mem]
    exact ⟨rfl, rfl, rfl, rfl⟩
  | otherAbandon k =>
    simp only [Machine.step]
    split <;> exact ⟨rfl, rfl, rfl, rfl⟩

theorem run_nil (s : Machine) : s.run [] = s := rfl

theorem run_cons (s : Machine) (a : Action) (acts : List Action) :
    s.run (a :: acts) = (s.step a).run acts := rfl

theorem run_append (s : Machine) (as bs : List Action) :
    s.run (as ++ bs) = (s.run as).run bs := by
  simp [Machine.run, List.foldl_append]

/-- A run without `Create` keeps a stamped header stamped. -/
theorem run_stamped (acts : List Action) :
    ∀ (s : Machine), (∀ a ∈ acts, a.isCreate = false) → s.world.Stamped →
      (s.run acts).world.Stamped := by
  induction acts with
  | nil => intro s _ h; exact h
  | cons a acts ih =>
    intro s ha h
    rw [run_cons]
    apply ih _ (fun b hb => ha b (List.mem_cons_of_mem _ hb))
    have hc := step_header_constants s a (ha a (List.mem_cons_self _ _))
    unfold World.Stamped at h ⊢
    rw [hc]
    exact h

/-- A run without `Create` and `WriteFrame` keeps the published frame. -/
theorem run_payload (acts : List Action) :
    ∀ (s : Machine), (∀ a ∈ acts, a.isCreate = false ∧ a.isWriteFrame = false) →
      (s.run acts).world.header.frameNumber = s.world.header.frameNumber ∧
      (s.run acts).world.header.timestamp = s.world.header.timestamp ∧
      (s.run acts).world.header.dataSize = s.world.header.dataSize ∧
      (s.run acts).world.mem = s.world.mem := by
  induction acts with
  | nil => intro s _; exact ⟨rfl, rfl, rfl, rfl⟩
  | cons a acts ih =>
    intro s ha
    rw [run_cons]
    obtain ⟨h1, h2, h3, h4⟩ := ih (s.step a) (fun b hb => ha b (List.mem_cons_of_mem _ hb))
    have hm := ha a (List.mem_cons_self _ _)
    obtain ⟨g1, g2, g3, g4⟩ := step_payload s a hm.1 hm.2
    exact ⟨h1.trans g1, h2.trans g2, h3.trans g3, h4.trans g4⟩

/-! ## The frame counter -/

theorem writes_cons_other (s : Machine) (a : Action) (acts : List Action)
    (h : a.isWriteFrame = false) : s.writes (a :: acts) = (s.step a).writes acts := by
  cases a <;> first | rfl | simp [Action.isWriteFrame] at h

/-- An action other than `Create` and `WriteFrame` leaves every server's frame counter. -/
theorem step_server_frameNumber (s : Machine) (a : Action) (i : Nat) (ha : a.isCreate = false)
    (hw : a.isWriteFrame = false) :
    ((s.step a).servers i).m_frameNumber = (s.servers i).m_frameNumber := by
  cases a with
  | create i pid os => simp [Action.isCreate] at ha
  | writeFrame i d n t => simp [Action.isWriteFrame] at hw
  | close k =>
    simp only [Machine.step]
    by_cases hk : i = k
    · subst hk; simp [Close_self]
    · simp [Function.update, hk]
  | _ => rfl

/-- The header's frame number after a run in which only server `i` writes and nobody calls
`Create`: the counter of server `i`, which has advanced by the number of successful calls. -/
theorem run_frameNumber (i : Nat) (acts : List Action) :
    ∀ (s : Machine), (∀ a ∈ acts, a.isCreate = false ∧ a.isWriteFrameNot i = false) →
      s.world.header.frameNumber = (s.servers i).m_frameNumber →
      (s.servers i).m_frameNumber + acts.length < 2 ^ 64 →
      (s.run acts).world.header.frameNumber = (s.servers i).m_frameNumber + s.writes acts ∧
      ((s.run acts).servers i).m_frameNumber = (s.servers i).m_frameNumber + s.writes acts ∧
      s.writes acts ≤ acts.length := by
  induction acts with
  | nil => intro s _ h _; exact ⟨h, rfl, le_refl _⟩
  | cons a acts ih =>
    intro s ha h hlen
    have hm := ha a (List.mem_cons_self _ _)
    have hrest : ∀ b ∈ acts, b.isCreate = false ∧ b.isWriteFrameNot i = false :=
      fun b hb => ha b (List.mem_cons_of_mem _ hb)
    simp only [List.length_cons] at hlen
    rw [run_cons]
    by_cases hw : a.isWriteFrame = true
    · cases a with
      | writeFrame k d n t =>
        have hk : k = i := by simpa [Action.isWriteFrameNot] using hm.2
        subst hk
        cases hr : ((s.servers k).WriteFrame s.world (Party.server k) d n t).1
        · obtain ⟨f1, f2, -⟩ := WriteFrame_false _ _ _ _ _ _ hr
          have e1 : (s.step (.writeFrame k d n t)).world.header.frameNumber
              = ((s.step (.writeFrame k d n t)).servers k).m_frameNumber := by
            simp [Machine.step, f1, f2, h]
          have e2 : ((s.step (.writeFrame k d n t)).servers k).m_frameNumber
              = (s.servers k).m_frameNumber := by
            simp [Machine.step, f1]
          obtain ⟨g1, g2, g3⟩ := ih _ hrest e1 (by rw [e2]; omega)
          simp only [Machine.writes, hr]
          rw [e2] at g1 g2
          exact ⟨by rw [g1]; simp, by rw [g2]; simp, by simp; omega⟩
        · cases d with
          | none => simp [PS3EyeSharedMemoryServer.WriteFrame] at hr
          | some data =>
            obtain ⟨t1, t2, -⟩ := WriteFrame_true _ _ _ _ _ _ hr
            have hlt : (s.servers k).m_frameNumber + 1 < 18446744073709551616 := by omega
            have hmod := Nat.mod_eq_of_lt hlt
            have e2 : ((s.step (.writeFrame k (some data) n t)).servers k).m_frameNumber
                = (s.servers k).m_frameNumber + 1 := by
              simp [Machine.step, t1, hmod]
            have e1 : (s.step (.writeFrame k (some data) n t)).world.header.frameNumber
                = ((s.step (.writeFrame k (some data) n t)).servers k).m_frameNumber := by
              rw [e2]; simp [Machine.step, t2, hmod]
            obtain ⟨g1, g2, g3⟩ := ih _ hrest e1 (by rw [e2]; omega)
            simp only [Machine.writes, hr]
            rw [e2] at g1 g2
            exact ⟨by rw [g1]; simp; omega, by rw [g2]; simp; omega, by simp; omega⟩
      | _ => simp [Action.isWriteFrame] at hw
    · have hw' : a.isWriteFrame = false := by simpa using hw
      obtain ⟨p1, -⟩ := step_payload s a hm.1 hw'
      have e2 := step_server_frameNumber s a i hm.1 hw'
      obtain ⟨g1, g2, g3⟩ := ih (s.step a) hrest (by rw [p1, e2, h]) (by rw [e2]; omega)
      rw [writes_cons_other s a acts hw']
      rw [e2] at g1 g2
      exact ⟨g1, g2, by simp only [List.length_cons]; omega⟩

theorem step_singleWriter (s : Machine) (i : Nat) (a : Action) (ha : a.isCreate = false)
    (hI : s.SingleWriter i) (hlen : (s.servers i).m_frameNumber + 1 < 2 ^ 64) :
    (s.step a).SingleWriter i ∧
    ((s.step a).servers i).m_frameNumber ≤ (s.servers i).m_frameNumber + 1 := by
  obtain ⟨h1, h2, h3⟩ := hI
  cases a with
  | create i pid os => simp [Action.isCreate] at ha
  | writeFrame k d n t =>
    cases hr : ((s.servers k).WriteFrame s.world (Party.server k) d n t).1
    · obtain ⟨f1, f2, -⟩ := WriteFrame_false _ _ _ _ _ _ hr
      have es : (s.step (.writeFrame k d n t)).servers = s.servers := by
        simp [Machine.step, f1]
      refine ⟨⟨?_, ?_, ?_⟩, ?_⟩
      · rw [es]; simpa [Machine.step, f2] using h1
      · rw [es]; exact h2
      · intro j hj
        have := h3 j hj
        simpa [Machine.step, f2] using this
      · rw [es]; omega
    · have hk : k = i := by
        by_contra hne
        have := ((WriteFrame_ret _ _ _ _ _ _).1 hr).2.1
        rw [h2 k hne] at this
        exact absurd this (by simp)
      subst hk
      cases d with
      | none => simp [PS3EyeSharedMemoryServer.WriteFrame] at hr
      | some data =>
        obtain ⟨t1, t2, -⟩ := WriteFrame_true _ _ _ _ _ _ hr
        have hlt : (s.servers k).m_frameNumber + 1 < 18446744073709551616 := by omega
        have hmod := Nat.mod_eq_of_lt hlt
        refine ⟨⟨?_, ?_, ?_⟩, ?_⟩
        · simp [Machine.step, t1, t2]
        · intro k' hk'
          simp [Machine.step, Function.update, hk', h2 k' hk']
        · intro j hj
          have := h3 j hj
          simp only [Machine.step, t2, hmod] at hj ⊢
          have := h3 j hj
          omega
        · simp [Machine.step, t1, hmod]
  | close k =>
    have hh : (s.step (.close k)).world.header.frameNumber = s.world.header.frameNumber := by
      simp only [Machine.step]; rw [Close_header]; split <;> rfl
    refine ⟨⟨?_, ?_, ?_⟩, ?_⟩
    · rw [hh, h1]
      by_cases hk : i = k
      · subst hk; simp [Machine.step, Close_self]
      · simp [Machine.step, Function.update, hk]
    · intro k' hk'
      by_cases hk : k' = k
      · subst hk; simp [Machine.step, Close_self]
      · simp [Machine.step, Function.update, hk, h2 k' hk']
    · intro j hj
      rw [hh]; exact h3 j hj
    · by_cases hk : i = k
      · subst hk; simp [Machine.step, Close_self]
      · simp [Machine.step, Function.update, hk]
  | connect j os =>
    have hh : (s.step (.connect j os)).world.header.frameNumber = s.world.header.frameNumber := by
      simp only [Machine.step]; rw [(Connect_frame _ _ _).1]
    refine ⟨⟨by rw [hh]; exact h1, h2, ?_⟩, by simp [Machine.step]⟩
    intro j' hj'
    rw [hh]
    by_cases hj : j' = j
    · subst hj
      simp only [Machine.step, Function.update_same] at hj' ⊢
      by_cases ho : (os.mutex = false ∧ s.world.mutexHandles ≠ 0) ∧
          (os.newFrameEvent = false ∧ s.world.newFrameHandles ≠ 0) ∧
          (os.fileMapping = false ∧ s.world.mappingHandles ≠ 0) ∧ os.mapView = false
      · by_cases hm : s.world.header.magic ≠ PS3EYE_MAGIC ∨
            s.world.header.version ≠ PS3EYE_PROTOCOL_VERSION
        · obtain ⟨-, c2, -⟩ := Connect_mismatch (s.clients j') s.world os ho hm
          rw [c2] at hj'
          simp at hj'
        · have ht : ((s.clients j').Connect s.world os).1 = true := by
            rw [Connect_ret]
            obtain ⟨a, b, c, d⟩ := ho
            refine ⟨a, b, c, d, ?_, ?_⟩ <;> by_contra hx <;> exact hm (by simp [hx])
          obtain ⟨c1, -⟩ := Connect_true _ _ _ ht
          rw [c1]; simp
      · obtain ⟨-, c2, c3, -⟩ := Connect_not_opened (s.clients j') s.world os ho
        rw [c3]
        apply h3
        rw [c2] at hj'
        simp at hj'
        exact hj'.1
    · simp only [Machine.step, Function.update_noteq hj] at hj' ⊢
      exact h3 j' hj'
  | disconnect j =>
    have hh : (s.step (.disconnect j)).world.header.frameNumber = s.world.header.frameNumber := by
      simp only [Machine.step]; rw [Disconnect_frame]
    refine ⟨⟨by rw [hh]; exact h1, h2, ?_⟩, by simp [Machine.step]⟩
    intro j' hj'
    rw [hh]
    by_cases hj : j' = j
    · subst hj
      simp [Machine.step, Disconnect_self] at hj'
    · simp only [Machine.step, Function.update_noteq hj] at hj' ⊢
      exact h3 j' hj'
  | readFrame j d n f t =>
    have hh : (s.step (.readFrame j d n f t)).world.header.frameNumber
        = s.world.header.frameNumber := by
      simp only [Machine.step]; rw [(ReadFrame_world _ _ _ _ _ _ _).1]
    refine ⟨⟨by rw [hh]; exact h1, h2, ?_⟩, by simp [Machine.step]⟩
    intro j' hj'
    rw [hh]
    by_cases hj : j' = j
    · subst hj
      simp only [Machine.step, Function.update_same] at hj' ⊢
      cases hr : ((s.clients j').ReadFrame s.world (Party.client j') d n f t).ret
      · obtain ⟨r1, -⟩ := ReadFrame_false _ _ _ _ _ _ _ hr
        rw [r1] at hj' ⊢
        exact h3 j' hj'
      · cases d with
        | none => simp [PS3EyeSharedMemoryClient.ReadFrame] at hr
        | some dest =>
          obtain ⟨r1, -⟩ := ReadFrame_true _ _ _ _ _ _ _ hr
          rw [r1]
    · simp only [Machine.step, Function.update_noteq hj] at hj' ⊢
      exact h3 j' hj'
  | waitForClients k =>
    have hh : (s.step (.waitForClients k)).world.header = s.world.header := by
      simp only [Machine.step]; rw [(WaitForClients_world _ _).1]
    exact ⟨⟨by rw [hh]; exact h1, h2, fun j hj => by rw [hh]; exact h3 j hj⟩,
      by simp [Machine.step]⟩
  | waitForFrame k =>
    have hh : (s.step (.waitForFrame k)).world.header = s.world.header := by
      simp only [Machine.step]; rw [(WaitForFrame_world _ _).1]
    exact ⟨⟨by rw [hh]; exact h1, h2, fun j hj => by rw [hh]; exact h3 j hj⟩,
      by simp [Machine.step]⟩
  | getFrameInfo j a b c d => exact ⟨⟨h1, h2, h3⟩, by simp [Machine.step]⟩
  | otherAcquire k =>
    have hh : (s.step (.otherAcquire k)).world.header = s.world.header := by
      simp only [Machine.step]; rw [wait_mutex_header]
    exact ⟨⟨by rw [hh]; exact h1, h2, fun j hj => by rw [hh]; exact h3 j hj⟩,
      by simp [Machine.step]⟩
  | otherRelease k =>
    have hh : (s.step (.otherRelease k)).world.header = s.world.header := by
      simp only [Machine.step]; rw [release_mutex_header]
    exact ⟨⟨by rw [hh]; exact h1, h2, fun j hj => by rw [hh]; exact h3 j hj⟩,
      by simp [Machine.step]⟩
  | otherAbandon k =>
    have hh : (s.step (.otherAbandon k)).world.header = s.world.header := by
      simp only [Machine.step]; split <;> rfl
    exact ⟨⟨by rw [hh]; exact h1, h2, fun j hj => by rw [hh]; exact h3 j hj⟩,
      by simp [Machine.step]⟩

theorem run_singleWriter (i : Nat) (acts : List Action) :
    ∀ (s : Machine), (∀ a ∈ acts, a.isCreate = false) → s.SingleWriter i →
      (s.servers i).m_frameNumber + acts.length < 2 ^ 64 → (s.run acts).SingleWriter i := by
  induction acts with
  | nil => intro s _ h _; exact h
  | cons a acts ih =>
    intro s ha h hlen
    simp only [List.length_cons] at hlen
    rw [run_cons]
    obtain ⟨g1, g2⟩ := step_singleWriter s i a (ha a (List.mem_cons_self _ _)) h (by omega)
    exact ih _ (fun b hb => ha b (List.mem_cons_of_mem _ hb)) g1 (by omega)

/-! ## The client counter -/

theorem wrapLONG_of_range (x : Int) (h1 : -2147483648 ≤ x) (h2 : x < 2147483648) :
    wrapLONG x = x := by
  unfold wrapLONG
  norm_num
  omega

theorem connects_cons_other (s : Machine) (a : Action) (acts : List Action)
    (h : ∀ j os, a ≠ .connect j os) : s.connects (a :: acts) = (s.step a).connects acts := by
  cases a <;> first | rfl | exact absurd rfl (h _ _)

theorem disconnects_cons_other (s : Machine) (a : Action) (acts : List Action)
    (h : ∀ j, a ≠ .disconnect j) : s.disconnects (a :: acts) = (s.step a).disconnects acts := by
  cases a <;> first | rfl | exact absurd rfl (h _)

/-- A successful `Connect` on a stamped header: exactly the case that is neither a failed open
nor a failed validation. -/
theorem Connect_cases (self : PS3EyeSharedMemoryClient) (w : World) (os : OsFaults)
    (hs : w.Stamped) :
    ((self.Connect w os).1 = true ∧
      (self.Connect w os).2.2.header.clientCount = InterlockedIncrement w.header.clientCount ∧
      (self.Connect w os).2.1.m_sharedMemory = true) ∨
    ((self.Connect w os).1 = false ∧
      (self.Connect w os).2.2.header.clientCount = w.header.clientCount ∧
      ((self.Connect w os).2.1.m_sharedMemory = true → self.m_sharedMemory = true)) := by
  by_cases ho : (os.mutex = false ∧ w.mutexHandles ≠ 0) ∧
      (os.newFrameEvent = false ∧ w.newFrameHandles ≠ 0) ∧
      (os.fileMapping = false ∧ w.mappingHandles ≠ 0) ∧ os.mapView = false
  · have ht : (self.Connect w os).1 = true := by
      rw [Connect_ret]
      obtain ⟨a, b, c, d⟩ := ho
      exact ⟨a, b, c, d, hs.1, hs.2.1⟩
    obtain ⟨c1, c2, -⟩ := Connect_true _ _ _ ht
    left
    exact ⟨ht, by rw [c2], by rw [c1]⟩
  · obtain ⟨c1, c2, -, c4, -⟩ := Connect_not_opened self w os ho
    right
    refine ⟨c1, by rw [c4], ?_⟩
    intro h
    rw [c2] at h
    simp at h
    exact h.1

/-- The change of `clientCount` in one step that is not a `Create`, on a stamped header and
away from the ends of the `LONG` range. -/
theorem step_clientCount (s : Machine) (a : Action) (ha : a.isCreate = false)
    (hs : s.world.Stamped) (hlo : -2147483648 < s.world.header.clientCount)
    (hhi : s.world.header.clientCount < 2147483647) :
    (s.step a).world.header.clientCount
      = s.world.header.clientCount + (s.connects [a] : Int) - (s.disconnects [a] : Int) := by
  cases a with
  | create i pid os => simp [Action.isCreate] at ha
  | connect j os =>
    rcases Connect_cases (s.clients j) s.world os hs with ⟨h1, h2, -⟩ | ⟨h1, h2, -⟩
    · simp only [Machine.step, Machine.connects, Machine.disconnects, h1, h2, InterlockedIncrement]
      rw [wrapLONG_of_range _ (by omega) (by omega)]
      simp
    · simp only [Machine.step, Machine.connects, Machine.disconnects, h1, h2]
      simp
  | disconnect j =>
    simp only [Machine.step, Machine.connects, Machine.disconnects,
      PS3EyeSharedMemoryClient.IsConnected]
    rw [Disconnect_header]
    by_cases hc : (s.clients j).m_sharedMemory = true
    · simp only [hc, if_true, InterlockedDecrement]
      rw [wrapLONG_of_range _ (by omega) (by omega)]
      simp
    · simp [hc]
  | close i =>
    simp only [Machine.step, Machine.connects, Machine.disconnects]
    rw [Close_header]; split <;> simp
  | writeFrame i d n t =>
    simp only [Machine.step, Machine.connects, Machine.disconnects]
    rw [WriteFrame_frame]; simp
  | waitForClients i =>
    simp only [Machine.step, Machine.connects, Machine.disconnects]
    rw [(WaitForClients_world _ _).1]; simp
  | waitForFrame j =>
    simp only [Machine.step, Machine.connects, Machine.disconnects]
    rw [(WaitForFrame_world _ _).1]; simp
  | readFrame j d n f t =>
    simp only [Machine.step, Machine.connects, Machine.disconnects]
    rw [(ReadFrame_world _ _ _ _ _ _ _).1]; simp
  | getFrameInfo j a b c d => simp [Machine.step, Machine.connects, Machine.disconnects]
  | otherAcquire k =>
    simp only [Machine.step, Machine.connects, Machine.disconnects]
    rw [wait_mutex_header]; simp
  | otherRelease k =>
    simp only [Machine.step, Machine.connects, Machine.disconnects]
    rw [release_mutex_header]; simp
  | otherAbandon k =>
    simp only [Machine.step, Machine.connects, Machine.disconnects]
    split <;> simp

theorem connects_cons (s : Machine) (a : Action) (acts : List Action) :
    s.connects (a :: acts) = s.connects [a] + (s.step a).connects acts := by
  cases a <;> simp [Machine.connects]

theorem disconnects_cons (s : Machine) (a : Action) (acts : List Action) :
    s.disconnects (a :: acts) = s.disconnects [a] + (s.step a).disconnects acts := by
  cases a <;> simp [Machine.disconnects]

theorem connects_single_le (s : Machine) (a : Action) : s.connects [a] ≤ 1 := by
  cases a <;> simp [Machine.connects]
  split <;> simp

theorem disconnects_single_le (s : Machine) (a : Action) : s.disconnects [a] ≤ 1 := by
  cases a <;> simp [Machine.disconnects]
  split <;> simp

/-- The client counter after a run without `Create` on a stamped header: what it was, plus the
successful `Connect` calls, minus the `Disconnect` calls made on connected clients. -/
theorem run_clientCount (acts : List Action) :
    ∀ (s : Machine), (∀ a ∈ acts, a.isCreate = false) → s.world.Stamped →
      -2147483648 + (acts.length : Int) ≤ s.world.header.clientCount →
      s.world.header.clientCount + (acts.length : Int) < 2147483648 →
      (s.run acts).world.header.clientCount
        = s.world.header.clientCount + (s.connects acts : Int) - (s.disconnects acts : Int) := by
  induction acts with
  | nil => intro s _ _ _ _; simp [Machine.run, Machine.connects, Machine.disconnects]
  | cons a acts ih =>
    intro s ha hs hlo hhi
    simp only [List.length_cons, Nat.cast_add, Nat.cast_one] at hlo hhi
    have hna := ha a (List.mem_cons_self _ _)
    have h1 := step_clientCount s a hna hs (by omega) (by omega)
    have hs' : (s.step a).world.Stamped := by
      have := run_stamped [a] s (by intro b hb; simp at hb; subst hb; exact hna) hs
      simpa [Machine.run] using this
    have c1 := connects_single_le s a
    have d1 := disconnects_single_le s a
    have h2 := ih (s.step a) (fun b hb => ha b (List.mem_cons_of_mem _ hb)) hs'
      (by rw [h1]; omega) (by rw [h1]; omega)
    rw [run_cons, h2, h1, connects_cons s a acts, disconnects_cons s a acts]
    push_cast
    ring



/-- An action that is neither `Create` nor `Close` leaves the view pointer of every server. -/
theorem step_server_sharedMemory (s : Machine) (a : Action) (i : Nat) (ha : a.isCreate = false)
    (hc : a.isClose = false) :
    ((s.step a).servers i).m_sharedMemory = (s.servers i).m_sharedMemory := by
  cases a with
  | create i pid os => simp [Action.isCreate] at ha
  | close k => simp [Action.isClose] at hc
  | writeFrame k d n t =>
    simp only [Machine.step]
    by_cases hk : i = k
    · subst hk
      simp only [Function.update_same]
      cases hr : ((s.servers i).WriteFrame s.world (Party.server i) d n t).1
      · rw [(WriteFrame_false _ _ _ _ _ _ hr).1]
      · cases d with
        | none => simp [PS3EyeSharedMemoryServer.WriteFrame] at hr
        | some data => rw [(WriteFrame_true _ _ _ _ _ _ hr).1]
    · simp [Function.update, hk]
  | _ => rfl

theorem run_server_sharedMemory (i : Nat) (acts : List Action) :
    ∀ (s : Machine), (∀ a ∈ acts, a.isCreate = false ∧ a.isClose = false) →
      ((s.run acts).servers i).m_sharedMemory = (s.servers i).m_sharedMemory := by
  induction acts with
  | nil => intro s _; rfl
  | cons a acts ih =>
    intro s ha
    rw [run_cons, ih _ (fun b hb => ha b (List.mem_cons_of_mem _ hb))]
    exact step_server_sharedMemory s a i (ha a (List.mem_cons_self _ _)).1
      (ha a (List.mem_cons_self _ _)).2

theorem step_countCoversAttached (s : Machine) (a : Action) (ha : a.isCreate = false)
    (hs : s.world.Stamped) (hI : s.CountCoversAttached)
    (hhi : s.world.header.clientCount < 2147483647) :
    (s.step a).CountCoversAttached := by
  obtain ⟨S, hS, hcard⟩ := hI
  have hlo : -2147483648 < s.world.header.clientCount := by
    have : (0 : Int) ≤ S.card := Int.natCast_nonneg _
    omega
  have hcc := step_clientCount s a ha hs hlo hhi
  cases a with
  | create i pid os => simp [Action.isCreate] at ha
  | connect j os =>
    rcases Connect_cases (s.clients j) s.world os hs with ⟨h1, h2, h3⟩ | ⟨h1, h2, h3⟩
    · refine ⟨insert j S, ?_, ?_⟩
      · intro j' hj'
        by_cases hj : j' = j
        · subst hj; exact Finset.mem_insert_self _ _
        · simp only [Machine.step, Function.update_noteq hj] at hj'
          exact Finset.mem_insert_of_mem (hS j' hj')
      · have hle := Finset.card_insert_le j S
        rw [hcc]
        simp only [Machine.connects, Machine.disconnects, h1]
        push_cast
        have : ((insert j S).card : Int) ≤ (S.card : Int) + 1 := by exact_mod_cast hle
        simp
        omega
    · refine ⟨S, ?_, ?_⟩
      · intro j' hj'
        by_cases hj : j' = j
        · subst hj
          simp only [Machine.step, Function.update_same] at hj'
          exact hS j' (h3 hj')
        · simp only [Machine.step, Function.update_noteq hj] at hj'
          exact hS j' hj'
      · rw [hcc]
        simp only [Machine.connects, Machine.disconnects, h1]
        simpa using hcard
  | disconnect j =>
    by_cases hc : (s.clients j).m_sharedMemory = true
    · refine ⟨S.erase j, ?_, ?_⟩
      · intro j' hj'
        by_cases hj : j' = j
        · subst hj
          simp [Machine.step, Disconnect_self] at hj'
        · simp only [Machine.step, Function.update_noteq hj] at hj'
          exact Finset.mem_erase.2 ⟨hj, hS j' hj'⟩
      · rw [hcc, Finset.card_erase_of_mem (hS j hc)]
        have hpos : 0 < S.card := Finset.card_pos.2 ⟨j, hS j hc⟩
        simp only [Machine.connects, Machine.disconnects,
          PS3EyeSharedMemoryClient.IsConnected, hc]
        push_cast [Nat.cast_sub hpos]
        simp
        omega
    · refine ⟨S, ?_, ?_⟩
      · intro j' hj'
        by_cases hj : j' = j
        · subst hj
          simp [Machine.step, Disconnect_self] at hj'
        · simp only [Machine.step, Function.update_noteq hj] at hj'
          exact hS j' hj'
      · rw [hcc]
        simp only [Machine.connects, Machine.disconnects,
          PS3EyeSharedMemoryClient.IsConnected, hc]
        simpa using hcard
  | readFrame j d n f t =>
    refine ⟨S, ?_, ?_⟩
    · intro j' hj'
      by_cases hj : j' = j
      · subst hj
        simp only [Machine.step, Function.update_same] at hj'
        apply hS
        cases hr : ((s.clients j').ReadFrame s.world (Party.client j') d n f t).ret
        · rw [(ReadFrame_false _ _ _ _ _ _ _ hr).1] at hj'; exact hj'
        · cases d with
          | none => simp [PS3EyeSharedMemoryClient.ReadFrame] at hr
          | some dest => rw [(ReadFrame_true _ _ _ _ _ _ _ hr).1] at hj'; exact hj'
      · simp only [Machine.step, Function.update_noteq hj] at hj'
        exact hS j' hj'
    · rw [hcc]; simpa [Machine.connects, Machine.disconnects] using hcard
  | close i =>
    exact ⟨S, fun j' hj' => hS j' hj',
      by rw [hcc]; simpa [Machine.connects, Machine.disconnects] using hcard⟩
  | writeFrame i d n t =>
    exact ⟨S, fun j' hj' => hS j' hj',
      by rw [hcc]; simpa [Machine.connects, Machine.disconnects] using hcard⟩
  | waitForClients i =>
    exact ⟨S, fun j' hj' => hS j' hj',
      by rw [hcc]; simpa [Machine.connects, Machine.disconnects] using hcard⟩
  | waitForFrame j =>
    exact ⟨S, fun j' hj' => hS j' hj',
      by rw [hcc]; simpa [Machine.connects, Machine.disconnects] using hcard⟩
  | getFrameInfo j a b c d =>
    exact ⟨S, fun j' hj' => hS j' hj',
      by rw [hcc]; simpa [Machine.connects, Machine.disconnects] using hcard⟩
  | otherAcquire k =>
    exact ⟨S, fun j' hj' => hS j' hj',
      by rw [hcc]; simpa [Machine.connects, Machine.disconnects] using hcard⟩
  | otherRelease k =>
    exact ⟨S, fun j' hj' => hS j' hj',
      by rw [hcc]; simpa [Machine.connects, Machine.disconnects] using hcard⟩
  | otherAbandon k =>
    exact ⟨S, fun j' hj' => hS j' hj',
      by rw [hcc]; simpa [Machine.connects, Machine.disconnects] using hcard⟩

theorem run_countCoversAttached (acts : List Action) :
    ∀ (s : Machine), (∀ a ∈ acts, a.isCreate = false) → s.world.Stamped →
      s.CountCoversAttached →
      s.world.header.clientCount + (acts.length : Int) < 2147483648 →
      (s.run acts).CountCoversAttached := by
  induction acts with
  | nil => intro s _ _ h _; exact h
  | cons a acts ih =>
    intro s ha hs hI hhi
    simp only [List.length_cons, Nat.cast_add, Nat.cast_one] at hhi
    have hna := ha a (List.mem_cons_self _ _)
    have hs' : (s.step a).world.Stamped := by
      have := run_stamped [a] s (by intro b hb; simp at hb; subst hb; exact hna) hs
      simpa [Machine.run] using this
    have hlo : -2147483648 < s.world.header.clientCount := by
      obtain ⟨S, -, hcard⟩ := hI
      have : (0 : Int) ≤ S.card := Int.natCast_nonneg _
      omega
    have h1 := step_clientCount s a hna hs hlo (by omega)
    have c1 := connects_single_le s a
    rw [run_cons]
    exact ih (s.step a) (fun b hb => ha b (List.mem_cons_of_mem _ hb)) hs'
      (step_countCoversAttached s a hna hs hI (by omega)) (by rw [h1]; omega)

/-! ## The handles of a server -/

/-- After any `Create`, a server whose mutex handle is non-null has every handle non-null. -/
theorem Create_handles (self : PS3EyeSharedMemoryServer) (w : World) (pid : Nat)
    (os : OsFaults) (h : (self.Create w pid os).2.1.m_mutex = true) :
    (self.Create w pid os).2.1.Created := by
  cases hr : (self.Create w pid os).1
  · exfalso
    rw [Create_ret] at hr
    obtain ⟨a, b, c, d, e⟩ := os
    revert h
    cases a <;> cases b <;> cases c <;> cases d <;> cases e <;>
      simp [PS3EyeSharedMemoryServer.Create] at hr ⊢
  · rw [(Create_true self w pid os hr).1]
    exact ⟨rfl, rfl, rfl, rfl, rfl⟩

/-- In every state reached from the initial one, a server whose mutex handle is non-null has
every handle non-null; so has every server for which `WriteFrame` returns true. -/
theorem run_server_handles (acts : List Action) :
    ∀ (s : Machine), (∀ i, (s.servers i).m_mutex = true → (s.servers i).Created) →
      ∀ i, ((s.run acts).servers i).m_mutex = true → ((s.run acts).servers i).Created := by
  induction acts with
  | nil => intro s h; exact h
  | cons a acts ih =>
    intro s h
    rw [run_cons]
    apply ih
    intro i
    cases a with
    | create k pid os =>
      by_cases hk : i = k
      · subst hk
        simp only [Machine.step, Function.update_same]
        exact Create_handles _ _ _ _
      · simp only [Machine.step, Function.update_noteq hk]
        exact h i
    | close k =>
      by_cases hk : i = k
      · subst hk
        simp [Machine.step, Close_self]
      · simp only [Machine.step, Function.update_noteq hk]
        exact h i
    | writeFrame k d n t =>
      by_cases hk : i = k
      · subst hk
        simp only [Machine.step, Function.update_same]
        cases hr : ((s.servers i).WriteFrame s.world (Party.server i) d n t).1
        · rw [(WriteFrame_false _ _ _ _ _ _ hr).1]; exact h i
        · cases d with
          | none => simp [PS3EyeSharedMemoryServer.WriteFrame] at hr
          | some data =>
            rw [(WriteFrame_true _ _ _ _ _ _ hr).1]
            exact h i
      · simp only [Machine.step, Function.update_noteq hk]
        exact h i
    | _ => exact h i

theorem WriteFrame_true_mutex (self : PS3EyeSharedMemoryServer) (w : World) (me : Party)
    (frameData : Option Buf) (frameSize timestamp : Nat)
    (h : (self.WriteFrame w me frameData frameSize timestamp).1 = true) :
    self.m_mutex = true := by
  have := ((WriteFrame_ret _ _ _ _ _ _).1 h).2.2.2
  by_contra hm
  have hf : self.m_mutex = false := by simpa using hm
  simp [World.WaitForSingleObject_mutex, hf] at this

theorem reachable_WriteFrame_true_created (acts : List Action) (i : Nat)
    (frameData : Option Buf) (frameSize timestamp : Nat)
    (h : (((Machine.init.run acts).servers i).WriteFrame (Machine.init.run acts).world
      (Party.server i) frameData frameSize timestamp).1 = true) :
    ((Machine.init.run acts).servers i).Created :=
  run_server_handles acts Machine.init (fun _ hm => absurd hm (by simp [Machine.init])) i
    (WriteFrame_true_mutex _ _ _ _ _ _ h)

/-! ## The server's methods: `Create` and `WriteFrame` -/

/-- C8: after every `Create` that returns true the header holds magic 0x45335350, version 1,
width 640, height 480, stride 1920, format 0, frameNumber 0, timestamp 0, dataOffset 72 (the
size of the header), dataSize 921600, serverPID the caller's process id, clientCount 0 and
reserved all zero, and `GetFrameNumber()` is 0. -/
theorem C8_Create_initialises_header (self : PS3EyeSharedMemoryServer) (w : World) (pid : Nat)
    (os : OsFaults) (h : (self.Create w pid os).1 = true) :
    (self.Create w pid os).2.2.header =
      { magic := 0x45335350, version := 1, width := 640, height := 480, stride := 1920,
        format := 0, frameNumber := 0, timestamp := 0, dataOffset := 72, dataSize := 921600,
        serverPID := pid, clientCount := 0, reserved := [0, 0, 0, 0] } ∧
    sizeof_PS3EyeFrameHeader = 72 ∧
    (self.Create w pid os).2.1.GetFrameNumber = 0 := by
  obtain ⟨h1, h2⟩ := Create_true self w pid os h
  refine ⟨?_, by decide, ?_⟩
  · rw [h2]; rfl
  · rw [h1]; rfl

theorem C8_Create_initialises_header_witness :
    (({} : PS3EyeSharedMemoryServer).Create World.empty 4242 {}).1 = true ∧
    (({} : PS3EyeSharedMemoryServer).Create World.empty 4242 {}).2.2.header =
      { magic := 0x45335350, version := 1, width := 640, height := 480, stride := 1920,
        format := 0, frameNumber := 0, timestamp := 0, dataOffset := 72, dataSize := 921600,
        serverPID := 4242, clientCount := 0, reserved := [0, 0, 0, 0] } :=
  ⟨by decide, (C8_Create_initialises_header {} World.empty 4242 {} (by decide)).1⟩

/-- C9: `WriteFrame` returns false when the server is not created, when `frameData` is null,
when `frameSize` exceeds `PS3EYE_FRAME_SIZE` and when the wait on the mutex does not return
`WAIT_OBJECT_0`; and every call that returns false leaves the header, every byte of the region,
the server's frame counter and the new-frame event as they were. -/
theorem C9_WriteFrame_failure_changes_nothing (self : PS3EyeSharedMemoryServer) (w : World)
    (me : Party) (frameData : Option Buf) (frameSize timestamp : Nat) :
    (self.IsCreated = false → (self.WriteFrame w me frameData frameSize timestamp).1 = false) ∧
    (frameData = none → (self.WriteFrame w me frameData frameSize timestamp).1 = false) ∧
    (frameSize > PS3EYE_FRAME_SIZE →
      (self.WriteFrame w me frameData frameSize timestamp).1 = false) ∧
    ((w.WaitForSingleObject_mutex self.m_mutex me).1 ≠ WaitResult.WAIT_OBJECT_0 →
      (self.WriteFrame w me frameData frameSize timestamp).1 = false) ∧
    ((self.WriteFrame w me frameData frameSize timestamp).1 = false →
      (self.WriteFrame w me frameData frameSize timestamp).2.2.header = w.header ∧
      (self.WriteFrame w me frameData frameSize timestamp).2.2.mem = w.mem ∧
      (self.WriteFrame w me frameData frameSize timestamp).2.1.GetFrameNumber
        = self.GetFrameNumber ∧
      (self.WriteFrame w me frameData frameSize timestamp).2.2.newFrameSignaled
        = w.newFrameSignaled) := by
  have hr := WriteFrame_ret self w me frameData frameSize timestamp
  have hf : ∀ {b : Bool}, ¬ b = true → b = false := by intro b; cases b <;> simp
  refine ⟨fun h => hf fun ht => ?_, fun h => hf fun ht => ?_, fun h => hf fun ht => ?_,
    fun h => hf fun ht => ?_, fun h => ?_⟩
  · have := (hr.1 ht).2.1
    simp [PS3EyeSharedMemoryServer.IsCreated] at h
    simp [h] at this
  · have := (hr.1 ht).1
    simp [h] at this
  · have := (hr.1 ht).2.2.1
    omega
  · exact h (hr.1 ht).2.2.2
  · obtain ⟨h1, h2, h3, h4, -⟩ := WriteFrame_false self w me frameData frameSize timestamp h
    exact ⟨h2, h3, by rw [h1], h4⟩

theorem C9_WriteFrame_failure_changes_nothing_witness :
    (World.WaitForSingleObject_mutex lockedWorld true (Party.server 0)).1
      ≠ WaitResult.WAIT_OBJECT_0 ∧
    ((⟨true, true, true, true, true, 0⟩ : PS3EyeSharedMemoryServer).WriteFrame lockedWorld
      (Party.server 0) (some (bufOfList [1, 2, 3])) 3 1000).1 = false ∧
    ((⟨true, true, true, true, true, 0⟩ : PS3EyeSharedMemoryServer).WriteFrame lockedWorld
      (Party.server 0) (some (bufOfList [1, 2, 3])) 3 1000).2.2.header = lockedWorld.header :=
  ⟨by decide,
   (C9_WriteFrame_failure_changes_nothing ⟨true, true, true, true, true, 0⟩ lockedWorld
      (Party.server 0) (some (bufOfList [1, 2, 3])) 3 1000).2.2.2.1 (by decide),
   ((C9_WriteFrame_failure_changes_nothing ⟨true, true, true, true, true, 0⟩ lockedWorld
      (Party.server 0) (some (bufOfList [1, 2, 3])) 3 1000).2.2.2.2 (by decide)).1⟩

/-- C10: every `WriteFrame(frameData, frameSize, timestamp)` that returns true on a created
server, over a header stamped by `Create`, sets `header.timestamp` to `timestamp` and
`header.dataSize` to `frameSize`, makes the first `frameSize` bytes of the frame slot equal to
`frameData`, leaves the new-frame event signalled and the mutex owned as it was before the call
(what the call acquired it released), and leaves magic, version, width, height, stride, format,
dataOffset, serverPID, clientCount and the reserved words unchanged. -/
theorem C10_WriteFrame_success (self : PS3EyeSharedMemoryServer) (w : World) (me : Party)
    (data : Buf) (frameSize timestamp : Nat)
    (hc : self.Created) (hs : w.Stamped)
    (h : (self.WriteFrame w me (some data) frameSize timestamp).1 = true) :
    (self.WriteFrame w me (some data) frameSize timestamp).2.2.header.timestamp = timestamp ∧
    (self.WriteFrame w me (some data) frameSize timestamp).2.2.header.dataSize = frameSize ∧
    (∀ i, i < frameSize →
      (self.WriteFrame w me (some data) frameSize timestamp).2.2.frameSlot i = data i) ∧
    (self.WriteFrame w me (some data) frameSize timestamp).2.2.newFrameSignaled = true ∧
    (self.WriteFrame w me (some data) frameSize timestamp).2.2.mutexLock = w.mutexLock ∧
    (self.WriteFrame w me (some data) frameSize timestamp).2.2.header.magic = w.header.magic ∧
    (self.WriteFrame w me (some data) frameSize timestamp).2.2.header.version
      = w.header.version ∧
    (self.WriteFrame w me (some data) frameSize timestamp).2.2.header.width = w.header.width ∧
    (self.WriteFrame w me (some data) frameSize timestamp).2.2.header.height = w.header.height ∧
    (self.WriteFrame w me (some data) frameSize timestamp).2.2.header.stride = w.header.stride ∧
    (self.WriteFrame w me (some data) frameSize timestamp).2.2.header.format = w.header.format ∧
    (self.WriteFrame w me (some data) frameSize timestamp).2.2.header.dataOffset
      = w.header.dataOffset ∧
    (self.WriteFrame w me (some data) frameSize timestamp).2.2.header.serverPID
      = w.header.serverPID ∧
    (self.WriteFrame w me (some data) frameSize timestamp).2.2.header.clientCount
      = w.header.clientCount ∧
    (self.WriteFrame w me (some data) frameSize timestamp).2.2.header.reserved
      = w.header.reserved := by
  obtain ⟨-, h2, h3, h4, -, h6⟩ := WriteFrame_true self w me data frameSize timestamp h
  refine ⟨by rw [h2], by rw [h2], ?_, ?_, h6, by rw [h2], by rw [h2], by rw [h2], by rw [h2],
    by rw [h2], by rw [h2], by rw [h2], by rw [h2], by rw [h2], by rw [h2]⟩
  · intro i hi
    unfold World.frameSlot
    rw [h3, hs.2.2.2.2.2.2]
    simp [memcpy, hi]
  · rw [h4, hc.2.2.1]; rfl

theorem C10_WriteFrame_success_witness :
    (⟨true, true, true, true, true, 0⟩ : PS3EyeSharedMemoryServer).Created ∧
    ((({} : PS3EyeSharedMemoryServer).Create World.empty 4242 {}).2.2).Stamped ∧
    ((⟨true, true, true, true, true, 0⟩ : PS3EyeSharedMemoryServer).WriteFrame
      (({} : PS3EyeSharedMemoryServer).Create World.empty 4242 {}).2.2
      (Party.server 0) (some (bufOfList [1, 2, 3])) 3 1000).2.2.header.timestamp = 1000 :=
  ⟨by decide, by decide,
   (C10_WriteFrame_success ⟨true, true, true, true, true, 0⟩
      (({} : PS3EyeSharedMemoryServer).Create World.empty 4242 {}).2.2
      (Party.server 0) (bufOfList [1, 2, 3]) 3 1000 (by decide) (by decide) (by decide)).1⟩

/-! ## Round trip -/

theorem take_bufOfList (B : List Byte) : Buf.take (bufOfList B) B.length = B := by
  apply List.ext_getElem
  · simp [Buf.take]
  · intro k h1 h2
    simp [Buf.take, bufOfList, List.getElem?_eq_getElem h2]

theorem take_congr (b c : Buf) (n : Nat) (h : ∀ k, k < n → b k = c k) :
    Buf.take b n = Buf.take c n := by
  unfold Buf.take
  apply List.map_congr_left
  intro k hk
  exact h k (List.mem_range.1 hk)

/-- C1: on a channel whose header `Create` stamped, when `WriteFrame(B, |B|, t)` returns true
and any calls but `WriteFrame` and `Create` follow (by any server or client, or moves of other
threads on the mutex), a `ReadFrame` of any client that then returns true with
`destSize >= |B|` leaves the first `|B|` bytes of `destBuffer` equal to `B` and stores `t`
through the timestamp pointer. -/
theorem C1_round_trip (s : Machine) (i j : Nat) (B : List Byte) (t : Nat) (acts : List Action)
    (dest : Buf) (destSize : Nat) (fn ts : Option Nat)
    (hs : s.world.Stamped)
    (hw : ((s.servers i).WriteFrame s.world (Party.server i) (some (bufOfList B))
      B.length t).1 = true)
    (hacts : ∀ a ∈ acts, a.isCreate = false ∧ a.isWriteFrame = false)
    (hsz : B.length ≤ destSize)
    (hr : ((((s.step (.writeFrame i (some (bufOfList B)) B.length t)).run acts).clients j).ReadFrame
      ((s.step (.writeFrame i (some (bufOfList B)) B.length t)).run acts).world
      (Party.client j) (some dest) destSize fn ts).ret = true) :
    ((((s.step (.writeFrame i (some (bufOfList B)) B.length t)).run acts).clients j).ReadFrame
      ((s.step (.writeFrame i (some (bufOfList B)) B.length t)).run acts).world
      (Party.client j) (some dest) destSize fn ts).destBuffer.map (fun d => d.take B.length)
      = some B ∧
    ((((s.step (.writeFrame i (some (bufOfList B)) B.length t)).run acts).clients j).ReadFrame
      ((s.step (.writeFrame i (some (bufOfList B)) B.length t)).run acts).world
      (Party.client j) (some dest) destSize fn ts).timestamp = ts.map (fun _ => t) := by
  obtain ⟨-, w2, w3, -⟩ := WriteFrame_true (s.servers i) s.world (Party.server i)
    (bufOfList B) B.length t hw
  obtain ⟨-, p2, p3, p4⟩ := run_payload acts
    (s.step (.writeFrame i (some (bufOfList B)) B.length t)) hacts
  have hst : (s.step (.writeFrame i (some (bufOfList B)) B.length t)).world.Stamped := by
    have := run_stamped [.writeFrame i (some (bufOfList B)) B.length t] s
      (by intro a ha; simp at ha; subst ha; rfl) hs
    simpa [Machine.run] using this
  have hoff := (run_stamped acts _ (fun a ha => (hacts a ha).1) hst).2.2.2.2.2.2
  have e1 : (s.step (.writeFrame i (some (bufOfList B)) B.length t)).world.header
      = ((s.servers i).WriteFrame s.world (Party.server i) (some (bufOfList B))
          B.length t).2.2.header := rfl
  have e2 : (s.step (.writeFrame i (some (bufOfList B)) B.length t)).world.mem
      = ((s.servers i).WriteFrame s.world (Party.server i) (some (bufOfList B))
          B.length t).2.2.mem := rfl
  rw [e1, w2] at p2 p3
  rw [e2, w3, hs.2.2.2.2.2.2] at p4
  obtain ⟨-, r2, -, r4, -⟩ := ReadFrame_true _ _ _ dest destSize fn ts hr
  rw [r2, r4, p2, p3, p4, hoff]
  refine ⟨?_, rfl⟩
  simp only [Option.map_some']
  congr 1
  rw [← take_bufOfList B]
  conv_lhs => rw [take_bufOfList B]
  apply take_congr
  intro k hk
  have hk2 : k < min destSize B.length := by omega
  simp [memcpy, hk2, hk]

theorem C1_round_trip_witness :
    demoMachine.world.Stamped ∧
    ((demoMachine.servers 0).WriteFrame demoMachine.world (Party.server 0)
      (some (bufOfList [1, 2, 3])) 3 1000).1 = true ∧
    ((((demoMachine.step (.writeFrame 0 (some (bufOfList [1, 2, 3])) 3 1000)).run
        [.waitForFrame 0]).clients 0).ReadFrame
      ((demoMachine.step (.writeFrame 0 (some (bufOfList [1, 2, 3])) 3 1000)).run
        [.waitForFrame 0]).world
      (Party.client 0) (some (fun _ => 0)) 10 (some 0) (some 0)).timestamp = some 1000 :=
  ⟨by decide, by decide,
   (C1_round_trip demoMachine 0 0 [1, 2, 3] 1000 [.waitForFrame 0] (fun _ => 0) 10 (some 0)
      (some 0) (by decide) (by decide)
      (by intro a ha; simp at ha; subst ha; exact ⟨rfl, rfl⟩) (by decide) (by decide)).2⟩

/-! ## The state a successful `Create` leaves -/

theorem step_create (s : Machine) (i pid : Nat) (os : OsFaults)
    (hc : ((s.servers i).Create s.world pid os).1 = true) :
    (s.step (.create i pid os)).world.header = initHeader pid ∧
    (s.step (.create i pid os)).servers i = ⟨true, true, true, true, true, 0⟩ ∧
    (∀ k, k ≠ i → (s.step (.create i pid os)).servers k = s.servers k) ∧
    (s.step (.create i pid os)).clients = s.clients := by
  obtain ⟨h1, h2⟩ := Create_true _ _ _ _ hc
  refine ⟨h2, ?_, ?_, rfl⟩
  · simp [Machine.step, h1]
  · intro k hk
    simp [Machine.step, Function.update, hk]

theorem initHeader_stamped (w : World) (pid : Nat) (h : w.header = initHeader pid) :
    w.Stamped := by
  unfold World.Stamped
  rw [h]
  exact ⟨rfl, rfl, rfl, rfl, rfl, rfl, rfl⟩

/-! ## The frame counter: claims -/

/-- C2: after a `Create` of server `i` that returns true and any run of fewer than 2^64 calls
in which only server `i` calls `WriteFrame` and nobody calls `Create`, `header.frameNumber`
and `GetFrameNumber()` equal the number of `WriteFrame` calls that returned true; a further
`WriteFrame` of server `i` that returns true leaves `header.frameNumber` exactly 1 greater
than before, and one that returns false leaves it as it was, so it never decreases. -/
theorem C2_frameNumber_counts_successful_writes (s0 : Machine) (i pid : Nat) (os : OsFaults)
    (acts : List Action) (d : Option Buf) (n t : Nat)
    (hc : ((s0.servers i).Create s0.world pid os).1 = true)
    (hacts : ∀ a ∈ acts, a.isCreate = false ∧ a.isWriteFrameNot i = false)
    (hlen : acts.length + 1 < 2 ^ 64) :
    ((s0.step (.create i pid os)).run acts).world.header.frameNumber
      = (s0.step (.create i pid os)).writes acts ∧
    (((s0.step (.create i pid os)).run acts).servers i).GetFrameNumber
      = (s0.step (.create i pid os)).writes acts ∧
    (((((s0.step (.create i pid os)).run acts).servers i).WriteFrame
        ((s0.step (.create i pid os)).run acts).world (Party.server i) d n t).1 = true →
      ((((s0.step (.create i pid os)).run acts).servers i).WriteFrame
        ((s0.step (.create i pid os)).run acts).world (Party.server i) d n t).2.2.header.frameNumber
        = ((s0.step (.create i pid os)).run acts).world.header.frameNumber + 1) ∧
    (((((s0.step (.create i pid os)).run acts).servers i).WriteFrame
        ((s0.step (.create i pid os)).run acts).world (Party.server i) d n t).1 = false →
      ((((s0.step (.create i pid os)).run acts).servers i).WriteFrame
        ((s0.step (.create i pid os)).run acts).world (Party.server i) d n t).2.2.header.frameNumber
        = ((s0.step (.create i pid os)).run acts).world.header.frameNumber) := by
  obtain ⟨c1, c2, -, -⟩ := step_create s0 i pid os hc
  have h0 : (s0.step (.create i pid os)).world.header.frameNumber
      = ((s0.step (.create i pid os)).servers i).m_frameNumber := by
    rw [c1, c2]; rfl
  have hm0 : ((s0.step (.create i pid os)).servers i).m_frameNumber = 0 := by rw [c2]
  obtain ⟨g1, g2, g3⟩ := run_frameNumber i acts _ hacts h0 (by rw [hm0]; omega)
  rw [hm0, Nat.zero_add] at g1 g2
  refine ⟨g1, g2, ?_, ?_⟩
  · intro hr
    cases d with
    | none => simp [PS3EyeSharedMemoryServer.WriteFrame] at hr
    | some data =>
      obtain ⟨-, t2, -⟩ := WriteFrame_true _ _ _ _ _ _ hr
      rw [t2, g1, g2]
      exact Nat.mod_eq_of_lt (by omega)
  · intro hr
    rw [(WriteFrame_false _ _ _ _ _ _ hr).2.1]

theorem C2_frameNumber_counts_successful_writes_witness :
    ((Machine.init.servers 0).Create Machine.init.world 4242 {}).1 = true ∧
    ((Machine.init.step (.create 0 4242 {})).run
      [.writeFrame 0 (some (bufOfList [1, 2, 3])) 3 1000, .connect 0 {},
       .writeFrame 0 none 0 0, .writeFrame 0 (some (bufOfList [4, 5, 6])) 3 2000]
      ).world.header.frameNumber = 2 :=
  ⟨by decide,
   (C2_frameNumber_counts_successful_writes Machine.init 0 4242 {}
      [.writeFrame 0 (some (bufOfList [1, 2, 3])) 3 1000, .connect 0 {},
       .writeFrame 0 none 0 0, .writeFrame 0 (some (bufOfList [4, 5, 6])) 3 2000]
      none 0 0 (by decide)
      (by intro a ha; simp at ha; rcases ha with rfl | rfl | rfl | rfl <;> exact ⟨rfl, rfl⟩)
      (by norm_num)).1⟩


/-- C3 fails as stated: client 0 has last seen frame 2; after the server is closed and created
again the header's frame number is 0, and the client's `ReadFrame` returns true and reports
frame number 0, which is not greater than 2. -/
theorem C3_restart_reports_smaller_frameNumber :
    (restartedMachine.clients 0).IsConnected = true ∧
    (restartedMachine.clients 0).m_lastFrameNumber = 2 ∧
    ((restartedMachine.clients 0).ReadFrame restartedMachine.world (Party.client 0)
      (some (fun _ => 0)) 3 (some 7) (some 7)).ret = true ∧
    ((restartedMachine.clients 0).ReadFrame restartedMachine.world (Party.client 0)
      (some (fun _ => 0)) 3 (some 7) (some 7)).frameNumber = some 0 := by
  decide

/-- C3, amended: every `ReadFrame` that returns true stores the header's frame number through
the frame-number pointer and as the client's last seen number, and that number differs from
the number `k` the client had last seen; it is strictly greater than `k` in every state reached
from one `Create` (made while no server is created and no client is attached) by fewer than
2^64 calls none of which is a `Create`. -/
theorem C3_ReadFrame_reports_unseen_frameNumber (s0 : Machine) (i pid : Nat) (os : OsFaults)
    (acts : List Action) (j : Nat) (dest : Buf) (destSize : Nat) (fn ts : Option Nat)
    (hsrv : ∀ k, (s0.servers k).m_sharedMemory = false)
    (hcl : ∀ k, (s0.clients k).m_sharedMemory = false)
    (hc : ((s0.servers i).Create s0.world pid os).1 = true)
    (hacts : ∀ a ∈ acts, a.isCreate = false)
    (hlen : acts.length < 2 ^ 64)
    (hr : ((((s0.step (.create i pid os)).run acts).clients j).ReadFrame
      ((s0.step (.create i pid os)).run acts).world (Party.client j) (some dest) destSize
      fn ts).ret = true) :
    (∀ (self : PS3EyeSharedMemoryClient) (w : World) (me : Party) (dest : Buf) (destSize : Nat)
        (fn ts : Option Nat), (self.ReadFrame w me (some dest) destSize fn ts).ret = true →
      (self.ReadFrame w me (some dest) destSize fn ts).frameNumber
        = fn.map (fun _ => w.header.frameNumber) ∧
      (self.ReadFrame w me (some dest) destSize fn ts).self.m_lastFrameNumber
        = w.header.frameNumber ∧
      w.header.frameNumber ≠ self.m_lastFrameNumber) ∧
    (((s0.step (.create i pid os)).run acts).clients j).m_lastFrameNumber
      < ((s0.step (.create i pid os)).run acts).world.header.frameNumber ∧
    (∀ v, ((((s0.step (.create i pid os)).run acts).clients j).ReadFrame
        ((s0.step (.create i pid os)).run acts).world (Party.client j) (some dest) destSize
        fn ts).frameNumber = some v →
      (((s0.step (.create i pid os)).run acts).clients j).m_lastFrameNumber < v) := by
  have hgen : ∀ (self : PS3EyeSharedMemoryClient) (w : World) (me : Party) (dest : Buf)
      (destSize : Nat) (fn ts : Option Nat),
      (self.ReadFrame w me (some dest) destSize fn ts).ret = true →
      (self.ReadFrame w me (some dest) destSize fn ts).frameNumber
        = fn.map (fun _ => w.header.frameNumber) ∧
      (self.ReadFrame w me (some dest) destSize fn ts).self.m_lastFrameNumber
        = w.header.frameNumber ∧
      w.header.frameNumber ≠ self.m_lastFrameNumber := by
    intro self w me dest destSize fn ts h
    obtain ⟨r1, -, r3, -⟩ := ReadFrame_true _ _ _ _ _ _ _ h
    exact ⟨r3, by rw [r1], ((ReadFrame_ret _ _ _ _ _ _ _).1 h).2.2.2.2⟩
  refine ⟨hgen, ?_⟩
  obtain ⟨c1, c2, c3, c4⟩ := step_create s0 i pid os hc
  have hI : (s0.step (.create i pid os)).SingleWriter i := by
    refine ⟨by rw [c1, c2]; rfl, fun k hk => by rw [c3 k hk]; exact hsrv k, ?_⟩
    intro k hk
    rw [c4, hcl k] at hk
    exact absurd hk (by simp)
  have hm0 : ((s0.step (.create i pid os)).servers i).m_frameNumber = 0 := by rw [c2]
  obtain ⟨-, -, h3⟩ := run_singleWriter i acts _ hacts hI (by rw [hm0]; omega)
  obtain ⟨-, hat, -, -, hne⟩ := (ReadFrame_ret _ _ _ _ _ _ _).1 hr
  have hle := h3 j hat
  have hlt : (((s0.step (.create i pid os)).run acts).clients j).m_lastFrameNumber
      < ((s0.step (.create i pid os)).run acts).world.header.frameNumber := by omega
  refine ⟨hlt, ?_⟩
  intro v hv
  rw [(hgen _ _ _ _ _ _ _ hr).1] at hv
  cases fn with
  | none => simp at hv
  | some x =>
    simp only [Option.map_some', Option.some.injEq] at hv
    omega

theorem C3_ReadFrame_reports_unseen_frameNumber_witness :
    (∀ k, (Machine.init.servers k).m_sharedMemory = false) ∧
    ((Machine.init.servers 0).Create Machine.init.world 100 {}).1 = true ∧
    (busyMachine.clients 0).m_lastFrameNumber < busyMachine.world.header.frameNumber :=
  ⟨fun _ => rfl, by decide,
   (C3_ReadFrame_reports_unseen_frameNumber Machine.init 0 100 {}
      [.writeFrame 0 (some (bufOfList [1, 2, 3])) 3 1000,
       .writeFrame 0 (some (bufOfList [4, 5, 6])) 3 2000, .connect 0 {}]
      0 (fun _ => 0) 3 (some 0) (some 0) (fun _ => rfl) (fun _ => rfl) (by decide)
      (by intro a ha; simp at ha; rcases ha with rfl | rfl | rfl <;> rfl)
      (by norm_num) (by decide)).2.1⟩

/-! ## The client counter: claims -/

/-- C4 fails as stated: after `Create`, one `Disconnect` call on a client that never connected
makes M = 0 and D = 1, and `GetClientCount()` is 0, not M - D = -1. -/
theorem C4_disconnect_without_connect_not_counted :
    connectCalls [Action.disconnect 0] = 0 ∧ disconnectCalls [Action.disconnect 0] = 1 ∧
    (((Machine.init.step (.create 0 4242 {})).run [.disconnect 0]).servers 0).GetClientCount
      ((Machine.init.step (.create 0 4242 {})).run [.disconnect 0]).world = 0 := by
  decide

/-- C4, amended: after a `Create` of server `i` that returns true and any run of fewer than
2^31 calls none of which is a `Create` or a `Close`, `GetClientCount()` on server `i` is the
number of `Connect` calls that returned true minus the number of `Disconnect` calls made on
a connected client. -/
theorem C4_GetClientCount_counts_effective_calls (s0 : Machine) (i pid : Nat) (os : OsFaults)
    (acts : List Action)
    (hc : ((s0.servers i).Create s0.world pid os).1 = true)
    (hacts : ∀ a ∈ acts, a.isCreate = false ∧ a.isClose = false)
    (hlen : acts.length < 2 ^ 31) :
    (((s0.step (.create i pid os)).run acts).servers i).GetClientCount
      ((s0.step (.create i pid os)).run acts).world
      = ((s0.step (.create i pid os)).connects acts : Int)
        - ((s0.step (.create i pid os)).disconnects acts : Int) := by
  obtain ⟨c1, c2, -, -⟩ := step_create s0 i pid os hc
  have hst := initHeader_stamped _ pid c1
  have hcc : (s0.step (.create i pid os)).world.header.clientCount = 0 := by rw [c1]; rfl
  have hrun := run_clientCount acts _ (fun a ha => (hacts a ha).1) hst
    (by rw [hcc]; norm_num at hlen; omega) (by rw [hcc]; norm_num at hlen; omega)
  have hsm := run_server_sharedMemory i acts (s0.step (.create i pid os)) hacts
  rw [c2] at hsm
  simp only [PS3EyeSharedMemoryServer.GetClientCount, hsm]
  rw [hrun, hcc]
  simp

theorem C4_GetClientCount_counts_effective_calls_witness :
    ((Machine.init.servers 0).Create Machine.init.world 4242 {}).1 = true ∧
    (((Machine.init.step (.create 0 4242 {})).run
        [.connect 0 {}, .connect 1 {}, .disconnect 0, .disconnect 0]).servers 0).GetClientCount
      ((Machine.init.step (.create 0 4242 {})).run
        [.connect 0 {}, .connect 1 {}, .disconnect 0, .disconnect 0]).world = 1 :=
  ⟨by decide,
   C4_GetClientCount_counts_effective_calls Machine.init 0 4242 {}
      [.connect 0 {}, .connect 1 {}, .disconnect 0, .disconnect 0] (by decide)
      (by intro a ha; simp at ha; rcases ha with rfl | rfl | rfl | rfl <;> exact ⟨rfl, rfl⟩)
      (by norm_num)⟩

/-- C5 fails as stated: with client 0 attached, the server is closed and created again, which
resets `clientCount` to 0, and the client's `Disconnect` then takes it to -1. -/
theorem C5_disconnect_after_restart_goes_negative :
    (Machine.init.run [.create 0 100 {}, .connect 0 {}, .close 0, .create 0 100 {}]
      ).world.header.clientCount = 0 ∧
    (Machine.init.run [.create 0 100 {}, .connect 0 {}, .close 0, .create 0 100 {},
      .disconnect 0]).world.header.clientCount = -1 := by
  decide

/-- C5, amended: after a `Create` that returns true while no client is attached, and any run
of fewer than 2^31 calls none of which is a `Create`, `header.clientCount` is at least 0, and
a `Disconnect` of any client at that point leaves it at least 0. -/
theorem C5_clientCount_nonneg (s0 : Machine) (i pid : Nat) (os : OsFaults)
    (acts : List Action) (j : Nat)
    (hcl : ∀ k, (s0.clients k).m_sharedMemory = false)
    (hc : ((s0.servers i).Create s0.world pid os).1 = true)
    (hacts : ∀ a ∈ acts, a.isCreate = false)
    (hlen : acts.length + 1 < 2 ^ 31) :
    0 ≤ ((s0.step (.create i pid os)).run acts).world.header.clientCount ∧
    0 ≤ ((((s0.step (.create i pid os)).run acts).clients j).Disconnect
      ((s0.step (.create i pid os)).run acts).world).2.header.clientCount := by
  obtain ⟨c1, -, -, c4⟩ := step_create s0 i pid os hc
  have hst := initHeader_stamped _ pid c1
  have hcc : (s0.step (.create i pid os)).world.header.clientCount = 0 := by rw [c1]; rfl
  have hI : (s0.step (.create i pid os)).CountCoversAttached := by
    refine ⟨∅, ?_, by rw [hcc]; simp⟩
    intro k hk
    rw [c4, hcl k] at hk
    exact absurd hk (by simp)
  have key : ∀ bs : List Action, (∀ a ∈ bs, a.isCreate = false) → bs.length < 2 ^ 31 →
      0 ≤ ((s0.step (.create i pid os)).run bs).world.header.clientCount := by
    intro bs hbs hl
    obtain ⟨S, -, hcard⟩ := run_countCoversAttached bs _ hbs hst hI
      (by rw [hcc]; norm_num at hl; omega)
    have : (0 : Int) ≤ S.card := Int.natCast_nonneg _
    omega
  refine ⟨key acts hacts (by omega), ?_⟩
  have := key (acts ++ [.disconnect j])
    (by intro a ha
        rcases List.mem_append.1 ha with h | h
        · exact hacts a h
        · simp at h; subst h; rfl)
    (by simp; omega)
  rw [run_append] at this
  exact this

theorem C5_clientCount_nonneg_witness :
    (∀ k, (Machine.init.clients k).m_sharedMemory = false) ∧
    ((Machine.init.servers 0).Create Machine.init.world 4242 {}).1 = true ∧
    0 ≤ ((Machine.init.step (.create 0 4242 {})).run
      [.connect 0 {}, .disconnect 0, .disconnect 0]).world.header.clientCount :=
  ⟨fun _ => rfl, by decide,
   (C5_clientCount_nonneg Machine.init 0 4242 {} [.connect 0 {}, .disconnect 0, .disconnect 0] 0
      (fun _ => rfl) (by decide)
      (by intro a ha; simp at ha; rcases ha with rfl | rfl | rfl <;> rfl)
      (by norm_num)).1⟩

/-! ## Failure paths of `Connect` and `Create` -/

/-- C6, the code on a header that fails the validation: whenever the three objects exist and
can be opened and the header's magic or version is not the protocol's, `Connect` returns false
and leaves the client with every handle null, but `clientCount` is decremented; on an existing
channel whose header carries version 2 and `clientCount` 0, `clientCount` is -1 after the
call. -/
theorem C6_Connect_version_mismatch_decrements_clientCount :
    (∀ (self : PS3EyeSharedMemoryClient) (w : World),
      w.mutexHandles ≠ 0 → w.newFrameHandles ≠ 0 → w.mappingHandles ≠ 0 →
      (w.header.magic ≠ PS3EYE_MAGIC ∨ w.header.version ≠ PS3EYE_PROTOCOL_VERSION) →
      (self.Connect w {}).1 = false ∧
      (self.Connect w {}).2.1 = ⟨false, false, false, false, false, self.m_lastFrameNumber⟩ ∧
      (self.Connect w {}).2.2.header.clientCount = InterlockedDecrement w.header.clientCount) ∧
    versionTwoWorld.header.magic = PS3EYE_MAGIC ∧ versionTwoWorld.header.version = 2 ∧
    versionTwoWorld.header.clientCount = 0 ∧
    (({} : PS3EyeSharedMemoryClient).Connect versionTwoWorld {}).1 = false ∧
    (({} : PS3EyeSharedMemoryClient).Connect versionTwoWorld {}).2.1 = {} ∧
    (({} : PS3EyeSharedMemoryClient).Connect versionTwoWorld {}).2.2.header.clientCount
      = -1 := by
  refine ⟨?_, by decide, by decide, by decide, by decide, by decide, by decide⟩
  intro self w h1 h2 h3 hm
  obtain ⟨c1, c2, c3, -⟩ := Connect_mismatch self w {} ⟨⟨rfl, h1⟩, ⟨rfl, h2⟩, ⟨rfl, h3⟩, rfl⟩ hm
  exact ⟨c1, c2, by rw [c3]⟩

/-- C7, the code on a channel that exists: a `Create` whose Win32 calls do not fail returns
true and initialises the header whatever the state of the named objects; with server 0
(process 100) owning the channel, two frames published and one client connected, `Create`
called by server 1 (process 200) returns true and leaves frameNumber 0, clientCount 0 and
serverPID 200 in the header. -/
theorem C7_Create_on_owned_channel_succeeds_and_resets :
    (∀ (self : PS3EyeSharedMemoryServer) (w : World) (pid : Nat),
      (self.Create w pid {}).1 = true ∧ (self.Create w pid {}).2.2.header = initHeader pid) ∧
    (busyMachine.servers 0).IsCreated = true ∧
    busyMachine.world.mappingHandles = 2 ∧
    busyMachine.world.header.serverPID = 100 ∧
    busyMachine.world.header.frameNumber = 2 ∧
    busyMachine.world.header.clientCount = 1 ∧
    ((busyMachine.servers 1).Create busyMachine.world 200 {}).1 = true ∧
    ((busyMachine.servers 1).Create busyMachine.world 200 {}).2.2.header.frameNumber = 0 ∧
    ((busyMachine.servers 1).Create busyMachine.world 200 {}).2.2.header.clientCount = 0 ∧
    ((busyMachine.servers 1).Create busyMachine.world 200 {}).2.2.header.serverPID = 200 := by
  refine ⟨?_, by decide, by decide, by decide, by decide, by decide, by decide, by decide,
    by decide, by decide⟩
  intro self w pid
  have h : (self.Create w pid {}).1 = true := by rw [Create_ret]; rfl
  exact ⟨h, (Create_true self w pid {} h).2⟩

/-! ## The bounds of the copies -/

/-- No action but `Create` takes `dataSize` above the capacity of the frame slot. -/
theorem step_dataSize (s : Machine) (a : Action) (ha : a.isCreate = false)
    (h : s.world.header.dataSize ≤ PS3EYE_FRAME_SIZE) :
    (s.step a).world.header.dataSize ≤ PS3EYE_FRAME_SIZE := by
  by_cases hw : a.isWriteFrame = true
  · cases a with
    | writeFrame k d n t =>
      cases hr : ((s.servers k).WriteFrame s.world (Party.server k) d n t).1
      · have := (WriteFrame_false _ _ _ _ _ _ hr).2.1
        simp only [Machine.step]
        rw [this]; exact h
      · cases d with
        | none => simp [PS3EyeSharedMemoryServer.WriteFrame] at hr
        | some data =>
          have h2 := (WriteFrame_true _ _ _ _ _ _ hr).2.1
          have h3 := ((WriteFrame_ret _ _ _ _ _ _).1 hr).2.2.1
          simp only [Machine.step]
          rw [h2]; exact h3
    | _ => simp [Action.isWriteFrame] at hw
  · have hw' : a.isWriteFrame = false := by simpa using hw
    rw [(step_payload s a ha hw').2.2.1]; exact h

theorem run_dataSize (acts : List Action) :
    ∀ (s : Machine), (∀ a ∈ acts, a.isCreate = false) →
      s.world.header.dataSize ≤ PS3EYE_FRAME_SIZE →
      (s.run acts).world.header.dataSize ≤ PS3EYE_FRAME_SIZE := by
  induction acts with
  | nil => intro s _ h; exact h
  | cons a acts ih =>
    intro s ha h
    rw [run_cons]
    exact ih _ (fun b hb => ha b (List.mem_cons_of_mem _ hb))
      (step_dataSize s a (ha a (List.mem_cons_self _ _)) h)

/-- C11: in every state reached from a `Create` that returned true by calls none of which is
a `Create`, `header.dataSize` is at most `PS3EYE_FRAME_SIZE` and `dataOffset + dataSize` at
most `PS3EYE_SHARED_MEMORY_SIZE`, with `dataOffset` the size of the header; every byte a
`WriteFrame` that returns true copies to, and every byte a `ReadFrame` copies from, lies at a
region offset from the end of the header up to the end of the region, and a `WriteFrame`
leaves every byte outside that range as it was. -/
theorem C11_copies_stay_in_frame_slot (s0 : Machine) (i pid : Nat) (os : OsFaults)
    (acts : List Action) (k : Nat) (data : Buf) (n t destSize : Nat)
    (hc : ((s0.servers i).Create s0.world pid os).1 = true)
    (hacts : ∀ a ∈ acts, a.isCreate = false) :
    ((s0.step (.create i pid os)).run acts).world.header.dataSize ≤ PS3EYE_FRAME_SIZE ∧
    ((s0.step (.create i pid os)).run acts).world.header.dataOffset
      + ((s0.step (.create i pid os)).run acts).world.header.dataSize
      ≤ PS3EYE_SHARED_MEMORY_SIZE ∧
    ((s0.step (.create i pid os)).run acts).world.header.dataOffset
      = sizeof_PS3EyeFrameHeader ∧
    (((((s0.step (.create i pid os)).run acts).servers k).WriteFrame
        ((s0.step (.create i pid os)).run acts).world (Party.server k) (some data) n t).1 = true →
      n ≤ PS3EYE_FRAME_SIZE ∧
      ∀ x, x < n →
        sizeof_PS3EyeFrameHeader
          ≤ ((s0.step (.create i pid os)).run acts).world.header.dataOffset + x ∧
        ((s0.step (.create i pid os)).run acts).world.header.dataOffset + x
          < PS3EYE_SHARED_MEMORY_SIZE) ∧
    (∀ a, a < sizeof_PS3EyeFrameHeader ∨ PS3EYE_SHARED_MEMORY_SIZE ≤ a →
      ((((s0.step (.create i pid os)).run acts).servers k).WriteFrame
        ((s0.step (.create i pid os)).run acts).world (Party.server k) (some data) n t).2.2.mem a
        = ((s0.step (.create i pid os)).run acts).world.mem a) ∧
    (∀ x, x < min destSize ((s0.step (.create i pid os)).run acts).world.header.dataSize →
      sizeof_PS3EyeFrameHeader
        ≤ ((s0.step (.create i pid os)).run acts).world.header.dataOffset + x ∧
      ((s0.step (.create i pid os)).run acts).world.header.dataOffset + x
        < PS3EYE_SHARED_MEMORY_SIZE) := by
  obtain ⟨c1, -, -, -⟩ := step_create s0 i pid os hc
  have hst := run_stamped acts _ hacts (initHeader_stamped _ pid c1)
  have hoff := hst.2.2.2.2.2.2
  have hds := run_dataSize acts (s0.step (.create i pid os)) hacts
    (by rw [c1]; exact le_refl _)
  have hS : PS3EYE_SHARED_MEMORY_SIZE = sizeof_PS3EyeFrameHeader + PS3EYE_FRAME_SIZE := by
    decide
  refine ⟨hds, by rw [hoff, hS]; omega, hoff, ?_, ?_, ?_⟩
  · intro hr
    have hn := ((WriteFrame_ret _ _ _ _ _ _).1 hr).2.2.1
    refine ⟨hn, fun x hx => ?_⟩
    rw [hoff, hS]; omega
  · intro a ha
    cases hr : ((((s0.step (.create i pid os)).run acts).servers k).WriteFrame
        ((s0.step (.create i pid os)).run acts).world (Party.server k) (some data) n t).1
    · rw [(WriteFrame_false _ _ _ _ _ _ hr).2.2.1]
    · have hn := ((WriteFrame_ret _ _ _ _ _ _).1 hr).2.2.1
      rw [(WriteFrame_true _ _ _ _ _ _ hr).2.2.1, hoff]
      unfold memcpy
      rw [if_neg]
      rw [hS] at ha
      omega
  · intro x hx
    rw [hoff, hS]
    have : x < PS3EYE_FRAME_SIZE := by
      have := Nat.min_le_right destSize
        ((s0.step (.create i pid os)).run acts).world.header.dataSize
      omega
    omega

theorem C11_copies_stay_in_frame_slot_witness :
    ((Machine.init.servers 0).Create Machine.init.world 100 {}).1 = true ∧
    closedMachine.world.header.dataSize ≤ PS3EYE_FRAME_SIZE :=
  ⟨by decide,
   (C11_copies_stay_in_frame_slot Machine.init 0 100 {}
      [.connect 0 {},
       .writeFrame 0 (some (bufOfList [1])) 1 1000, .writeFrame 0 (some (bufOfList [2])) 1 2000,
       .writeFrame 0 (some (bufOfList [3])) 1 3000, .writeFrame 0 (some (bufOfList [4])) 1 4000,
       .writeFrame 0 (some (bufOfList [5])) 1 5000, .close 0]
      0 (fun _ => 0) 1 0 1 (by decide)
      (by intro a ha; simp at ha; rcases ha with rfl | rfl | rfl | rfl | rfl | rfl | rfl <;> rfl)).1⟩

/-! ## `ReadFrame`: claims -/

/-- C12: whenever `header.serverPID` is 0, `ReadFrame` returns false and leaves `destBuffer`,
the frame-number and timestamp out-parameters and the client (its last seen frame number
included) as they were, whatever `header.frameNumber` is. -/
theorem C12_ReadFrame_stale_server (self : PS3EyeSharedMemoryClient) (w : World) (me : Party)
    (destBuffer : Option Buf) (destSize : Nat) (fn ts : Option Nat)
    (h : w.header.serverPID = 0) :
    (self.ReadFrame w me destBuffer destSize fn ts).ret = false ∧
    (self.ReadFrame w me destBuffer destSize fn ts).destBuffer = destBuffer ∧
    (self.ReadFrame w me destBuffer destSize fn ts).frameNumber = fn ∧
    (self.ReadFrame w me destBuffer destSize fn ts).timestamp = ts ∧
    (self.ReadFrame w me destBuffer destSize fn ts).self = self := by
  have hr : (self.ReadFrame w me destBuffer destSize fn ts).ret = false := by
    cases hb : (self.ReadFrame w me destBuffer destSize fn ts).ret
    · rfl
    · exact absurd h ((ReadFrame_ret _ _ _ _ _ _ _).1 hb).2.2.2.1
  obtain ⟨r1, r2, r3, r4⟩ := ReadFrame_false _ _ _ _ _ _ _ hr
  exact ⟨hr, r2, r3, r4, r1⟩

theorem C12_ReadFrame_stale_server_witness :
    closedMachine.world.header.serverPID = 0 ∧
    closedMachine.world.header.frameNumber = 5 ∧
    (closedMachine.clients 0).IsConnected = true ∧
    (closedMachine.clients 0).m_lastFrameNumber = 0 ∧
    ((closedMachine.clients 0).ReadFrame closedMachine.world (Party.client 0)
      (some (fun _ => 0)) 1 (some 0) (some 0)).ret = false :=
  ⟨by decide, by decide, by decide, by decide,
   (C12_ReadFrame_stale_server (closedMachine.clients 0) closedMachine.world (Party.client 0)
      (some (fun _ => 0)) 1 (some 0) (some 0) (by decide)).1⟩

/-- An action that is not a `Create`, a `WriteFrame` or a `Connect` of client `j` keeps the
last seen frame number of client `j` equal to the header's frame number. -/
theorem step_caughtUp (s : Machine) (j : Nat) (a : Action) (ha : a.isCreate = false)
    (hw : a.isWriteFrame = false) (hj : a.isConnectOf j = false)
    (h : (s.clients j).m_lastFrameNumber = s.world.header.frameNumber) :
    ((s.step a).clients j).m_lastFrameNumber = (s.step a).world.header.frameNumber := by
  rw [(step_payload s a ha hw).1]
  cases a with
  | create i pid os => simp [Action.isCreate] at ha
  | writeFrame i d n t => simp [Action.isWriteFrame] at hw
  | connect k os =>
    have hk : j ≠ k := by
      intro e; subst e; simp [Action.isConnectOf] at hj
    simp only [Machine.step, Function.update_noteq hk]
    exact h
  | disconnect k =>
    by_cases hk : j = k
    · subst hk
      simp only [Machine.step, Function.update_same, Disconnect_self]
      exact h
    · simp only [Machine.step, Function.update_noteq hk]
      exact h
  | readFrame k d n f t =>
    by_cases hk : j = k
    · subst hk
      simp only [Machine.step, Function.update_same]
      cases hr : ((s.clients j).ReadFrame s.world (Party.client j) d n f t).ret
      · rw [(ReadFrame_false _ _ _ _ _ _ _ hr).1]; exact h
      · cases d with
        | none => simp [PS3EyeSharedMemoryClient.ReadFrame] at hr
        | some dest => rw [(ReadFrame_true _ _ _ _ _ _ _ hr).1]
    · simp only [Machine.step, Function.update_noteq hk]
      exact h
  | _ => exact h

theorem run_caughtUp (j : Nat) (acts : List Action) :
    ∀ (s : Machine),
      (∀ a ∈ acts, a.isCreate = false ∧ a.isWriteFrame = false ∧ a.isConnectOf j = false) →
      (s.clients j).m_lastFrameNumber = s.world.header.frameNumber →
      ((s.run acts).clients j).m_lastFrameNumber = (s.run acts).world.header.frameNumber := by
  induction acts with
  | nil => intro s _ h; exact h
  | cons a acts ih =>
    intro s ha h
    rw [run_cons]
    have hm := ha a (List.mem_cons_self _ _)
    exact ih _ (fun b hb => ha b (List.mem_cons_of_mem _ hb))
      (step_caughtUp s j a hm.1 hm.2.1 hm.2.2 h)

/-- C13: whenever `header.frameNumber` equals the client's last seen frame number, `ReadFrame`
returns false and leaves `destBuffer`, the out-parameters and the client as they were; so
after a `ReadFrame` of client `j` that returned true, and any calls in between that are not a
`WriteFrame`, a `Create` or a `Connect` of client `j`, the next `ReadFrame` of client `j`
returns false. -/
theorem C13_ReadFrame_no_new_frame (s : Machine) (j : Nat) (acts : List Action)
    (dest1 : Buf) (destSize1 : Nat) (fn1 ts1 : Option Nat)
    (destBuffer : Option Buf) (destSize : Nat) (fn ts : Option Nat)
    (hr : ((s.clients j).ReadFrame s.world (Party.client j) (some dest1) destSize1
      fn1 ts1).ret = true)
    (hacts : ∀ a ∈ acts,
      a.isCreate = false ∧ a.isWriteFrame = false ∧ a.isConnectOf j = false) :
    (∀ (self : PS3EyeSharedMemoryClient) (w : World) (me : Party) (destBuffer : Option Buf)
        (destSize : Nat) (fn ts : Option Nat),
      w.header.frameNumber = self.m_lastFrameNumber →
      (self.ReadFrame w me destBuffer destSize fn ts).ret = false ∧
      (self.ReadFrame w me destBuffer destSize fn ts).destBuffer = destBuffer ∧
      (self.ReadFrame w me destBuffer destSize fn ts).frameNumber = fn ∧
      (self.ReadFrame w me destBuffer destSize fn ts).timestamp = ts ∧
      (self.ReadFrame w me destBuffer destSize fn ts).self = self) ∧
    ((((s.step (.readFrame j (some dest1) destSize1 fn1 ts1)).run acts).clients j).ReadFrame
      ((s.step (.readFrame j (some dest1) destSize1 fn1 ts1)).run acts).world (Party.client j)
      destBuffer destSize fn ts).ret = false := by
  have hgen : ∀ (self : PS3EyeSharedMemoryClient) (w : World) (me : Party)
      (destBuffer : Option Buf) (destSize : Nat) (fn ts : Option Nat),
      w.header.frameNumber = self.m_lastFrameNumber →
      (self.ReadFrame w me destBuffer destSize fn ts).ret = false ∧
      (self.ReadFrame w me destBuffer destSize fn ts).destBuffer = destBuffer ∧
      (self.ReadFrame w me destBuffer destSize fn ts).frameNumber = fn ∧
      (self.ReadFrame w me destBuffer destSize fn ts).timestamp = ts ∧
      (self.ReadFrame w me destBuffer destSize fn ts).self = self := by
    intro self w me destBuffer destSize fn ts h
    have hf : (self.ReadFrame w me destBuffer destSize fn ts).ret = false := by
      cases hb : (self.ReadFrame w me destBuffer destSize fn ts).ret
      · rfl
      · exact absurd h ((ReadFrame_ret _ _ _ _ _ _ _).1 hb).2.2.2.2
    obtain ⟨r1, r2, r3, r4⟩ := ReadFrame_false _ _ _ _ _ _ _ hf
    exact ⟨hf, r2, r3, r4, r1⟩
  refine ⟨hgen, ?_⟩
  have h0 : ((s.step (.readFrame j (some dest1) destSize1 fn1 ts1)).clients j).m_lastFrameNumber
      = (s.step (.readFrame j (some dest1) destSize1 fn1 ts1)).world.header.frameNumber := by
    simp only [Machine.step, Function.update_same]
    rw [(ReadFrame_true _ _ _ _ _ _ _ hr).1, (ReadFrame_world _ _ _ _ _ _ _).1]
  have h1 := run_caughtUp j acts _ hacts h0
  exact (hgen _ _ _ _ _ _ _ h1.symm).1

theorem C13_ReadFrame_no_new_frame_witness :
    (((demoMachine.step (.writeFrame 0 (some (bufOfList [1, 2, 3])) 3 1000)).clients 0).ReadFrame
      (demoMachine.step (.writeFrame 0 (some (bufOfList [1, 2, 3])) 3 1000)).world
      (Party.client 0) (some (fun _ => 0)) 3 (some 0) (some 0)).ret = true ∧
    (((((demoMachine.step (.writeFrame 0 (some (bufOfList [1, 2, 3])) 3 1000)).step
        (.readFrame 0 (some (fun _ => 0)) 3 (some 0) (some 0))).run
        [.waitForFrame 0, .connect 1 {}]).clients 0).ReadFrame
      (((demoMachine.step (.writeFrame 0 (some (bufOfList [1, 2, 3])) 3 1000)).step
        (.readFrame 0 (some (fun _ => 0)) 3 (some 0) (some 0))).run
        [.waitForFrame 0, .connect 1 {}]).world (Party.client 0)
      (some (fun _ => 0)) 3 (some 0) (some 0)).ret = false :=
  ⟨by decide,
   (C13_ReadFrame_no_new_frame
      (demoMachine.step (.writeFrame 0 (some (bufOfList [1, 2, 3])) 3 1000)) 0
      [.waitForFrame 0, .connect 1 {}] (fun _ => 0) 3 (some 0) (some 0)
      (some (fun _ => 0)) 3 (some 0) (some 0) (by decide)
      (by intro a ha; simp at ha; rcases ha with rfl | rfl <;> exact ⟨rfl, rfl, rfl⟩)).2⟩

/-- C14: every `ReadFrame` that returns true, on a header stamped by `Create`, leaves in
`destBuffer` the first `min(destSize, header.dataSize)` bytes of the frame slot followed by
the bytes `destBuffer` held before from that index on, stores the header's frame number through
the frame-number pointer and as the client's last seen number, which is a new number; when
`destSize < dataSize` the number of bytes copied is `destSize`; and the return value does
not depend on `destSize`. -/
theorem C14_ReadFrame_copies_min (self : PS3EyeSharedMemoryClient) (w : World) (me : Party)
    (dest : Buf) (destSize : Nat) (fn ts : Option Nat)
    (hs : w.Stamped)
    (h : (self.ReadFrame w me (some dest) destSize fn ts).ret = true) :
    (self.ReadFrame w me (some dest) destSize fn ts).destBuffer
      = some (memcpy dest 0 w.frameSlot (min destSize w.header.dataSize)) ∧
    (∀ k, k < min destSize w.header.dataSize →
      memcpy dest 0 w.frameSlot (min destSize w.header.dataSize) k = w.frameSlot k) ∧
    (∀ k, min destSize w.header.dataSize ≤ k →
      memcpy dest 0 w.frameSlot (min destSize w.header.dataSize) k = dest k) ∧
    (destSize < w.header.dataSize → min destSize w.header.dataSize = destSize) ∧
    (self.ReadFrame w me (some dest) destSize fn ts).frameNumber
      = fn.map (fun _ => w.header.frameNumber) ∧
    (self.ReadFrame w me (some dest) destSize fn ts).self.m_lastFrameNumber
      = w.header.frameNumber ∧
    w.header.frameNumber ≠ self.m_lastFrameNumber ∧
    (∀ destSize', (self.ReadFrame w me (some dest) destSize' fn ts).ret = true) := by
  obtain ⟨r1, r2, r3, -, -⟩ := ReadFrame_true _ _ _ _ _ _ _ h
  have hret := (ReadFrame_ret self w me (some dest) destSize fn ts).1 h
  refine ⟨?_, ?_, ?_, ?_, r3, by rw [r1], hret.2.2.2.2, ?_⟩
  · rw [r2, hs.2.2.2.2.2.2]; rfl
  · intro k hk
    simp [memcpy, hk]
  · intro k hk
    have : ¬ k < min destSize w.header.dataSize := by omega
    simp [memcpy, this]
  · intro hlt
    exact Nat.min_eq_left (Nat.le_of_lt hlt)
  · intro destSize'
    exact (ReadFrame_ret self w me (some dest) destSize' fn ts).2 hret

theorem C14_ReadFrame_copies_min_witness :
    (demoMachine.step (.writeFrame 0 (some (bufOfList [1, 2, 3])) 3 1000)).world.Stamped ∧
    (((demoMachine.step (.writeFrame 0 (some (bufOfList [1, 2, 3])) 3 1000)).clients 0).ReadFrame
      (demoMachine.step (.writeFrame 0 (some (bufOfList [1, 2, 3])) 3 1000)).world
      (Party.client 0) (some (fun _ => 9)) 2 (some 0) (some 0)).ret = true ∧
    (((demoMachine.step (.writeFrame 0 (some (bufOfList [1, 2, 3])) 3 1000)).clients 0).ReadFrame
      (demoMachine.step (.writeFrame 0 (some (bufOfList [1, 2, 3])) 3 1000)).world
      (Party.client 0) (some (fun _ => 9)) 2 (some 0) (some 0)).frameNumber = some 1 ∧
    ((((demoMachine.step (.writeFrame 0 (some (bufOfList [1, 2, 3])) 3 1000)).clients 0).ReadFrame
      (demoMachine.step (.writeFrame 0 (some (bufOfList [1, 2, 3])) 3 1000)).world
      (Party.client 0) (some (fun _ => 9)) 2 (some 0) (some 0)).destBuffer.map
        (fun d => d.take 4)) = some [1, 2, 9, 9] :=
  ⟨by decide, by decide,
   (C14_ReadFrame_copies_min
      ((demoMachine.step (.writeFrame 0 (some (bufOfList [1, 2, 3])) 3 1000)).clients 0)
      (demoMachine.step (.writeFrame 0 (some (bufOfList [1, 2, 3])) 3 1000)).world
      (Party.client 0) (fun _ => 9) 2 (some 0) (some 0) (by decide) (by decide)).2.2.2.2.1,
   by decide⟩

/-- C15 fails as stated: for the same client and the same arguments, `ReadFrame` on a lock
timeout (another thread holds the mutex), on a stale server (`serverPID` 0) and with no new
frame returns the same value false and leaves the same `destBuffer`, out-parameters and client
state, so the three results are equal. -/
theorem C15_ReadFrame_failures_indistinguishable :
    ((caughtUpMachine.step (.otherAcquire 0)).world.WaitForSingleObject_mutex true
      (Party.client 0)).1 = WaitResult.WAIT_TIMEOUT ∧
    (caughtUpMachine.step (.close 0)).world.header.serverPID = 0 ∧
    caughtUpMachine.world.header.serverPID ≠ 0 ∧
    caughtUpMachine.world.header.frameNumber = (caughtUpMachine.clients 0).m_lastFrameNumber ∧
    (caughtUpMachine.step (.otherAcquire 0)).clients 0 = caughtUpMachine.clients 0 ∧
    (caughtUpMachine.step (.close 0)).clients 0 = caughtUpMachine.clients 0 ∧
    (∀ w ∈ [(caughtUpMachine.step (.otherAcquire 0)).world,
            (caughtUpMachine.step (.close 0)).world, caughtUpMachine.world],
      ((caughtUpMachine.clients 0).ReadFrame w (Party.client 0)
        (some (fun _ => 0)) 3 (some 7) (some 7)).ret = false ∧
      ((caughtUpMachine.clients 0).ReadFrame w (Party.client 0)
        (some (fun _ => 0)) 3 (some 7) (some 7)).frameNumber = some 7 ∧
      ((caughtUpMachine.clients 0).ReadFrame w (Party.client 0)
        (some (fun _ => 0)) 3 (some 7) (some 7)).timestamp = some 7 ∧
      ((caughtUpMachine.clients 0).ReadFrame w (Party.client 0)
        (some (fun _ => 0)) 3 (some 7) (some 7)).destBuffer.map (fun d => d.take 3)
        = some [0, 0, 0] ∧
      ((caughtUpMachine.clients 0).ReadFrame w (Party.client 0)
        (some (fun _ => 0)) 3 (some 7) (some 7)).self = caughtUpMachine.clients 0) := by
  refine ⟨by decide, by decide, by decide, by decide, by decide, by decide, ?_⟩
  intro w hw
  simp only [List.mem_cons, List.mem_singleton, List.not_mem_nil, or_false] at hw
  rcases hw with rfl | rfl | rfl <;> decide

/-- C15, amended: on a lock timeout (the wait on the mutex does not return `WAIT_OBJECT_0`),
on a stale server (`serverPID` 0) and when there is no new frame, `ReadFrame` returns the
explicit value false and leaves `destBuffer`, the out-parameters and the client as they were;
the value is the same in the three cases. -/
theorem C15_ReadFrame_failures_return_false (self : PS3EyeSharedMemoryClient) (w : World)
    (me : Party) (destBuffer : Option Buf) (destSize : Nat) (fn ts : Option Nat)
    (h : (w.WaitForSingleObject_mutex self.m_mutex me).1 ≠ WaitResult.WAIT_OBJECT_0 ∨
      w.header.serverPID = 0 ∨ w.header.frameNumber = self.m_lastFrameNumber) :
    (self.ReadFrame w me destBuffer destSize fn ts).ret = false ∧
    (self.ReadFrame w me destBuffer destSize fn ts).destBuffer = destBuffer ∧
    (self.ReadFrame w me destBuffer destSize fn ts).frameNumber = fn ∧
    (self.ReadFrame w me destBuffer destSize fn ts).timestamp = ts ∧
    (self.ReadFrame w me destBuffer destSize fn ts).self = self := by
  have hf : (self.ReadFrame w me destBuffer destSize fn ts).ret = false := by
    cases hb : (self.ReadFrame w me destBuffer destSize fn ts).ret
    · rfl
    · obtain ⟨-, -, h3, h4, h5⟩ := (ReadFrame_ret _ _ _ _ _ _ _).1 hb
      rcases h with h | h | h
      · exact absurd h3 h
      · exact absurd h h4
      · exact absurd h h5
  obtain ⟨r1, r2, r3, r4⟩ := ReadFrame_false _ _ _ _ _ _ _ hf
  exact ⟨hf, r2, r3, r4, r1⟩

theorem C15_ReadFrame_failures_return_false_witness :
    ((caughtUpMachine.step (.otherAcquire 0)).world.WaitForSingleObject_mutex
      (caughtUpMachine.clients 0).m_mutex (Party.client 0)).1 ≠ WaitResult.WAIT_OBJECT_0 ∧
    ((caughtUpMachine.clients 0).ReadFrame (caughtUpMachine.step (.otherAcquire 0)).world
      (Party.client 0) (some (fun _ => 0)) 3 (some 7) (some 7)).ret = false :=
  ⟨by decide,
   (C15_ReadFrame_failures_return_false (caughtUpMachine.clients 0)
      (caughtUpMachine.step (.otherAcquire 0)).world (Party.client 0) (some (fun _ => 0)) 3
      (some 7) (some 7) (Or.inl (by decide))).1⟩

/-! ## `Connect`: claims -/

/-- C16: every `Connect` that returns true, with `clientCount` a `LONG` below its maximum,
increases `header.clientCount` by exactly 1, sets the client's last seen frame number to 0,
makes `IsConnected()` true, and leaves every other header field and every byte of the region
as they were. -/
theorem C16_Connect_success (self : PS3EyeSharedMemoryClient) (w : World) (os : OsFaults)
    (h : (self.Connect w os).1 = true)
    (hlo : -2147483648 ≤ w.header.clientCount) (hhi : w.header.clientCount < 2147483647) :
    (self.Connect w os).2.2.header.clientCount = w.header.clientCount + 1 ∧
    (self.Connect w os).2.1.m_lastFrameNumber = 0 ∧
    (self.Connect w os).2.1.IsConnected = true ∧
    (self.Connect w os).2.2.header
      = { w.header with clientCount := w.header.clientCount + 1 } ∧
    (self.Connect w os).2.2.mem = w.mem ∧
    (∀ i, (self.Connect w os).2.2.frameSlot i = w.frameSlot i) := by
  obtain ⟨c1, c2, c3, -, -⟩ := Connect_true self w os h
  have hw : InterlockedIncrement w.header.clientCount = w.header.clientCount + 1 := by
    unfold InterlockedIncrement
    exact wrapLONG_of_range _ (by omega) (by omega)
  refine ⟨by rw [c2]; exact hw, by rw [c1], by rw [c1]; rfl, by rw [c2, hw], c3, ?_⟩
  intro i
  unfold World.frameSlot
  rw [c3]

theorem C16_Connect_success_witness :
    (({} : PS3EyeSharedMemoryClient).Connect demoMachine.world {}).1 = true ∧
    demoMachine.world.header.clientCount = 1 ∧
    (({} : PS3EyeSharedMemoryClient).Connect demoMachine.world {}).2.2.header.clientCount
      = 1 + 1 :=
  ⟨by decide, by decide,
   (C16_Connect_success {} demoMachine.world {} (by decide) (by decide) (by decide)).1⟩

/-! ## `Connect` without a channel, `Disconnect` and `Close` twice -/

/-- On a client without handles `Disconnect` changes nothing. -/
theorem Disconnect_disconnected (self : PS3EyeSharedMemoryClient) (w : World)
    (h : self.Disconnected) : self.Disconnect w = (self, w) := by
  obtain ⟨a, b, c, d, e, n⟩ := self
  obtain ⟨h1, h2, h3, h4, h5⟩ := h
  simp only at h1 h2 h3 h4 h5
  subst h1 h2 h3 h4 h5
  rfl

/-- A `Connect` of a client without handles, when one of the three objects it opens does not
exist, fails and changes nothing. -/
theorem Connect_missing (self : PS3EyeSharedMemoryClient) (w : World) (os : OsFaults)
    (hd : self.Disconnected)
    (hm : w.mutexHandles = 0 ∨ w.newFrameHandles = 0 ∨ w.mappingHandles = 0) :
    self.Connect w os = (false, self, w) := by
  obtain ⟨a, b, c, d, e, n⟩ := self
  obtain ⟨h1, h2, h3, h4, h5⟩ := hd
  simp only at h1 h2 h3 h4 h5
  subst h1 h2 h3 h4 h5
  obtain ⟨f1, f2, f3, f4, f5⟩ := os
  obtain ⟨mh, ml, ma, nh, ns, ch, cs, ph, hd, mem⟩ := w
  simp only at hm
  unfold PS3EyeSharedMemoryClient.Connect
  by_cases g1 : mh = 0 <;> by_cases g2 : nh = 0 <;> by_cases g3 : ph = 0 <;>
    cases f1 <;> cases f2 <;> cases f4 <;> cases f5 <;>
    simp [g1, g2, g3, World.OpenMutexW, World.OpenEventW_newFrame, World.OpenFileMappingW] at hm ⊢


/-- While no server has called `Create`: no named object exists and every server and client is
as its constructor left it. -/
theorem step_untouched (s : Machine) (a : Action) (ha : a.isCreate = false)
    (hw : s.world.mutexHandles = 0 ∧ s.world.newFrameHandles = 0 ∧
      s.world.clientEventHandles = 0 ∧ s.world.mappingHandles = 0)
    (hs : ∀ i, s.servers i = {}) (hc : ∀ j, s.clients j = {}) :
    ((s.step a).world.mutexHandles = 0 ∧ (s.step a).world.newFrameHandles = 0 ∧
      (s.step a).world.clientEventHandles = 0 ∧ (s.step a).world.mappingHandles = 0) ∧
    (∀ i, (s.step a).servers i = {}) ∧ (∀ j, (s.step a).clients j = {}) := by
  cases a with
  | create i pid os => simp [Action.isCreate] at ha
  | close i =>
    have e : (s.servers i).Close s.world = ({}, s.world) := by rw [hs i]; rfl
    simp only [Machine.step, e]
    refine ⟨hw, fun k => ?_, hc⟩
    by_cases hk : k = i
    · subst hk; simp
    · simp [Function.update, hk, hs k]
  | writeFrame i d n t =>
    have e : (s.servers i).WriteFrame s.world (Party.server i) d n t = (false, {}, s.world) := by
      rw [hs i]; cases d <;> rfl
    simp only [Machine.step, e]
    refine ⟨hw, fun k => ?_, hc⟩
    by_cases hk : k = i
    · subst hk; simp
    · simp [Function.update, hk, hs k]
  | waitForClients i =>
    have e : (s.servers i).WaitForClients s.world = (false, s.world) := by rw [hs i]; rfl
    simp only [Machine.step, e]
    exact ⟨hw, hs, hc⟩
  | connect j os =>
    have e : (s.clients j).Connect s.world os = (false, {}, s.world) := by
      rw [hc j]
      exact Connect_missing {} s.world os ⟨rfl, rfl, rfl, rfl, rfl⟩ (Or.inl hw.1)
    simp only [Machine.step, e]
    refine ⟨hw, hs, fun k => ?_⟩
    by_cases hk : k = j
    · subst hk; simp
    · simp [Function.update, hk, hc k]
  | disconnect j =>
    have e : (s.clients j).Disconnect s.world = ({}, s.world) := by rw [hc j]; rfl
    simp only [Machine.step, e]
    refine ⟨hw, hs, fun k => ?_⟩
    by_cases hk : k = j
    · subst hk; simp
    · simp [Function.update, hk, hc k]
  | waitForFrame j =>
    have e : (s.clients j).WaitForFrame s.world = (false, s.world) := by rw [hc j]; rfl
    simp only [Machine.step, e]
    exact ⟨hw, hs, hc⟩
  | readFrame j d n f t =>
    have e1 : ((s.clients j).ReadFrame s.world (Party.client j) d n f t).self = {} := by
      rw [hc j]; cases d <;> rfl
    have e2 : ((s.clients j).ReadFrame s.world (Party.client j) d n f t).world = s.world := by
      rw [hc j]; cases d <;> rfl
    simp only [Machine.step, e1, e2]
    refine ⟨hw, hs, fun k => ?_⟩
    by_cases hk : k = j
    · subst hk; simp
    · simp [Function.update, hk, hc k]
  | getFrameInfo j a b c d => exact ⟨hw, hs, hc⟩
  | otherAcquire k =>
    simp only [Machine.step]
    obtain ⟨g1, g2, g3, g4⟩ := wait_mutex_handles s.world true (Party.other k)
    exact ⟨⟨by rw [g1]; exact hw.1, by rw [g2]; exact hw.2.1, by rw [g3]; exact hw.2.2.1,
      by rw [g4]; exact hw.2.2.2⟩, hs, hc⟩
  | otherRelease k =>
    simp only [Machine.step]
    obtain ⟨g1, g2, g3, g4⟩ := release_mutex_handles s.world true (Party.other k)
    exact ⟨⟨by rw [g1]; exact hw.1, by rw [g2]; exact hw.2.1, by rw [g3]; exact hw.2.2.1,
      by rw [g4]; exact hw.2.2.2⟩, hs, hc⟩
  | otherAbandon k =>
    simp only [Machine.step]
    refine ⟨?_, hs, hc⟩
    split
    · exact hw
    · exact hw

theorem run_untouched (acts : List Action) :
    ∀ (s : Machine), (∀ a ∈ acts, a.isCreate = false) →
      (s.world.mutexHandles = 0 ∧ s.world.newFrameHandles = 0 ∧
        s.world.clientEventHandles = 0 ∧ s.world.mappingHandles = 0) →
      (∀ i, s.servers i = {}) → (∀ j, s.clients j = {}) →
      ((s.run acts).world.mutexHandles = 0 ∧ (s.run acts).world.newFrameHandles = 0 ∧
        (s.run acts).world.clientEventHandles = 0 ∧ (s.run acts).world.mappingHandles = 0) ∧
      (∀ i, (s.run acts).servers i = {}) ∧ (∀ j, (s.run acts).clients j = {}) := by
  induction acts with
  | nil => intro s _ hw hs hc; exact ⟨hw, hs, hc⟩
  | cons a acts ih =>
    intro s ha hw hs hc
    rw [run_cons]
    obtain ⟨g1, g2, g3⟩ := step_untouched s a (ha a (List.mem_cons_self _ _)) hw hs hc
    exact ih _ (fun b hb => ha b (List.mem_cons_of_mem _ hb)) g1 g2 g3

/-- C17: when the named mutex, the new-frame event or the file mapping does not exist,
`Connect` on a client without handles returns false and leaves the client unchanged, with
`IsConnected()` false and every handle null, and leaves the kernel objects unchanged, and a
`Disconnect` that follows changes nothing; and after any calls none of which is a `Create`,
starting with nothing created, the three objects do not exist and every client is without
handles, so this is what `Connect` does there. -/
theorem C17_Connect_without_channel (acts : List Action) (j : Nat) (os : OsFaults)
    (hacts : ∀ a ∈ acts, a.isCreate = false) :
    (∀ (self : PS3EyeSharedMemoryClient) (w : World) (os : OsFaults), self.Disconnected →
      (w.mutexHandles = 0 ∨ w.newFrameHandles = 0 ∨ w.mappingHandles = 0) →
      (self.Connect w os).1 = false ∧
      (self.Connect w os).2.1.IsConnected = false ∧
      (self.Connect w os).2.1.Disconnected ∧
      (self.Connect w os).2.1 = self ∧
      (self.Connect w os).2.2 = w ∧
      (self.Connect w os).2.1.Disconnect (self.Connect w os).2.2
        = ((self.Connect w os).2.1, (self.Connect w os).2.2)) ∧
    (Machine.init.run acts).world.mutexHandles = 0 ∧
    (Machine.init.run acts).world.newFrameHandles = 0 ∧
    (Machine.init.run acts).world.mappingHandles = 0 ∧
    ((Machine.init.run acts).clients j).Disconnected ∧
    (((Machine.init.run acts).clients j).Connect (Machine.init.run acts).world os).1 = false ∧
    (((Machine.init.run acts).clients j).Connect (Machine.init.run acts).world os).2.1
      = {} ∧
    (((Machine.init.run acts).clients j).Connect (Machine.init.run acts).world os).2.2
      = (Machine.init.run acts).world := by
  have hgen : ∀ (self : PS3EyeSharedMemoryClient) (w : World) (os : OsFaults),
      self.Disconnected →
      (w.mutexHandles = 0 ∨ w.newFrameHandles = 0 ∨ w.mappingHandles = 0) →
      (self.Connect w os).1 = false ∧
      (self.Connect w os).2.1.IsConnected = false ∧
      (self.Connect w os).2.1.Disconnected ∧
      (self.Connect w os).2.1 = self ∧
      (self.Connect w os).2.2 = w ∧
      (self.Connect w os).2.1.Disconnect (self.Connect w os).2.2
        = ((self.Connect w os).2.1, (self.Connect w os).2.2) := by
    intro self w os hd hm
    rw [Connect_missing self w os hd hm]
    exact ⟨rfl, hd.2.2.2.2, hd, rfl, rfl, Disconnect_disconnected self w hd⟩
  obtain ⟨⟨g1, g2, -, g4⟩, -, g6⟩ := run_untouched acts Machine.init hacts
    ⟨rfl, rfl, rfl, rfl⟩ (fun _ => rfl) (fun _ => rfl)
  have hd : ((Machine.init.run acts).clients j).Disconnected := by
    rw [g6 j]; exact ⟨rfl, rfl, rfl, rfl, rfl⟩
  obtain ⟨k1, -, -, k4, k5, -⟩ := hgen _ (Machine.init.run acts).world os hd (Or.inl g1)
  exact ⟨hgen, g1, g2, g4, hd, k1, by rw [k4, g6 j], k5⟩

theorem C17_Connect_without_channel_witness :
    (({} : PS3EyeSharedMemoryClient).Connect
      (Machine.init.run [.connect 1 {}, .disconnect 1, .close 0]).world {}).1 = false :=
  (C17_Connect_without_channel [.connect 1 {}, .disconnect 1, .close 0] 0 {}
    (by intro a ha; simp at ha; rcases ha with rfl | rfl | rfl <;> rfl)).2.2.2.2.2.1


/-- A second `Disconnect` changes nothing. -/
theorem Disconnect_twice (self : PS3EyeSharedMemoryClient) (w : World) :
    (self.Disconnect w).1.Disconnect (self.Disconnect w).2 = self.Disconnect w := by
  rw [Disconnect_self]
  rfl

/-- C18 fails as stated: client 0 connected, called `Connect` again and `MapViewOfFile` failed;
`IsConnected()` is false but the client still holds its client-event handle, and `Disconnect`
closes it, so the client state changes (`clientCount` stays 1). -/
theorem C18_disconnect_releases_leftover_handle :
    (halfOpenMachine.clients 0).IsConnected = false ∧
    (halfOpenMachine.clients 0).m_clientEvent = true ∧
    ((halfOpenMachine.clients 0).Disconnect halfOpenMachine.world).1.m_clientEvent = false ∧
    ((halfOpenMachine.clients 0).Disconnect halfOpenMachine.world).1
      ≠ halfOpenMachine.clients 0 ∧
    halfOpenMachine.world.header.clientCount = 1 ∧
    ((halfOpenMachine.clients 0).Disconnect halfOpenMachine.world).2.header.clientCount = 1 := by
  decide

/-- C18, amended: `Disconnect` on a client that is not connected leaves the header
(`clientCount` included) and the bytes of the region unchanged and leaves the client with
every handle null and its last seen frame number; on a client without handles it changes
nothing at all; for every client a second `Disconnect` changes nothing, so `Disconnect`
followed by `Disconnect` on a connected client decrements `clientCount` exactly once. -/
theorem C18_Disconnect_idempotent (self : PS3EyeSharedMemoryClient) (w : World)
    (h : self.IsConnected = false) :
    (self.Disconnect w).2.header = w.header ∧
    (self.Disconnect w).2.mem = w.mem ∧
    (self.Disconnect w).1 = ⟨false, false, false, false, false, self.m_lastFrameNumber⟩ ∧
    (self.Disconnected → self.Disconnect w = (self, w)) ∧
    (∀ (c : PS3EyeSharedMemoryClient) (w0 : World),
      (c.Disconnect w0).1.Disconnect (c.Disconnect w0).2 = c.Disconnect w0) ∧
    (∀ (c : PS3EyeSharedMemoryClient) (w0 : World), c.IsConnected = true →
      ((c.Disconnect w0).1.Disconnect (c.Disconnect w0).2).2.header.clientCount
        = InterlockedDecrement w0.header.clientCount ∧
      (-2147483648 < w0.header.clientCount → w0.header.clientCount < 2147483648 →
        InterlockedDecrement w0.header.clientCount = w0.header.clientCount - 1)) := by
  have hm : self.m_sharedMemory = false := h
  refine ⟨?_, Disconnect_mem self w, Disconnect_self self w,
    Disconnect_disconnected self w, Disconnect_twice, ?_⟩
  · rw [Disconnect_header]; simp [hm]
  · intro c w0 hc
    have hcm : c.m_sharedMemory = true := hc
    refine ⟨?_, fun h1 h2 => ?_⟩
    · rw [Disconnect_twice, Disconnect_header]; simp [hcm]
    · unfold InterlockedDecrement
      exact wrapLONG_of_range _ (by omega) (by omega)

theorem C18_Disconnect_idempotent_witness :
    (halfOpenMachine.clients 0).IsConnected = false ∧
    ((halfOpenMachine.clients 0).Disconnect halfOpenMachine.world).2.header
      = halfOpenMachine.world.header :=
  ⟨by decide,
   (C18_Disconnect_idempotent (halfOpenMachine.clients 0) halfOpenMachine.world
      (by decide)).1⟩

/-! ## `Close` -/

/-- On a server without handles `Close` changes nothing. -/
theorem Close_noHandles (self : PS3EyeSharedMemoryServer) (w : World) (h : self.NoHandles) :
    self.Close w = (self, w) := by
  obtain ⟨a, b, c, d, e, n⟩ := self
  obtain ⟨h1, h2, h3, h4, h5⟩ := h
  simp only at h1 h2 h3 h4 h5
  subst h1 h2 h3 h4 h5
  rfl

/-- After any `Create`, a server whose view pointer is null has every handle null, if that
held before. -/
theorem Create_noHandles (self : PS3EyeSharedMemoryServer) (w : World) (pid : Nat)
    (os : OsFaults) (hi : self.m_sharedMemory = false → self.NoHandles)
    (h : (self.Create w pid os).2.1.m_sharedMemory = false) :
    (self.Create w pid os).2.1.NoHandles := by
  obtain ⟨a, b, c, d, e, n⟩ := self
  obtain ⟨f1, f2, f3, f4, f5⟩ := os
  unfold PS3EyeSharedMemoryServer.NoHandles at hi ⊢
  revert h hi
  cases f1 <;> cases f2 <;> cases f3 <;> cases f4 <;> cases f5 <;>
    simp [PS3EyeSharedMemoryServer.Create] <;> intro h1 h2 <;> simp_all

/-- In every state reached from the initial one, a server that is not created has every
handle null. -/
theorem run_server_noHandles (acts : List Action) :
    ∀ (s : Machine), (∀ i, (s.servers i).m_sharedMemory = false → (s.servers i).NoHandles) →
      ∀ i, ((s.run acts).servers i).m_sharedMemory = false →
        ((s.run acts).servers i).NoHandles := by
  induction acts with
  | nil => intro s h; exact h
  | cons a acts ih =>
    intro s h
    rw [run_cons]
    apply ih
    intro i
    cases a with
    | create k pid os =>
      by_cases hk : i = k
      · subst hk
        simp only [Machine.step, Function.update_same]
        exact Create_noHandles _ _ _ _ (h i)
      · simp only [Machine.step, Function.update_noteq hk]
        exact h i
    | close k =>
      by_cases hk : i = k
      · subst hk
        simp only [Machine.step, Function.update_same, Close_self]
        intro _
        exact ⟨rfl, rfl, rfl, rfl, rfl⟩
      · simp only [Machine.step, Function.update_noteq hk]
        exact h i
    | writeFrame k d n t =>
      by_cases hk : i = k
      · subst hk
        simp only [Machine.step, Function.update_same]
        cases hr : ((s.servers i).WriteFrame s.world (Party.server i) d n t).1
        · rw [(WriteFrame_false _ _ _ _ _ _ hr).1]; exact h i
        · cases d with
          | none => simp [PS3EyeSharedMemoryServer.WriteFrame] at hr
          | some data =>
            rw [(WriteFrame_true _ _ _ _ _ _ hr).1]
            exact h i
      · simp only [Machine.step, Function.update_noteq hk]
        exact h i
    | _ => exact h i

/-- C19: `Close` on a created server sets `header.serverPID` to 0, leaves every other header
field and every byte of the region as they were, and leaves the server with `IsCreated()`
false and every handle null; in every state reached from the initial one, `Close` on a server
that is not created changes neither the server nor the kernel objects; and `Close` followed
by `Close` is a single `Close`. -/
theorem C19_Close (acts : List Action) (i : Nat) (self : PS3EyeSharedMemoryServer)
    (w : World) :
    (self.IsCreated = true →
      (self.Close w).2.header = { w.header with serverPID := 0 } ∧
      (self.Close w).2.mem = w.mem ∧
      (∀ k, (self.Close w).2.frameSlot k = w.frameSlot k)) ∧
    (self.Close w).1.IsCreated = false ∧
    (self.Close w).1.NoHandles ∧
    (self.Close w).1.GetFrameNumber = self.GetFrameNumber ∧
    (((Machine.init.run acts).servers i).IsCreated = false →
      ((Machine.init.run acts).servers i).Close (Machine.init.run acts).world
        = ((Machine.init.run acts).servers i, (Machine.init.run acts).world)) ∧
    (self.Close w).1.Close (self.Close w).2 = self.Close w := by
  refine ⟨?_, by rw [Close_self]; rfl, by rw [Close_self]; exact ⟨rfl, rfl, rfl, rfl, rfl⟩,
    by rw [Close_self]; rfl, ?_, ?_⟩
  · intro hc
    have hm : self.m_sharedMemory = true := hc
    refine ⟨by rw [Close_header]; simp [hm], Close_mem self w, fun k => ?_⟩
    unfold World.frameSlot
    rw [Close_mem]
  · intro hn
    apply Close_noHandles
    exact run_server_noHandles acts Machine.init
      (fun _ _ => ⟨rfl, rfl, rfl, rfl, rfl⟩) i hn
  · apply Close_noHandles
    rw [Close_self]
    exact ⟨rfl, rfl, rfl, rfl, rfl⟩

/-! ## `WaitForClients` -/

/-- C20, the code on a wake-up without clients: for a created server with `clientCount` 0 on
entry, `WaitForClients` returns true exactly when the client event is signalled at the end of
the wait or `clientCount` is above 0 then, and a signalled event alone makes it return true
(and is reset); with server 0 created and client 0 connected and disconnected again,
`clientCount` is 0, the event is signalled, and `WaitForClients` returns true although
`clientCount` is still 0 after the wait. -/
theorem C20_wakeup_without_clients_returns_true :
    (∀ (self : PS3EyeSharedMemoryServer) (w w2 : World), self.Created →
      w.header.clientCount = 0 →
      ((self.WaitForClientsAt w w2).1 = true ↔
        (w2.clientEventSignaled = true ∨ 0 < w2.header.clientCount)) ∧
      (w2.clientEventSignaled = true →
        (self.WaitForClientsAt w w2).1 = true ∧
        (self.WaitForClientsAt w w2).2 = { w2 with clientEventSignaled := false }) ∧
      (w2.clientEventSignaled = false →
        (self.WaitForClientsAt w w2).1 = decide (0 < w2.header.clientCount) ∧
        (self.WaitForClientsAt w w2).2 = w2)) ∧
    (∀ (self : PS3EyeSharedMemoryServer) (w : World),
      self.WaitForClientsAt w w = self.WaitForClients w) ∧
    (desertedMachine.servers 0).IsCreated = true ∧
    desertedMachine.world.header.clientCount = 0 ∧
    desertedMachine.world.clientEventSignaled = true ∧
    ((desertedMachine.servers 0).WaitForClients desertedMachine.world).1 = true ∧
    ((desertedMachine.servers 0).WaitForClients desertedMachine.world).2.header.clientCount
      = 0 := by
  refine ⟨?_, fun _ _ => rfl, by decide, by decide, by decide, by decide, by decide⟩
  intro self w w2 hc h0
  obtain ⟨-, -, -, h4, h5⟩ := hc
  have hg : ∀ v : World, self.GetClientCount v = v.header.clientCount := by
    intro v; simp [PS3EyeSharedMemoryServer.GetClientCount, h5]
  unfold PS3EyeSharedMemoryServer.WaitForClientsAt World.WaitForSingleObject_client
  cases hs : w2.clientEventSignaled
  · simp [h4, hg, h0]
  · simp [h4, hg, h0]

/-! ## Facts used by the later claims -/

/-- A run without `Create` keeps every header field that `Create` stamps. -/
theorem run_header_constants (acts : List Action) :
    ∀ (s : Machine), (∀ a ∈ acts, a.isCreate = false) →
      (s.run acts).world.header.magic = s.world.header.magic ∧
      (s.run acts).world.header.version = s.world.header.version ∧
      (s.run acts).world.header.width = s.world.header.width ∧
      (s.run acts).world.header.height = s.world.header.height ∧
      (s.run acts).world.header.stride = s.world.header.stride ∧
      (s.run acts).world.header.format = s.world.header.format ∧
      (s.run acts).world.header.dataOffset = s.world.header.dataOffset := by
  induction acts with
  | nil => intro s _; exact ⟨rfl, rfl, rfl, rfl, rfl, rfl, rfl⟩
  | cons a acts ih =>
    intro s ha
    rw [run_cons]
    obtain ⟨h1, h2, h3, h4, h5, h6, h7⟩ :=
      ih (s.step a) (fun b hb => ha b (List.mem_cons_of_mem _ hb))
    have hc := step_header_constants s a (ha a (List.mem_cons_self _ _))
    refine ⟨h1.trans ?_, h2.trans ?_, h3.trans ?_, h4.trans ?_, h5.trans ?_, h6.trans ?_,
      h7.trans ?_⟩ <;> rw [hc]

/-- The method `Close` neither waits on the mutex nor releases it, and touches no event. -/
theorem Close_sync (self : PS3EyeSharedMemoryServer) (w : World) :
    (self.Close w).2.mutexLock = w.mutexLock ∧
    (self.Close w).2.mutexAbandoned = w.mutexAbandoned ∧
    (self.Close w).2.newFrameSignaled = w.newFrameSignaled ∧
    (self.Close w).2.clientEventSignaled = w.clientEventSignaled := by
  obtain ⟨a, b, c, d, e, n⟩ := self
  cases a <;> cases b <;> cases c <;> cases d <;> cases e <;>
    simp [PS3EyeSharedMemoryServer.Close]

theorem Disconnect_mutexAbandoned (self : PS3EyeSharedMemoryClient) (w : World) :
    (self.Disconnect w).2.mutexAbandoned = w.mutexAbandoned := by
  obtain ⟨a, b, c, d, e, n⟩ := self
  cases a <;> cases b <;> cases c <;> cases d <;> cases e <;>
    simp [PS3EyeSharedMemoryClient.Disconnect, World.SetEvent_client]

/-- No `Connect` touches the new-frame event or the mutex. -/
theorem Connect_sync (self : PS3EyeSharedMemoryClient) (w : World) (os : OsFaults) :
    (self.Connect w os).2.2.newFrameSignaled = w.newFrameSignaled ∧
    (self.Connect w os).2.2.mutexLock = w.mutexLock ∧
    (self.Connect w os).2.2.mutexAbandoned = w.mutexAbandoned := by
  by_cases ho : (os.mutex = false ∧ w.mutexHandles ≠ 0) ∧
      (os.newFrameEvent = false ∧ w.newFrameHandles ≠ 0) ∧
      (os.fileMapping = false ∧ w.mappingHandles ≠ 0) ∧ os.mapView = false
  · obtain ⟨⟨a1, a2⟩, ⟨b1, b2⟩, ⟨c1, c2⟩, d⟩ := ho
    obtain ⟨f1, f2, f3, f4, f5⟩ := os
    simp only at a1 b1 c1 d
    subst a1 b1 c1 d
    unfold PS3EyeSharedMemoryClient.Connect
    by_cases hm : w.header.magic ≠ PS3EYE_MAGIC ∨ w.header.version ≠ PS3EYE_PROTOCOL_VERSION
    · have hm2 : ¬ w.header.magic = PS3EYE_MAGIC ∨ ¬ w.header.version = PS3EYE_PROTOCOL_VERSION :=
        hm
      simp [a2, b2, c2, hm2, Disconnect_newFrameSignaled, Disconnect_mutexLock,
        Disconnect_mutexAbandoned]
    · have e1 : w.header.magic = PS3EYE_MAGIC := by
        by_contra hx; exact hm (Or.inl hx)
      have e2 : w.header.version = PS3EYE_PROTOCOL_VERSION := by
        by_contra hx; exact hm (Or.inr hx)
      by_cases h3 : w.clientEventHandles = 0 <;> cases f3 <;>
        simp [a2, b2, c2, e1, e2, h3, World.SetEvent_client]
  · obtain ⟨f1, f2, f3, f4, f5⟩ := os
    unfold PS3EyeSharedMemoryClient.Connect
    by_cases h1 : w.mutexHandles = 0 <;> by_cases h2 : w.newFrameHandles = 0 <;>
      by_cases h3 : w.mappingHandles = 0 <;> cases f1 <;> cases f2 <;> cases f4 <;> cases f5 <;>
      simp [h1, h2, h3] at ho ⊢

theorem WaitForClients_sync (self : PS3EyeSharedMemoryServer) (w : World) :
    (self.WaitForClients w).2.newFrameSignaled = w.newFrameSignaled ∧
    (self.WaitForClients w).2.mutexLock = w.mutexLock ∧
    (self.WaitForClients w).2.mutexAbandoned = w.mutexAbandoned := by
  unfold PS3EyeSharedMemoryServer.WaitForClients World.WaitForSingleObject_client
  repeat' split
  all_goals exact ⟨rfl, rfl, rfl⟩

theorem CreateMutexW_newFrameSignaled (w : World) (f : Bool) :
    (w.CreateMutexW f).2.newFrameSignaled = w.newFrameSignaled := by
  unfold World.CreateMutexW; repeat' split
  all_goals rfl

theorem CreateEventW_newFrame_newFrameSignaled (w : World) (f : Bool)
    (h : w.newFrameSignaled = false) :
    (w.CreateEventW_newFrame f).2.newFrameSignaled = false := by
  unfold World.CreateEventW_newFrame; repeat' split
  all_goals first | rfl | exact h

theorem CreateEventW_client_newFrameSignaled (w : World) (f : Bool) :
    (w.CreateEventW_client f).2.newFrameSignaled = w.newFrameSignaled := by
  unfold World.CreateEventW_client; repeat' split
  all_goals rfl

theorem CreateFileMappingW_newFrameSignaled (w : World) (f : Bool) :
    (w.CreateFileMappingW f).2.newFrameSignaled = w.newFrameSignaled := by
  unfold World.CreateFileMappingW; repeat' split
  all_goals rfl

/-- A `Create` never signals the new-frame event. -/
theorem Create_newFrameSignaled (self : PS3EyeSharedMemoryServer) (w : World) (pid : Nat)
    (os : OsFaults) (h : w.newFrameSignaled = false) :
    (self.Create w pid os).2.2.newFrameSignaled = false := by
  obtain ⟨f1, f2, f3, f4, f5⟩ := os
  have k := CreateEventW_newFrame_newFrameSignaled (w.CreateMutexW f1).2 f2
    (by rw [CreateMutexW_newFrameSignaled]; exact h)
  unfold PS3EyeSharedMemoryServer.Create
  cases f1 <;> cases f2 <;> cases f3 <;> cases f4 <;> cases f5 <;>
    simp [h, k, CreateMutexW_newFrameSignaled, CreateEventW_client_newFrameSignaled,
      CreateFileMappingW_newFrameSignaled]

/-- No action but `Create` and `Close` writes `header.serverPID`. -/
theorem step_serverPID (s : Machine) (a : Action) (ha : a.isCreate = false)
    (hc : a.isClose = false) :
    (s.step a).world.header.serverPID = s.world.header.serverPID := by
  cases a with
  | create i pid os => simp [Action.isCreate] at ha
  | close i => simp [Action.isClose] at hc
  | writeFrame i d n t =>
    show ((s.servers i).WriteFrame s.world (Party.server i) d n t).2.2.header.serverPID = _
    rw [WriteFrame_frame]
  | waitForClients i =>
    show ((s.servers i).WaitForClients s.world).2.header.serverPID = _
    rw [(WaitForClients_world _ _).1]
  | connect j os =>
    show ((s.clients j).Connect s.world os).2.2.header.serverPID = _
    rw [(Connect_frame _ _ _).1]
  | disconnect j =>
    show ((s.clients j).Disconnect s.world).2.header.serverPID = _
    rw [Disconnect_frame]
  | waitForFrame j =>
    show ((s.clients j).WaitForFrame s.world).2.header.serverPID = _
    rw [(WaitForFrame_world _ _).1]
  | readFrame j d n f t =>
    show ((s.clients j).ReadFrame s.world (Party.client j) d n f t).world.header.serverPID = _
    rw [(ReadFrame_world _ _ _ _ _ _ _).1]
  | getFrameInfo j a b c d => rfl
  | otherAcquire k =>
    show (s.world.WaitForSingleObject_mutex true (Party.other k)).2.header.serverPID = _
    rw [wait_mutex_header]
  | otherRelease k =>
    show (s.world.ReleaseMutex true (Party.other k)).header.serverPID = _
    rw [release_mutex_header]
  | otherAbandon k =>
    simp only [Machine.step]
    split <;> rfl

theorem run_serverPID (acts : List Action) :
    ∀ (s : Machine), (∀ a ∈ acts, a.isCreate = false ∧ a.isClose = false) →
      (s.run acts).world.header.serverPID = s.world.header.serverPID := by
  induction acts with
  | nil => intro s _; rfl
  | cons a acts ih =>
    intro s ha
    rw [run_cons, ih _ (fun b hb => ha b (List.mem_cons_of_mem _ hb))]
    exact step_serverPID s a (ha a (List.mem_cons_self _ _)).1 (ha a (List.mem_cons_self _ _)).2


theorem release_mutex_mutexAbandoned (w : World) (h : Bool) (me : Party) :
    (w.ReleaseMutex h me).mutexAbandoned = w.mutexAbandoned := by
  unfold World.ReleaseMutex
  repeat' split
  all_goals rfl

/-- A wait on the mutex that returns `WAIT_OBJECT_0` finds no abandoned mutex to take over. -/
theorem wait_mutex_mutexAbandoned (w : World) (h : Bool) (me : Party)
    (hw : (w.WaitForSingleObject_mutex h me).1 = WaitResult.WAIT_OBJECT_0) :
    (w.WaitForSingleObject_mutex h me).2.mutexAbandoned = w.mutexAbandoned := by
  unfold World.WaitForSingleObject_mutex at hw ⊢
  cases h
  · simp at hw
  · cases hl : w.mutexLock with
    | none =>
      cases ha : w.mutexAbandoned
      · simp [hl, ha]
      · simp [hl, ha] at hw
    | some pn =>
      obtain ⟨p, n⟩ := pn
      by_cases hp : p = me
      · simp [hl, hp]
      · simp [hl, hp]

/-- A wait on the mutex that does not return `WAIT_OBJECT_0` either leaves the kernel objects
as they were, or has found the mutex abandoned and made the caller its owner. -/
theorem wait_mutex_not_acquired (w : World) (h : Bool) (me : Party)
    (hw : (w.WaitForSingleObject_mutex h me).1 ≠ WaitResult.WAIT_OBJECT_0) :
    (w.WaitForSingleObject_mutex h me).2 = w ∨
    (h = true ∧ w.mutexLock = none ∧ w.mutexAbandoned = true ∧
      (w.WaitForSingleObject_mutex h me).1 = WaitResult.WAIT_ABANDONED ∧
      (w.WaitForSingleObject_mutex h me).2
        = { w with mutexLock := some (me, 0), mutexAbandoned := false }) := by
  unfold World.WaitForSingleObject_mutex at hw ⊢
  cases h
  · left; simp
  · cases hl : w.mutexLock with
    | none =>
      cases ha : w.mutexAbandoned
      · simp [hl, ha] at hw
      · right; simp [hl, ha]
    | some pn =>
      obtain ⟨p, n⟩ := pn
      by_cases hp : p = me
      · simp [hl, hp] at hw
      · left; simp [hl, hp]

/-- The result of a wait on the mutex depends on the state of the mutex only. -/
theorem wait_mutex_fst_congr (w1 w2 : World) (h : Bool) (me : Party)
    (hl : w1.mutexLock = w2.mutexLock) (ha : w1.mutexAbandoned = w2.mutexAbandoned) :
    (w1.WaitForSingleObject_mutex h me).1 = (w2.WaitForSingleObject_mutex h me).1 := by
  unfold World.WaitForSingleObject_mutex
  cases h
  · simp
  · cases h2 : w2.mutexLock with
    | none => cases h3 : w2.mutexAbandoned <;> simp [hl, ha, h2, h3]
    | some pn =>
      obtain ⟨p, n⟩ := pn
      by_cases hp : p = me <;> simp [hl, h2, hp]

/-- The kernel objects a `WriteFrame` that returns false leaves: those it found, or those its
failed wait on the mutex left. -/
theorem WriteFrame_false_world (self : PS3EyeSharedMemoryServer) (w : World) (me : Party)
    (frameData : Option Buf) (frameSize timestamp : Nat)
    (h : (self.WriteFrame w me frameData frameSize timestamp).1 = false) :
    (self.WriteFrame w me frameData frameSize timestamp).2.2 = w ∨
    ((w.WaitForSingleObject_mutex self.m_mutex me).1 ≠ WaitResult.WAIT_OBJECT_0 ∧
      (self.WriteFrame w me frameData frameSize timestamp).2.2
        = (w.WaitForSingleObject_mutex self.m_mutex me).2) := by
  have hr := WriteFrame_ret self w me frameData frameSize timestamp
  rw [h] at hr
  unfold PS3EyeSharedMemoryServer.WriteFrame
  cases frameData with
  | none => left; simp
  | some data =>
    by_cases h1 : self.m_sharedMemory = true
    · by_cases h2 : frameSize > PS3EYE_FRAME_SIZE
      · left; simp [h1, h2]
      · by_cases h3 : (w.WaitForSingleObject_mutex self.m_mutex me).1 = WaitResult.WAIT_OBJECT_0
        · exact absurd (hr.2 ⟨rfl, h1, by omega, h3⟩) (by simp)
        · right; simp [h1, h2, h3]
    · left; simp [h1]

/-- The kernel objects a `ReadFrame` leaves: those it found when it returns before the wait,
those of the wait when the wait does not return `WAIT_OBJECT_0`, and those of the release that
follows the wait on each of the three other paths. -/
theorem ReadFrame_world_cases (self : PS3EyeSharedMemoryClient) (w : World) (me : Party)
    (destBuffer : Option Buf) (destSize : Nat) (frameNumber timestamp : Option Nat) :
    ((destBuffer = none ∨ self.m_sharedMemory = false) ∧
      (self.ReadFrame w me destBuffer destSize frameNumber timestamp).world = w) ∨
    ((w.WaitForSingleObject_mutex self.m_mutex me).1 ≠ WaitResult.WAIT_OBJECT_0 ∧
      (self.ReadFrame w me destBuffer destSize frameNumber timestamp).world
        = (w.WaitForSingleObject_mutex self.m_mutex me).2) ∨
    ((w.WaitForSingleObject_mutex self.m_mutex me).1 = WaitResult.WAIT_OBJECT_0 ∧
      (self.ReadFrame w me destBuffer destSize frameNumber timestamp).world
        = World.ReleaseMutex (w.WaitForSingleObject_mutex self.m_mutex me).2
            self.m_mutex me) := by
  unfold PS3EyeSharedMemoryClient.ReadFrame
  cases destBuffer with
  | none => left; simp
  | some dest =>
    by_cases h1 : self.m_sharedMemory = true
    · by_cases h2 : (w.WaitForSingleObject_mutex self.m_mutex me).1 = WaitResult.WAIT_OBJECT_0
      · right; right
        by_cases h3 : w.header.serverPID = 0
        · simp [h1, h2, h3, wait_mutex_header]
        · by_cases h4 : w.header.frameNumber = self.m_lastFrameNumber
          · simp [h1, h2, h3, h4, wait_mutex_header]
          · simp [h1, h2, h3, h4, wait_mutex_header]
      · right; left; simp [h1, h2]
    · left; simp [h1]

/-- What a `ReadFrame` hands back depends on the header, the bytes of the region and on
whether its wait on the mutex returns `WAIT_OBJECT_0`, and on nothing else of the kernel
objects. -/
theorem ReadFrame_congr (self : PS3EyeSharedMemoryClient) (w1 w2 : World) (me : Party)
    (destBuffer : Option Buf) (destSize : Nat) (frameNumber timestamp : Option Nat)
    (hh : w1.header = w2.header) (hm : w1.mem = w2.mem)
    (hl : (w1.WaitForSingleObject_mutex self.m_mutex me).1 = WaitResult.WAIT_OBJECT_0 ↔
      (w2.WaitForSingleObject_mutex self.m_mutex me).1 = WaitResult.WAIT_OBJECT_0) :
    (self.ReadFrame w1 me destBuffer destSize frameNumber timestamp).ret
      = (self.ReadFrame w2 me destBuffer destSize frameNumber timestamp).ret ∧
    (self.ReadFrame w1 me destBuffer destSize frameNumber timestamp).self
      = (self.ReadFrame w2 me destBuffer destSize frameNumber timestamp).self ∧
    (self.ReadFrame w1 me destBuffer destSize frameNumber timestamp).destBuffer
      = (self.ReadFrame w2 me destBuffer destSize frameNumber timestamp).destBuffer ∧
    (self.ReadFrame w1 me destBuffer destSize frameNumber timestamp).frameNumber
      = (self.ReadFrame w2 me destBuffer destSize frameNumber timestamp).frameNumber ∧
    (self.ReadFrame w1 me destBuffer destSize frameNumber timestamp).timestamp
      = (self.ReadFrame w2 me destBuffer destSize frameNumber timestamp).timestamp := by
  unfold PS3EyeSharedMemoryClient.ReadFrame
  cases destBuffer with
  | none => simp
  | some dest =>
    by_cases h1 : self.m_sharedMemory = true
    · by_cases h2 : (w2.WaitForSingleObject_mutex self.m_mutex me).1 = WaitResult.WAIT_OBJECT_0
      · have h2' := hl.2 h2
        by_cases h3 : w2.header.serverPID = 0
        · simp [h1, h2, h2', h3, hh, wait_mutex_header]
        · by_cases h4 : w2.header.frameNumber = self.m_lastFrameNumber
          · simp [h1, h2, h2', h3, h4, hh, wait_mutex_header]
          · simp [h1, h2, h2', h3, h4, hh, hm, wait_mutex_header, wait_mutex_mem]
      · have h2' : ¬ (w1.WaitForSingleObject_mutex self.m_mutex me).1
            = WaitResult.WAIT_OBJECT_0 := fun hx => h2 (hl.1 hx)
        simp [h1, h2, h2']
    · simp [h1]

/-- What `WaitForFrame` returns and leaves: true exactly when the client holds the event and
the event is signalled, and then the event is reset. -/
theorem WaitForFrame_spec (self : PS3EyeSharedMemoryClient) (w : World) :
    (self.WaitForFrame w).1 = (self.m_newFrameEvent && w.newFrameSignaled) ∧
    (self.WaitForFrame w).2 =
      if (self.m_newFrameEvent && w.newFrameSignaled) = true then
        { w with newFrameSignaled := false }
      else w := by
  unfold PS3EyeSharedMemoryClient.WaitForFrame World.WaitForSingleObject_newFrame
  cases h1 : self.m_newFrameEvent <;> cases h2 : w.newFrameSignaled <;> simp [h2]

/-- No action but `Create` and `WaitForFrame` resets the new-frame event. -/
theorem step_signal_kept (s : Machine) (a : Action) (ha : a.isCreate = false)
    (hw : a.isWaitForFrame = false) (h : s.world.newFrameSignaled = true) :
    (s.step a).world.newFrameSignaled = true := by
  cases a with
  | create i pid os => simp [Action.isCreate] at ha
  | waitForFrame j => simp [Action.isWaitForFrame] at hw
  | close i =>
    show ((s.servers i).Close s.world).2.newFrameSignaled = true
    rw [(Close_sync _ _).2.2.1]; exact h
  | writeFrame i d n t =>
    show ((s.servers i).WriteFrame s.world (Party.server i) d n t).2.2.newFrameSignaled = true
    cases hr : ((s.servers i).WriteFrame s.world (Party.server i) d n t).1
    · rw [(WriteFrame_false _ _ _ _ _ _ hr).2.2.2.1]; exact h
    · cases d with
      | none => simp [PS3EyeSharedMemoryServer.WriteFrame] at hr
      | some data => rw [(WriteFrame_true _ _ _ _ _ _ hr).2.2.2.1, h]; simp
  | waitForClients i =>
    show ((s.servers i).WaitForClients s.world).2.newFrameSignaled = true
    rw [(WaitForClients_sync _ _).1]; exact h
  | connect j os =>
    show ((s.clients j).Connect s.world os).2.2.newFrameSignaled = true
    rw [(Connect_sync _ _ _).1]; exact h
  | disconnect j =>
    show ((s.clients j).Disconnect s.world).2.newFrameSignaled = true
    rw [Disconnect_newFrameSignaled]; exact h
  | readFrame j d n f t =>
    show ((s.clients j).ReadFrame s.world (Party.client j) d n f t).world.newFrameSignaled = true
    rw [(ReadFrame_world _ _ _ _ _ _ _).2.2.1]; exact h
  | getFrameInfo j a b c d => exact h
  | otherAcquire k =>
    show (s.world.WaitForSingleObject_mutex true (Party.other k)).2.newFrameSignaled = true
    rw [wait_mutex_newFrameSignaled]; exact h
  | otherRelease k =>
    show (s.world.ReleaseMutex true (Party.other k)).newFrameSignaled = true
    rw [release_mutex_newFrameSignaled]; exact h
  | otherAbandon k =>
    simp only [Machine.step]
    split <;> exact h

theorem run_signal_kept (acts : List Action) :
    ∀ (s : Machine), (∀ a ∈ acts, a.isCreate = false ∧ a.isWaitForFrame = false) →
      s.world.newFrameSignaled = true → (s.run acts).world.newFrameSignaled = true := by
  induction acts with
  | nil => intro s _ h; exact h
  | cons a acts ih =>
    intro s ha h
    rw [run_cons]
    exact ih _ (fun b hb => ha b (List.mem_cons_of_mem _ hb))
      (step_signal_kept s a (ha a (List.mem_cons_self _ _)).1
        (ha a (List.mem_cons_self _ _)).2 h)

/-- No action but `WriteFrame` signals the new-frame event. -/
theorem step_signal_absent (s : Machine) (a : Action) (hw : a.isWriteFrame = false)
    (h : s.world.newFrameSignaled = false) :
    (s.step a).world.newFrameSignaled = false := by
  cases a with
  | writeFrame i d n t => simp [Action.isWriteFrame] at hw
  | create i pid os =>
    show ((s.servers i).Create s.world pid os).2.2.newFrameSignaled = false
    exact Create_newFrameSignaled _ _ _ _ h
  | waitForFrame j =>
    show ((s.clients j).WaitForFrame s.world).2.newFrameSignaled = false
    rw [(WaitForFrame_spec _ _).2]
    split <;> first | rfl | exact h
  | close i =>
    show ((s.servers i).Close s.world).2.newFrameSignaled = false
    rw [(Close_sync _ _).2.2.1]; exact h
  | waitForClients i =>
    show ((s.servers i).WaitForClients s.world).2.newFrameSignaled = false
    rw [(WaitForClients_sync _ _).1]; exact h
  | connect j os =>
    show ((s.clients j).Connect s.world os).2.2.newFrameSignaled = false
    rw [(Connect_sync _ _ _).1]; exact h
  | disconnect j =>
    show ((s.clients j).Disconnect s.world).2.newFrameSignaled = false
    rw [Disconnect_newFrameSignaled]; exact h
  | readFrame j d n f t =>
    show ((s.clients j).ReadFrame s.world (Party.client j) d n f t).world.newFrameSignaled = false
    rw [(ReadFrame_world _ _ _ _ _ _ _).2.2.1]; exact h
  | getFrameInfo j a b c d => exact h
  | otherAcquire k =>
    show (s.world.WaitForSingleObject_mutex true (Party.other k)).2.newFrameSignaled = false
    rw [wait_mutex_newFrameSignaled]; exact h
  | otherRelease k =>
    show (s.world.ReleaseMutex true (Party.other k)).newFrameSignaled = false
    rw [release_mutex_newFrameSignaled]; exact h
  | otherAbandon k =>
    simp only [Machine.step]
    split <;> exact h

/-- An action that is not a `Connect`, `Disconnect` or `ReadFrame` of client `j` leaves the
object of client `j` as it was. -/
theorem step_client_untouched (s : Machine) (a : Action) (j : Nat)
    (h : a.isCallOf j = false) : (s.step a).clients j = s.clients j := by
  cases a with
  | connect k os =>
    have hk : j ≠ k := by intro e; subst e; simp [Action.isCallOf] at h
    simp only [Machine.step, Function.update_noteq hk]
  | disconnect k =>
    have hk : j ≠ k := by intro e; subst e; simp [Action.isCallOf] at h
    simp only [Machine.step, Function.update_noteq hk]
  | readFrame k d n f t =>
    have hk : j ≠ k := by intro e; subst e; simp [Action.isCallOf] at h
    simp only [Machine.step, Function.update_noteq hk]
  | _ => rfl

theorem run_client_untouched (acts : List Action) (j : Nat) :
    ∀ (s : Machine), (∀ a ∈ acts, a.isCallOf j = false) →
      (s.run acts).clients j = s.clients j := by
  induction acts with
  | nil => intro s _; rfl
  | cons a acts ih =>
    intro s ha
    rw [run_cons, ih _ (fun b hb => ha b (List.mem_cons_of_mem _ hb))]
    exact step_client_untouched s a j (ha a (List.mem_cons_self _ _))

theorem wakeups_cons_other (s : Machine) (a : Action) (acts : List Action)
    (h : a.isWaitForFrame = false) : s.wakeups (a :: acts) = (s.step a).wakeups acts := by
  cases a <;> first | rfl | simp [Action.isWaitForFrame] at h

/-- Without a `WriteFrame`, at most one `WaitForFrame` of a run returns true, and none when
the event is not signalled at the start. -/
theorem wakeups_le (acts : List Action) :
    ∀ (s : Machine), (∀ a ∈ acts, a.isWriteFrame = false) →
      s.wakeups acts ≤ (if s.world.newFrameSignaled = true then 1 else 0) := by
  induction acts with
  | nil => intro s _; simp [Machine.wakeups]
  | cons a acts ih =>
    intro s ha
    have hih := ih (s.step a) (fun b hb => ha b (List.mem_cons_of_mem _ hb))
    have hwa := ha a (List.mem_cons_self _ _)
    by_cases hwf : a.isWaitForFrame = true
    · cases a with
      | waitForFrame j =>
        have e : s.wakeups (.waitForFrame j :: acts)
            = (if ((s.clients j).WaitForFrame s.world).1 then 1 else 0)
              + (s.step (.waitForFrame j)).wakeups acts := rfl
        have ew : (s.step (.waitForFrame j)).world = ((s.clients j).WaitForFrame s.world).2 :=
          rfl
        obtain ⟨g1, g2⟩ := WaitForFrame_spec (s.clients j) s.world
        rw [e, g1]
        rw [ew, g2] at hih
        cases h1 : (s.clients j).m_newFrameEvent <;> cases h2 : s.world.newFrameSignaled <;>
          simp [h1, h2] at hih ⊢ <;> omega
      | _ => simp [Action.isWaitForFrame] at hwf
    · have hwf2 : a.isWaitForFrame = false := by simpa using hwf
      rw [wakeups_cons_other s a acts hwf2]
      cases h2 : s.world.newFrameSignaled
      · rw [step_signal_absent s a hwa h2] at hih
        simpa using hih
      · refine le_trans hih ?_
        split <;> simp

/-! ## `WaitForClients` with clients, and the stamped header fields -/

/-- C21: for a server with every handle non-null, as a `Create` that returned true leaves it,
`WaitForClients` returns true when `clientCount` is above 0 on entry, and then leaves the
kernel objects, the client event included, as they were; it returns true when `clientCount` is
above 0 at the end of the wait, whether the event is signalled or not; and in every state
reached from the initial one, a server for which `IsCreated()` is false gets false and
changes nothing. -/
theorem C21_WaitForClients (self : PS3EyeSharedMemoryServer) (w w2 : World)
    (acts : List Action) (i : Nat) (hc : self.Created) :
    (0 < w.header.clientCount → self.WaitForClientsAt w w2 = (true, w)) ∧
    (0 < w2.header.clientCount → (self.WaitForClientsAt w w2).1 = true) ∧
    (0 < w.header.clientCount → self.WaitForClients w = (true, w)) ∧
    self.WaitForClientsAt w w = self.WaitForClients w ∧
    (((Machine.init.run acts).servers i).IsCreated = false →
      ((Machine.init.run acts).servers i).WaitForClientsAt w w2 = (false, w)) := by
  obtain ⟨-, -, -, h4, h5⟩ := hc
  have hg : ∀ v : World, self.GetClientCount v = v.header.clientCount := by
    intro v; simp [PS3EyeSharedMemoryServer.GetClientCount, h5]
  refine ⟨?_, ?_, ?_, rfl, ?_⟩
  · intro h
    simp [PS3EyeSharedMemoryServer.WaitForClientsAt, h4, hg, h]
  · intro h
    unfold PS3EyeSharedMemoryServer.WaitForClientsAt World.WaitForSingleObject_client
    by_cases h0 : 0 < w.header.clientCount
    · simp [h4, hg, h0]
    · cases hs : w2.clientEventSignaled <;> simp [h4, hg, h0, h]
  · intro h
    simp [PS3EyeSharedMemoryServer.WaitForClients, h4, hg, h]
  · intro hn
    obtain ⟨-, -, -, g4, -⟩ := run_server_noHandles acts Machine.init
      (fun _ _ => ⟨rfl, rfl, rfl, rfl, rfl⟩) i hn
    simp [PS3EyeSharedMemoryServer.WaitForClientsAt, g4]

theorem C21_WaitForClients_witness :
    (demoMachine.servers 0).Created ∧ 0 < demoMachine.world.header.clientCount ∧
    (demoMachine.servers 0).WaitForClients demoMachine.world = (true, demoMachine.world) ∧
    ((desertedMachine.servers 0).WaitForClientsAt
      { desertedMachine.world with clientEventSignaled := false } demoMachine.world).1
      = true ∧
    (Machine.init.servers 0).WaitForClientsAt demoMachine.world demoMachine.world
      = (false, demoMachine.world) :=
  ⟨by decide, by decide,
   (C21_WaitForClients (demoMachine.servers 0) demoMachine.world demoMachine.world [] 0
      (by decide)).2.2.1 (by decide),
   (C21_WaitForClients (desertedMachine.servers 0)
      { desertedMachine.world with clientEventSignaled := false } demoMachine.world [] 0
      (by decide)).2.1 (by decide),
   (C21_WaitForClients (demoMachine.servers 0) demoMachine.world demoMachine.world [] 0
      (by decide)).2.2.2.2 (by decide)⟩


/-- C22: after a `Create` that returned true, whatever calls other than `Create` follow
(`WriteFrame`, `Connect`, `Disconnect`, `ReadFrame`, `GetFrameInfo`, `WaitForClients`,
`WaitForFrame`, `Close`, by any server or client), the header holds magic 0x45335350,
version 1, width 640, height 480, stride 1920 and format 0; and from any state such calls
leave these six fields as they find them. -/
theorem C22_stamped_fields_constant (s0 s : Machine) (i pid : Nat) (os : OsFaults)
    (acts : List Action)
    (hc : ((s0.servers i).Create s0.world pid os).1 = true)
    (hacts : ∀ a ∈ acts, a.isCreate = false) :
    (((s0.step (.create i pid os)).run acts).world.header.magic = 0x45335350 ∧
     ((s0.step (.create i pid os)).run acts).world.header.version = 1 ∧
     ((s0.step (.create i pid os)).run acts).world.header.width = 640 ∧
     ((s0.step (.create i pid os)).run acts).world.header.height = 480 ∧
     ((s0.step (.create i pid os)).run acts).world.header.stride = 1920 ∧
     ((s0.step (.create i pid os)).run acts).world.header.format = 0) ∧
    ((s.run acts).world.header.magic = s.world.header.magic ∧
     (s.run acts).world.header.version = s.world.header.version ∧
     (s.run acts).world.header.width = s.world.header.width ∧
     (s.run acts).world.header.height = s.world.header.height ∧
     (s.run acts).world.header.stride = s.world.header.stride ∧
     (s.run acts).world.header.format = s.world.header.format) := by
  obtain ⟨h1, h2, h3, h4, h5, h6, -⟩ := run_header_constants acts s hacts
  refine ⟨?_, h1, h2, h3, h4, h5, h6⟩
  obtain ⟨g1, g2, g3, g4, g5, g6, -⟩ :=
    run_header_constants acts (s0.step (.create i pid os)) hacts
  have hh := (step_create s0 i pid os hc).1
  rw [g1, g2, g3, g4, g5, g6, hh]
  exact ⟨rfl, rfl, rfl, rfl, rfl, rfl⟩

theorem C22_stamped_fields_constant_witness :
    (closedMachine.world.header.magic = 0x45335350 ∧
     closedMachine.world.header.version = 1 ∧
     closedMachine.world.header.width = 640 ∧
     closedMachine.world.header.height = 480 ∧
     closedMachine.world.header.stride = 1920 ∧
     closedMachine.world.header.format = 0) :=
  (C22_stamped_fields_constant Machine.init Machine.init 0 100 {}
    [.connect 0 {},
     .writeFrame 0 (some (bufOfList [1])) 1 1000, .writeFrame 0 (some (bufOfList [2])) 1 2000,
     .writeFrame 0 (some (bufOfList [3])) 1 3000, .writeFrame 0 (some (bufOfList [4])) 1 4000,
     .writeFrame 0 (some (bufOfList [5])) 1 5000, .close 0]
    (by decide) (by intro a ha; simp at ha; rcases ha with h | h | h | h | h | h | h <;> subst h <;> rfl)).1

/-! ## Late join -/

/-- C23: let a server with every handle non-null publish a frame (`WriteFrame` returns true,
`serverPID` is not 0, the frame counter does not wrap), let a client `Connect` with success
afterwards, and let no `Create`, `Close` or further `WriteFrame` happen, nor another `Connect`,
`Disconnect` or `ReadFrame` of that client after its `Connect`. Then `WaitForFrame` of the
client returns true as long as no `WaitForFrame` call has been made since the publish, and its
`ReadFrame` with the mutex free and `destSize >= frameSize` returns true, stores the frame
number and the timestamp of the publish through its out-pointers and copies the published
bytes. -/
theorem C23_late_join (s : Machine) (i j : Nat) (data : Buf) (n t : Nat)
    (acts1 acts2 : List Action) (os : OsFaults) (dest : Buf) (destSize : Nat)
    (fn ts : Option Nat)
    (hc : (s.servers i).Created)
    (hlive : s.world.header.serverPID ≠ 0)
    (hwrap : (s.servers i).m_frameNumber + 1 < 2 ^ 64)
    (hw : ((s.servers i).WriteFrame s.world (Party.server i) (some data) n t).1 = true)
    (h1 : ∀ a ∈ acts1, a.isCreate = false ∧ a.isWriteFrame = false ∧ a.isClose = false)
    (hconn : (((s.run (.writeFrame i (some data) n t :: acts1)).clients j).Connect
      (s.run (.writeFrame i (some data) n t :: acts1)).world os).1 = true)
    (h2 : ∀ a ∈ acts2, a.isCreate = false ∧ a.isWriteFrame = false ∧ a.isClose = false ∧
      a.isCallOf j = false) :
    ((∀ a ∈ acts1 ++ acts2, a.isWaitForFrame = false) →
      (((s.run (.writeFrame i (some data) n t :: acts1 ++ .connect j os :: acts2)).clients
        j).WaitForFrame
        (s.run (.writeFrame i (some data) n t :: acts1 ++ .connect j os :: acts2)).world).1
        = true) ∧
    ((s.run (.writeFrame i (some data) n t :: acts1 ++ .connect j os :: acts2)).world.mutexLock
        = none →
      (s.run (.writeFrame i (some data) n t :: acts1 ++ .connect j os :: acts2)).world.mutexAbandoned
        = false →
      n ≤ destSize →
      (((s.run (.writeFrame i (some data) n t :: acts1 ++ .connect j os :: acts2)).clients
        j).ReadFrame
        (s.run (.writeFrame i (some data) n t :: acts1 ++ .connect j os :: acts2)).world
        (Party.client j) (some dest) destSize fn ts).ret = true ∧
      (((s.run (.writeFrame i (some data) n t :: acts1 ++ .connect j os :: acts2)).clients
        j).ReadFrame
        (s.run (.writeFrame i (some data) n t :: acts1 ++ .connect j os :: acts2)).world
        (Party.client j) (some dest) destSize fn ts).frameNumber
        = fn.map (fun _ => (s.servers i).m_frameNumber + 1) ∧
      (((s.run (.writeFrame i (some data) n t :: acts1 ++ .connect j os :: acts2)).clients
        j).ReadFrame
        (s.run (.writeFrame i (some data) n t :: acts1 ++ .connect j os :: acts2)).world
        (Party.client j) (some dest) destSize fn ts).timestamp = ts.map (fun _ => t) ∧
      (((s.run (.writeFrame i (some data) n t :: acts1 ++ .connect j os :: acts2)).clients
        j).ReadFrame
        (s.run (.writeFrame i (some data) n t :: acts1 ++ .connect j os :: acts2)).world
        (Party.client j) (some dest) destSize fn ts).destBuffer.map (fun d => d.take n)
        = some (data.take n)) := by
  -- the state after the publish
  obtain ⟨-, w2, w3, w4, -, -⟩ := WriteFrame_true (s.servers i) s.world (Party.server i)
    data n t hw
  have hev : (s.servers i).m_newFrameEvent = true := hc.2.2.1
  have hmod : ((s.servers i).m_frameNumber + 1) % 2 ^ 64 = (s.servers i).m_frameNumber + 1 :=
    Nat.mod_eq_of_lt hwrap
  rw [hmod] at w2
  rw [hev] at w4
  -- the run that follows it
  have hrun : s.run (.writeFrame i (some data) n t :: acts1 ++ .connect j os :: acts2)
      = (s.step (.writeFrame i (some data) n t)).run (acts1 ++ .connect j os :: acts2) := rfl
  have hrun1 : s.run (.writeFrame i (some data) n t :: acts1)
      = (s.step (.writeFrame i (some data) n t)).run acts1 := rfl
  have hsplit : (s.step (.writeFrame i (some data) n t)).run (acts1 ++ .connect j os :: acts2)
      = ((((s.step (.writeFrame i (some data) n t)).run acts1).step (.connect j os)).run
          acts2) := by
    rw [run_append, run_cons]
  have hall : ∀ a ∈ acts1 ++ .connect j os :: acts2,
      a.isCreate = false ∧ a.isWriteFrame = false ∧ a.isClose = false := by
    intro a ha
    rcases List.mem_append.1 ha with h | h
    · exact h1 a h
    · rcases List.mem_cons.1 h with h | h
      · subst h; exact ⟨rfl, rfl, rfl⟩
      · exact ⟨(h2 a h).1, (h2 a h).2.1, (h2 a h).2.2.1⟩
  have e1 : (s.step (.writeFrame i (some data) n t)).world
      = ((s.servers i).WriteFrame s.world (Party.server i) (some data) n t).2.2 := rfl
  obtain ⟨p1, p2, p3, p4⟩ := run_payload (acts1 ++ .connect j os :: acts2)
    (s.step (.writeFrame i (some data) n t)) (fun a ha => ⟨(hall a ha).1, (hall a ha).2.1⟩)
  have p5 := run_serverPID (acts1 ++ .connect j os :: acts2)
    (s.step (.writeFrame i (some data) n t)) (fun a ha => ⟨(hall a ha).1, (hall a ha).2.2⟩)
  have p6 := (run_header_constants (acts1 ++ .connect j os :: acts2)
    (s.step (.writeFrame i (some data) n t)) (fun a ha => (hall a ha).1)).2.2.2.2.2.2
  rw [e1, w2] at p1 p2 p3 p5 p6
  rw [e1, w3] at p4
  simp only at p1 p2 p3 p5 p6
  -- the client
  have hcl : ((s.step (.writeFrame i (some data) n t)).run
      (acts1 ++ .connect j os :: acts2)).clients j
      = ⟨true, true, true, (!os.clientEvent && decide
          (((s.step (.writeFrame i (some data) n t)).run acts1).world.clientEventHandles ≠ 0)),
          true, 0⟩ := by
    rw [hsplit, run_client_untouched acts2 j _ (fun a ha => (h2 a ha).2.2.2)]
    rw [hrun1] at hconn
    have := (Connect_true _ _ os hconn).1
    simp only [Machine.step, Function.update_same]
    exact this
  rw [hrun]
  refine ⟨fun hnw => ?_, fun hl ha hsz => ?_⟩
  · rw [(WaitForFrame_spec _ _).1, hcl]
    have hsig := run_signal_kept (acts1 ++ .connect j os :: acts2)
      (s.step (.writeFrame i (some data) n t))
      (fun a ha => by
        refine ⟨(hall a ha).1, ?_⟩
        rcases List.mem_append.1 ha with h | h
        · exact hnw a (List.mem_append_left _ h)
        · rcases List.mem_cons.1 h with h | h
          · subst h; rfl
          · exact hnw a (List.mem_append_right _ h))
      (by rw [e1, w4]; rfl)
    simp [hsig]
  · have hret : ((((s.step (.writeFrame i (some data) n t)).run
        (acts1 ++ .connect j os :: acts2)).clients j).ReadFrame
        ((s.step (.writeFrame i (some data) n t)).run
          (acts1 ++ .connect j os :: acts2)).world
        (Party.client j) (some dest) destSize fn ts).ret = true := by
      rw [ReadFrame_ret, hcl]
      refine ⟨rfl, rfl, ?_, ?_, ?_⟩
      · simp [World.WaitForSingleObject_mutex, hl, ha]
      · rw [p5]; exact hlive
      · rw [p1]; simp
    obtain ⟨-, r2, r3, r4, -⟩ := ReadFrame_true _ _ _ dest destSize fn ts hret
    refine ⟨hret, ?_, ?_, ?_⟩
    · rw [r3, p1]
    · rw [r4, p2]
    · rw [r2, p3, p4, p6]
      simp only [Option.map_some']
      congr 1
      apply take_congr
      intro k hk
      have hk2 : k < min destSize n := by omega
      simp [memcpy, hk2, hk]

theorem C23_late_join_witness :
    (((publishedMachine.run [.connect 0 {}]).clients 0).WaitForFrame
      (publishedMachine.run [.connect 0 {}]).world).1 = true ∧
    (((publishedMachine.run [.connect 0 {}]).clients 0).ReadFrame
      (publishedMachine.run [.connect 0 {}]).world
      (Party.client 0) (some (fun _ => 0)) 10 (some 0) (some 0)).frameNumber = some 1 :=
  ⟨(C23_late_join (Machine.init.run [.create 0 100 {}]) 0 0 (bufOfList [1, 2, 3]) 3 1000
      [] [] {} (fun _ => 0) 10 (some 0) (some 0) (by decide) (by decide) (by decide)
      (by decide) (by simp) (by decide) (by simp)).1 (by simp),
   ((C23_late_join (Machine.init.run [.create 0 100 {}]) 0 0 (bufOfList [1, 2, 3]) 3 1000
      [] [] {} (fun _ => 0) 10 (some 0) (some 0) (by decide) (by decide) (by decide)
      (by decide) (by simp) (by decide) (by simp)).2 (by decide) (by decide)
      (by decide)).2.1⟩

/-! ## The layout of `PS3EyeFrameHeader` -/

/-- C24: under `#pragma pack(1)` the members of `PS3EyeFrameHeader` lie at offsets magic 0,
version 4, width 8, height 12, stride 16, format 20, frameNumber 24, timestamp 32,
dataOffset 40, dataSize 44, serverPID 48, clientCount 52, reserved 56, and `sizeof` is 72;
every offset is a multiple of the size of the member's scalar type (`UINT32` for the array
`reserved`), and the layout is the one natural alignment gives, so there is no padding;
`PS3EYE_FRAME_SIZE` is 640*480*3 = 921600 = stride*height, below 2^32; and
`PS3EYE_SHARED_MEMORY_SIZE` is 72 + 921600 = 921672. -/
theorem C24_layout (pid : Nat) :
    memberOffsets 1 0 PS3EyeFrameHeader_members =
      [("magic", 0), ("version", 4), ("width", 8), ("height", 12), ("stride", 16),
       ("format", 20), ("frameNumber", 24), ("timestamp", 32), ("dataOffset", 40),
       ("dataSize", 44), ("serverPID", 48), ("clientCount", 52), ("reserved", 56)] ∧
    ((memberOffsets 1 0 PS3EyeFrameHeader_members).zip PS3EyeFrameHeader_members).all
      (fun m => m.1.2 % m.2.2.1 = 0) = true ∧
    memberOffsets defaultPack 0 PS3EyeFrameHeader_members
      = memberOffsets 1 0 PS3EyeFrameHeader_members ∧
    sizeofStruct defaultPack PS3EyeFrameHeader_members
      = sizeofStruct 1 PS3EyeFrameHeader_members ∧
    sizeofStruct 1 PS3EyeFrameHeader_members = 72 ∧
    PS3EyeFrameHeader_members.map (fun m => (m.1, m.2.1 * m.2.2)) = PS3EyeFrameHeader_fields ∧
    sizeof_PS3EyeFrameHeader = 72 ∧
    PS3EYE_FRAME_SIZE = 921600 ∧
    PS3EYE_FRAME_SIZE = 640 * 480 * 3 ∧
    PS3EYE_WIDTH * PS3EYE_HEIGHT * PS3EYE_BYTES_PER_PIXEL < 2 ^ 32 ∧
    PS3EYE_FRAME_SIZE = (initHeader pid).stride * (initHeader pid).height ∧
    (initHeader pid).stride * (initHeader pid).height < 2 ^ 32 ∧
    (initHeader pid).dataOffset = 72 ∧
    sizeof_PS3EyeFrameHeader + PS3EYE_FRAME_SIZE < 2 ^ 32 ∧
    PS3EYE_SHARED_MEMORY_SIZE = 72 + 921600 ∧
    PS3EYE_SHARED_MEMORY_SIZE = 921672 := by
  have e1 : (initHeader pid).stride = 1920 := rfl
  have e2 : (initHeader pid).height = 480 := rfl
  have e3 : (initHeader pid).dataOffset = 72 := rfl
  rw [e1, e2, e3]
  refine ⟨?_, ?_, ?_, ?_, ?_, ?_, ?_, ?_, ?_, ?_, ?_, ?_, ?_, ?_, ?_, ?_⟩
  all_goals decide


/-! ## `serverPID` and the mutex -/

/-- C25, the code on `Close` under a held lock: with client 0 inside `ReadFrame`, owning the
mutex, and `serverPID` 4242, `Close` of the created server 0 sets `serverPID` to 0 while
client 0 still owns the mutex. -/
theorem C25_Close_zeroes_serverPID_under_held_lock :
    readerInsideWorld.mutexLock = some (Party.client 0, 0) ∧
    readerInsideWorld.header.serverPID = 4242 ∧
    (demoMachine.servers 0).IsCreated = true ∧
    ((demoMachine.servers 0).Close readerInsideWorld).2.header.serverPID = 0 ∧
    ((demoMachine.servers 0).Close readerInsideWorld).2.mutexLock
      = some (Party.client 0, 0) := by
  decide

/-- C25 as the code has it: `Close` on a created server sets `header.serverPID` to 0 whoever
owns the mutex, and leaves the ownership of the mutex as it finds it; a `Create` that returns
true sets `serverPID` to the process id; and no other call changes `serverPID`. -/
theorem C25_serverPID_written_without_lock (self : PS3EyeSharedMemoryServer) (w : World)
    (pid : Nat) (os : OsFaults) (s : Machine) (a : Action)
    (hc : self.IsCreated = true) (ha : a.isCreate = false) (hcl : a.isClose = false) :
    (self.Close w).2.header.serverPID = 0 ∧
    (self.Close w).2.mutexLock = w.mutexLock ∧
    (self.Close w).2.mutexAbandoned = w.mutexAbandoned ∧
    ((self.Create w pid os).1 = true → (self.Create w pid os).2.2.header.serverPID = pid) ∧
    (s.step a).world.header.serverPID = s.world.header.serverPID := by
  have hm : self.m_sharedMemory = true := hc
  refine ⟨by rw [Close_header]; simp [hm], (Close_sync self w).1, (Close_sync self w).2.1,
    fun h => ?_, step_serverPID s a ha hcl⟩
  rw [(Create_true self w pid os h).2]
  rfl

theorem C25_serverPID_written_without_lock_witness :
    ((demoMachine.servers 0).Close readerInsideWorld).2.header.serverPID = 0 ∧
    ((demoMachine.servers 0).Close readerInsideWorld).2.mutexLock
      = readerInsideWorld.mutexLock ∧
    (demoMachine.step (.disconnect 0)).world.header.serverPID
      = demoMachine.world.header.serverPID :=
  ⟨(C25_serverPID_written_without_lock (demoMachine.servers 0) readerInsideWorld 0 {}
      demoMachine (.disconnect 0) (by decide) rfl rfl).1,
   (C25_serverPID_written_without_lock (demoMachine.servers 0) readerInsideWorld 0 {}
      demoMachine (.disconnect 0) (by decide) rfl rfl).2.1,
   (C25_serverPID_written_without_lock (demoMachine.servers 0) readerInsideWorld 0 {}
      demoMachine (.disconnect 0) (by decide) rfl rfl).2.2.2.2⟩

/-! ## Facts about the capture loop -/

/-- An iteration that finds the camera inactive calls `WaitForClients`, perhaps `initCamera`,
and nothing else. -/
theorem iteration_inactive (st : CaptureLoopState) (w : World) (inp : CaptureLoopInput)
    (h : st.cameraActive = false) :
    (CaptureLoop_iteration st w inp).writeFrameCalled = false ∧
    (CaptureLoop_iteration st w inp).observed = none ∧
    (CaptureLoop_iteration st w inp).state.noClientFrames = st.noClientFrames ∧
    (CaptureLoop_iteration st w inp).state.sharedMemory = st.sharedMemory ∧
    (CaptureLoop_iteration st w inp).world
      = (st.sharedMemory.WaitForClientsAt w (inp.duringWait w)).2 := by
  unfold CaptureLoop_iteration initCamera
  simp only [h, Bool.not_false, if_true]
  cases (st.sharedMemory.WaitForClientsAt w (inp.duringWait w)).1 <;>
    cases inp.devices <;> cases inp.initOk <;> simp

/-- An iteration that finds the camera active but not streaming changes nothing. -/
theorem iteration_idle (st : CaptureLoopState) (w : World) (inp : CaptureLoopInput)
    (h : st.cameraActive = true) (h2 : st.camera = false ∨ inp.isStreaming = false) :
    (CaptureLoop_iteration st w inp).writeFrameCalled = false ∧
    (CaptureLoop_iteration st w inp).observed = none ∧
    (CaptureLoop_iteration st w inp).state = st ∧
    (CaptureLoop_iteration st w inp).world = w := by
  unfold CaptureLoop_iteration
  rcases h2 with h2 | h2 <;> simp [h, h2]

/-- An iteration reaches the check exactly when the camera is active and streaming. -/
theorem iteration_observed (st : CaptureLoopState) (w : World) (inp : CaptureLoopInput) :
    (st.cameraActive = true ∧ st.camera = true ∧ inp.isStreaming = true →
      (CaptureLoop_iteration st w inp).observed = some (CaptureLoop_count st w inp) ∧
      (CaptureLoop_iteration st w inp).writeFrameCalled = true) ∧
    (∀ c, (CaptureLoop_iteration st w inp).observed = some c →
      st.cameraActive = true ∧ st.camera = true ∧ inp.isStreaming = true ∧
      c = CaptureLoop_count st w inp) := by
  unfold CaptureLoop_iteration CaptureLoop_count
  cases h1 : st.cameraActive
  · simp
    intro c
    split <;> simp
  · cases h2 : st.camera
    · simp
    · cases h3 : inp.isStreaming
      · simp
      · simp only [Bool.not_true, Bool.false_eq_true, if_false, Bool.or_self, true_and,
          and_self, forall_true_left]
        split
        · split <;> simp
        · simp

/-- What the check does to `noClientFrames` and the camera. -/
theorem iteration_check (st : CaptureLoopState) (w : World) (inp : CaptureLoopInput)
    (h1 : st.cameraActive = true) (h2 : st.camera = true) (h3 : inp.isStreaming = true) :
    (0 < CaptureLoop_count st w inp →
      (CaptureLoop_iteration st w inp).state.noClientFrames = 0 ∧
      (CaptureLoop_iteration st w inp).state.cameraActive = true ∧
      (CaptureLoop_iteration st w inp).state.camera = true) ∧
    (CaptureLoop_count st w inp ≤ 0 → wrapLONG (st.noClientFrames + 1) ≤ 30 →
      (CaptureLoop_iteration st w inp).state.noClientFrames
        = wrapLONG (st.noClientFrames + 1) ∧
      (CaptureLoop_iteration st w inp).state.cameraActive = true ∧
      (CaptureLoop_iteration st w inp).state.camera = true) ∧
    (CaptureLoop_count st w inp ≤ 0 → 30 < wrapLONG (st.noClientFrames + 1) →
      (CaptureLoop_iteration st w inp).state.noClientFrames = 0 ∧
      (CaptureLoop_iteration st w inp).state.cameraActive = false ∧
      (CaptureLoop_iteration st w inp).state.camera = false) := by
  unfold CaptureLoop_iteration CaptureLoop_count stopCamera
  simp only [h1, h2, h3, Bool.not_true, Bool.false_eq_true, if_false, Bool.or_self]
  refine ⟨fun h => ?_, fun h hn => ?_, fun h hn => ?_⟩
  · have : ¬ _ ≤ (0 : Int) := not_le.2 h
    simp [this]
  · have hn' : ¬ wrapLONG (st.noClientFrames + 1) > 30 := not_lt.2 hn
    simp [h, hn', h1, h2]
  · have hn' : wrapLONG (st.noClientFrames + 1) > 30 := hn
    simp [h, hn', h1]

/-- A streak of iterations observing no client, started with the counter at `n`, keeps the
camera active and counts up while the counter stays within 30. -/
theorem run_streak_counts (inps : List CaptureLoopInput) :
    ∀ (st : CaptureLoopState) (w : World) (n : Nat),
      st.noClientFrames = n → n + inps.length ≤ 30 → noClientStreak st w inps = true →
      (st.cameraActive = true ∨ inps ≠ []) →
      (CaptureLoop_run st w inps).1.cameraActive = true ∧
      (CaptureLoop_run st w inps).1.noClientFrames = (n + inps.length : Nat) := by
  induction inps with
  | nil =>
    intro st w n hn _ _ ha
    rcases ha with ha | ha
    · exact ⟨ha, by simpa [CaptureLoop_run] using hn⟩
    · exact absurd rfl ha
  | cons inp rest ih =>
    intro st w n hn hlen hs _
    simp only [noClientStreak, Bool.and_eq_true] at hs
    obtain ⟨hs1, hs2⟩ := hs
    simp only [List.length_cons] at hlen ⊢
    cases ho : (CaptureLoop_iteration st (inp.before w) inp).observed with
    | none => simp [ho] at hs1
    | some c =>
      rw [ho] at hs1
      have hc : c ≤ 0 := by simpa using hs1
      obtain ⟨a1, a2, a3, a4⟩ := (iteration_observed st (inp.before w) inp).2 c ho
      have hw : wrapLONG (st.noClientFrames + 1) = (n : Int) + 1 := by
        rw [hn]; apply wrapLONG_of_range <;> omega
      obtain ⟨g1, g2, -⟩ := (iteration_check st (inp.before w) inp a1 a2 a3).2.1
        (by rw [← a4]; exact hc) (by rw [hw]; omega)
      have := ih (CaptureLoop_iteration st (inp.before w) inp).state
        (CaptureLoop_iteration st (inp.before w) inp).world (n + 1)
        (by rw [g1, hw]; push_cast; rfl) (by omega) hs2 (Or.inl g2)
      simp only [CaptureLoop_run]
      refine ⟨this.1, ?_⟩
      rw [this.2]; push_cast; omega

/-- A streak of iterations observing no client that brings the counter to 31 ends with the
camera stopped and the counter back at 0. -/
theorem run_streak_stops (inps : List CaptureLoopInput) :
    ∀ (st : CaptureLoopState) (w : World) (n : Nat),
      st.noClientFrames = n → n + inps.length = 31 → inps ≠ [] →
      noClientStreak st w inps = true →
      (CaptureLoop_run st w inps).1.cameraActive = false ∧
      (CaptureLoop_run st w inps).1.camera = false ∧
      (CaptureLoop_run st w inps).1.noClientFrames = 0 := by
  induction inps with
  | nil => intro st w n _ _ hne _; exact absurd rfl hne
  | cons inp rest ih =>
    intro st w n hn hlen _ hs
    simp only [noClientStreak, Bool.and_eq_true] at hs
    obtain ⟨hs1, hs2⟩ := hs
    simp only [List.length_cons] at hlen
    cases ho : (CaptureLoop_iteration st (inp.before w) inp).observed with
    | none => simp [ho] at hs1
    | some c =>
      rw [ho] at hs1
      have hc : c ≤ 0 := by simpa using hs1
      obtain ⟨a1, a2, a3, a4⟩ := (iteration_observed st (inp.before w) inp).2 c ho
      have hw : wrapLONG (st.noClientFrames + 1) = (n : Int) + 1 := by
        rw [hn]; apply wrapLONG_of_range <;> omega
      simp only [CaptureLoop_run]
      cases rest with
      | nil =>
        simp only [List.length_nil] at hlen
        obtain ⟨g1, g2, g3⟩ := (iteration_check st (inp.before w) inp a1 a2 a3).2.2
          (by rw [← a4]; exact hc) (by rw [hw]; omega)
        exact ⟨g2, g3, g1⟩
      | cons inp2 rest2 =>
        simp only [List.length_cons] at hlen
        obtain ⟨g1, g2, -⟩ := (iteration_check st (inp.before w) inp a1 a2 a3).2.1
          (by rw [← a4]; exact hc) (by rw [hw]; omega)
        exact ih (CaptureLoop_iteration st (inp.before w) inp).state
          (CaptureLoop_iteration st (inp.before w) inp).world (n + 1)
          (by rw [g1, hw]; push_cast; rfl) (by simp only [List.length_cons]; omega)
          (by simp) hs2


/-- C26: an iteration that finds the camera inactive calls no `WriteFrame`, makes no check and
leaves `noClientFrames`; an iteration whose check observes `GetClientCount() > 0` sets
`noClientFrames` to 0 and leaves the camera active; an iteration turns the camera from active
to inactive only when its check observes `GetClientCount() <= 0` and the incremented counter
exceeds 30, and it then leaves `noClientFrames` at 0; and from `noClientFrames = 0`, a run of
consecutive iterations that each reach the check and observe `GetClientCount() <= 0` keeps the
camera active through its first 30 iterations, counting them, and ends with the camera stopped
and the counter at 0 when it is 31 iterations long. -/
theorem C26_debounced_suspend (st : CaptureLoopState) (w : World)
    (inps : List CaptureLoopInput)
    (h0 : st.noClientFrames = 0) (hpos : 0 < inps.length)
    (hs : noClientStreak st w inps = true) :
    (inps.length ≤ 30 →
      (CaptureLoop_run st w inps).1.cameraActive = true ∧
      (CaptureLoop_run st w inps).1.noClientFrames = inps.length) ∧
    (inps.length = 31 →
      (CaptureLoop_run st w inps).1.cameraActive = false ∧
      (CaptureLoop_run st w inps).1.camera = false ∧
      (CaptureLoop_run st w inps).1.noClientFrames = 0) ∧
    (∀ (st2 : CaptureLoopState) (w2 : World) (inp : CaptureLoopInput),
      (st2.cameraActive = false →
        (CaptureLoop_iteration st2 w2 inp).writeFrameCalled = false ∧
        (CaptureLoop_iteration st2 w2 inp).observed = none ∧
        (CaptureLoop_iteration st2 w2 inp).state.noClientFrames = st2.noClientFrames ∧
        (CaptureLoop_iteration st2 w2 inp).state.sharedMemory = st2.sharedMemory) ∧
      ((CaptureLoop_iteration st2 w2 inp).writeFrameCalled = true →
        st2.cameraActive = true ∧
        (CaptureLoop_iteration st2 w2 inp).observed = some (CaptureLoop_count st2 w2 inp)) ∧
      (∀ c, (CaptureLoop_iteration st2 w2 inp).observed = some c → 0 < c →
        (CaptureLoop_iteration st2 w2 inp).state.noClientFrames = 0 ∧
        (CaptureLoop_iteration st2 w2 inp).state.cameraActive = true) ∧
      (∀ c, (CaptureLoop_iteration st2 w2 inp).observed = some c → c ≤ 0 →
        0 ≤ st2.noClientFrames → st2.noClientFrames < 30 →
        (CaptureLoop_iteration st2 w2 inp).state.noClientFrames = st2.noClientFrames + 1 ∧
        (CaptureLoop_iteration st2 w2 inp).state.cameraActive = true) ∧
      (∀ c, (CaptureLoop_iteration st2 w2 inp).observed = some c → c ≤ 0 →
        st2.noClientFrames = 30 →
        (CaptureLoop_iteration st2 w2 inp).state.noClientFrames = 0 ∧
        (CaptureLoop_iteration st2 w2 inp).state.cameraActive = false) ∧
      (st2.cameraActive = true →
        (CaptureLoop_iteration st2 w2 inp).state.cameraActive = false →
        (∃ c, (CaptureLoop_iteration st2 w2 inp).observed = some c ∧ c ≤ 0 ∧
          30 < wrapLONG (st2.noClientFrames + 1)) ∧
        (CaptureLoop_iteration st2 w2 inp).state.noClientFrames = 0)) := by
  have hne : inps ≠ [] := List.length_pos.1 hpos
  refine ⟨fun hl => ?_, fun hl => ?_, fun st2 w2 inp => ⟨fun h => ?_, fun h => ?_, fun c ho hc => ?_,
    fun c ho hc hn1 hn2 => ?_, fun c ho hc hn => ?_, fun ha hb => ?_⟩⟩
  · have := run_streak_counts inps st w 0 (by simpa using h0) (by omega) hs (Or.inr hne)
    simpa using this
  · exact run_streak_stops inps st w 0 (by simpa using h0) (by omega) hne hs
  · obtain ⟨a, b, c, d, -⟩ := iteration_inactive st2 w2 inp h
    exact ⟨a, b, c, d⟩
  · cases ha : st2.cameraActive
    · rw [(iteration_inactive st2 w2 inp ha).1] at h
      exact absurd h (by simp)
    · by_cases hi : st2.camera = false ∨ inp.isStreaming = false
      · rw [(iteration_idle st2 w2 inp ha hi).1] at h
        exact absurd h (by simp)
      · have h2 : st2.camera = true := by
          by_contra hx; exact hi (Or.inl (by simpa using hx))
        have h3 : inp.isStreaming = true := by
          by_contra hx; exact hi (Or.inr (by simpa using hx))
        exact ⟨rfl, ((iteration_observed st2 w2 inp).1 ⟨ha, h2, h3⟩).1⟩
  · obtain ⟨a1, a2, a3, a4⟩ := (iteration_observed st2 w2 inp).2 c ho
    obtain ⟨g1, g2, -⟩ := (iteration_check st2 w2 inp a1 a2 a3).1 (by rw [← a4]; exact hc)
    exact ⟨g1, g2⟩
  · obtain ⟨a1, a2, a3, a4⟩ := (iteration_observed st2 w2 inp).2 c ho
    have hw : wrapLONG (st2.noClientFrames + 1) = st2.noClientFrames + 1 := by
      apply wrapLONG_of_range <;> omega
    obtain ⟨g1, g2, -⟩ := (iteration_check st2 w2 inp a1 a2 a3).2.1 (by rw [← a4]; exact hc)
      (by rw [hw]; omega)
    exact ⟨by rw [g1, hw], g2⟩
  · obtain ⟨a1, a2, a3, a4⟩ := (iteration_observed st2 w2 inp).2 c ho
    have hw : wrapLONG (st2.noClientFrames + 1) = 31 := by
      rw [hn]; decide
    obtain ⟨g1, g2, -⟩ := (iteration_check st2 w2 inp a1 a2 a3).2.2 (by rw [← a4]; exact hc)
      (by rw [hw]; decide)
    exact ⟨g1, g2⟩
  · by_cases hi : st2.camera = false ∨ inp.isStreaming = false
    · rw [(iteration_idle st2 w2 inp ha hi).2.2.1, ha] at hb
      exact absurd hb (by simp)
    · have h2 : st2.camera = true := by
        by_contra hx; exact hi (Or.inl (by simpa using hx))
      have h3 : inp.isStreaming = true := by
        by_contra hx; exact hi (Or.inr (by simpa using hx))
      obtain ⟨k1, k2, k3⟩ := iteration_check st2 w2 inp ha h2 h3
      have ho := ((iteration_observed st2 w2 inp).1 ⟨ha, h2, h3⟩).1
      by_cases hc : 0 < CaptureLoop_count st2 w2 inp
      · rw [(k1 hc).2.1] at hb
        exact absurd hb (by simp)
      · have hc2 : CaptureLoop_count st2 w2 inp ≤ 0 := not_lt.1 hc
        by_cases hn : wrapLONG (st2.noClientFrames + 1) ≤ 30
        · rw [(k2 hc2 hn).2.1] at hb
          exact absurd hb (by simp)
        · have hn2 : 30 < wrapLONG (st2.noClientFrames + 1) := not_le.1 hn
          exact ⟨⟨_, ho, hc2, hn2⟩, (k3 hc2 hn2).1⟩

theorem C26_debounced_suspend_witness :
    noClientStreak activeLoopState loopWorld (List.replicate 31 quietInput) = true ∧
    (CaptureLoop_run activeLoopState loopWorld (List.replicate 30 quietInput)).1.cameraActive
      = true ∧
    (CaptureLoop_run activeLoopState loopWorld (List.replicate 31 quietInput)).1.cameraActive
      = false :=
  ⟨by decide,
   ((C26_debounced_suspend activeLoopState loopWorld (List.replicate 30 quietInput) rfl
      (by decide) (by decide)).1 (by decide)).1,
   ((C26_debounced_suspend activeLoopState loopWorld (List.replicate 31 quietInput) rfl
      (by decide) (by decide)).2.1 (by decide)).1⟩

/-! ## The header struct of `SharedMemoryTest.cpp` -/

/-- C27, the struct of the test against the header: `SharedFrameHeader` has `frameNumber` at
offset 0, `width` at 16, `height` at 20 and size 40, where `PS3EyeFrameHeader` has them at 24,
8 and 12 and size 72; the test maps 921640 bytes, not the 921672 of
`PS3EYE_SHARED_MEMORY_SIZE`; and the bytes the test reads as `frameNumber`, `width` and
`height` are those of `magic` and `version`, of `stride` and of `format`. -/
theorem C27_SharedFrameHeader_differs :
    offsetof defaultPack SharedFrameHeader_members "frameNumber" = some 0 ∧
    offsetof 1 PS3EyeFrameHeader_members "frameNumber" = some 24 ∧
    offsetof defaultPack SharedFrameHeader_members "width" = some 16 ∧
    offsetof 1 PS3EyeFrameHeader_members "width" = some 8 ∧
    offsetof defaultPack SharedFrameHeader_members "height" = some 20 ∧
    offsetof 1 PS3EyeFrameHeader_members "height" = some 12 ∧
    sizeofStruct defaultPack SharedFrameHeader_members = 40 ∧
    sizeofStruct 1 PS3EyeFrameHeader_members = 72 ∧
    SharedMemoryTest_totalSize = 921640 ∧
    PS3EYE_SHARED_MEMORY_SIZE = 921672 ∧
    SharedMemoryTest_totalSize ≠ PS3EYE_SHARED_MEMORY_SIZE ∧
    (List.range 8).map PS3EyeFrameHeader_memberAt
      = [some "magic", some "magic", some "magic", some "magic",
         some "version", some "version", some "version", some "version"] ∧
    PS3EyeFrameHeader_memberAt 16 = some "stride" ∧
    PS3EyeFrameHeader_memberAt 20 = some "format" := by
  refine ⟨?_, ?_, ?_, ?_, ?_, ?_, ?_, ?_, ?_, ?_, ?_, ?_, ?_, ?_⟩
  all_goals decide

/-! ## Reads leave the channel as it is -/

/-- A `ReadFrame` of one thread does not change whether the wait on the mutex of another
thread returns `WAIT_OBJECT_0`. -/
theorem ReadFrame_wait_other (self : PS3EyeSharedMemoryClient) (w : World) (me me2 : Party)
    (destBuffer : Option Buf) (destSize : Nat) (frameNumber timestamp : Option Nat)
    (h : Bool) (hne : me ≠ me2) :
    ((self.ReadFrame w me destBuffer destSize frameNumber timestamp).world.WaitForSingleObject_mutex
        h me2).1 = WaitResult.WAIT_OBJECT_0 ↔
      (w.WaitForSingleObject_mutex h me2).1 = WaitResult.WAIT_OBJECT_0 := by
  rcases ReadFrame_world_cases self w me destBuffer destSize frameNumber timestamp with
    ⟨-, e⟩ | ⟨hn, e⟩ | ⟨ho, e⟩
  · rw [e]
  · rcases wait_mutex_not_acquired w self.m_mutex me hn with e2 | ⟨-, hl, ha, -, e2⟩
    · rw [e, e2]
    · rw [e, e2]
      cases h <;> simp [World.WaitForSingleObject_mutex, hl, ha, hne]
  · rw [e, wait_mutex_fst_congr _ w h me2
      (wait_release_mutexLock w self.m_mutex me ho)
      (by rw [release_mutex_mutexAbandoned, wait_mutex_mutexAbandoned w _ _ ho])]

/-- A `ReadFrame` or `GetFrameInfo` of another client leaves the region, the object of client
`j` and the outcome of the next wait of client `j` on the mutex. -/
theorem step_read_other (s : Machine) (a : Action) (j : Nat)
    (ha : a.isReadOfOther j = true) :
    (s.step a).world.header = s.world.header ∧
    (s.step a).world.mem = s.world.mem ∧
    (s.step a).clients j = s.clients j ∧
    ∀ h : Bool, ((s.step a).world.WaitForSingleObject_mutex h (Party.client j)).1
        = WaitResult.WAIT_OBJECT_0 ↔
      (s.world.WaitForSingleObject_mutex h (Party.client j)).1 = WaitResult.WAIT_OBJECT_0 := by
  cases a with
  | readFrame k d n f t =>
    have hk : j ≠ k := by
      intro e; subst e; simp [Action.isReadOfOther] at ha
    have hp : Party.client k ≠ Party.client j := by
      intro e; exact hk (Party.client.inj e).symm
    refine ⟨(ReadFrame_world _ _ _ _ _ _ _).1, (ReadFrame_world _ _ _ _ _ _ _).2.1, ?_,
      fun h => ReadFrame_wait_other _ _ _ _ _ _ _ _ h hp⟩
    simp only [Machine.step, Function.update_noteq hk]
  | getFrameInfo k a b c d => exact ⟨rfl, rfl, rfl, fun _ => Iff.rfl⟩
  | _ => simp [Action.isReadOfOther] at ha

theorem run_read_other (acts : List Action) (j : Nat) :
    ∀ (s : Machine), (∀ a ∈ acts, a.isReadOfOther j = true) →
      (s.run acts).world.header = s.world.header ∧
      (s.run acts).world.mem = s.world.mem ∧
      (s.run acts).clients j = s.clients j ∧
      ∀ h : Bool, ((s.run acts).world.WaitForSingleObject_mutex h (Party.client j)).1
          = WaitResult.WAIT_OBJECT_0 ↔
        (s.world.WaitForSingleObject_mutex h (Party.client j)).1
          = WaitResult.WAIT_OBJECT_0 := by
  induction acts with
  | nil => intro s _; exact ⟨rfl, rfl, rfl, fun _ => Iff.rfl⟩
  | cons a acts ih =>
    intro s ha
    rw [run_cons]
    obtain ⟨h1, h2, h3, h4⟩ := ih (s.step a) (fun b hb => ha b (List.mem_cons_of_mem _ hb))
    obtain ⟨g1, g2, g3, g4⟩ := step_read_other s a j (ha a (List.mem_cons_self _ _))
    exact ⟨h1.trans g1, h2.trans g2, h3.trans g3, fun h => (h4 h).trans (g4 h)⟩

/-- C28: no `ReadFrame` call changes the header or a byte of the region (the frame slot
included); a `GetFrameInfo` call changes nothing at all, neither the kernel objects nor any
client object, hence not the last seen frame number; and after any sequence of `ReadFrame`
and `GetFrameInfo` calls of other clients, the next `ReadFrame` of client `j` returns what it
would have returned before them: the same return value, destination bytes, frame number and
timestamp, and the same last seen frame number. -/
theorem C28_reads_are_read_only (s : Machine) (j : Nat) (acts : List Action)
    (destBuffer : Option Buf) (destSize : Nat) (fn ts : Option Nat)
    (hacts : ∀ a ∈ acts, a.isReadOfOther j = true) :
    (∀ (self : PS3EyeSharedMemoryClient) (w : World) (me : Party) (d : Option Buf) (n : Nat)
        (f t : Option Nat),
      (self.ReadFrame w me d n f t).world.header = w.header ∧
      (self.ReadFrame w me d n f t).world.mem = w.mem ∧
      (∀ k, (self.ReadFrame w me d n f t).world.frameSlot k = w.frameSlot k)) ∧
    (∀ (k : Nat) (a b c d : Option Nat), s.step (.getFrameInfo k a b c d) = s) ∧
    (s.run acts).world.header = s.world.header ∧
    (s.run acts).world.mem = s.world.mem ∧
    (((s.run acts).clients j).ReadFrame (s.run acts).world (Party.client j) destBuffer
        destSize fn ts).ret
      = ((s.clients j).ReadFrame s.world (Party.client j) destBuffer destSize fn ts).ret ∧
    (((s.run acts).clients j).ReadFrame (s.run acts).world (Party.client j) destBuffer
        destSize fn ts).destBuffer
      = ((s.clients j).ReadFrame s.world (Party.client j) destBuffer destSize fn
          ts).destBuffer ∧
    (((s.run acts).clients j).ReadFrame (s.run acts).world (Party.client j) destBuffer
        destSize fn ts).frameNumber
      = ((s.clients j).ReadFrame s.world (Party.client j) destBuffer destSize fn
          ts).frameNumber ∧
    (((s.run acts).clients j).ReadFrame (s.run acts).world (Party.client j) destBuffer
        destSize fn ts).timestamp
      = ((s.clients j).ReadFrame s.world (Party.client j) destBuffer destSize fn
          ts).timestamp ∧
    (((s.run acts).clients j).ReadFrame (s.run acts).world (Party.client j) destBuffer
        destSize fn ts).self
      = ((s.clients j).ReadFrame s.world (Party.client j) destBuffer destSize fn ts).self := by
  obtain ⟨h1, h2, h3, h4⟩ := run_read_other acts j s hacts
  obtain ⟨g1, g2, g3, g4, g5⟩ := ReadFrame_congr (s.clients j) (s.run acts).world s.world
    (Party.client j) destBuffer destSize fn ts h1 h2 (h4 _)
  rw [h3]
  refine ⟨fun self w me d n f t => ?_, fun _ _ _ _ _ => rfl, h1, h2, g1, g3, g4, g5, g2⟩
  obtain ⟨a, b, -⟩ := ReadFrame_world self w me d n f t
  refine ⟨a, b, fun k => ?_⟩
  unfold World.frameSlot
  rw [b]

theorem C28_reads_are_read_only_witness :
    ((twoClientMachine.run
        [.readFrame 0 (some (fun _ => 0)) 3 (some 0) (some 0),
         .getFrameInfo 0 (some 0) (some 0) (some 0) (some 0)]).world.header
      = twoClientMachine.world.header) ∧
    ((((twoClientMachine.run
        [.readFrame 0 (some (fun _ => 0)) 3 (some 0) (some 0),
         .getFrameInfo 0 (some 0) (some 0) (some 0) (some 0)]).clients 1).ReadFrame
      (twoClientMachine.run
        [.readFrame 0 (some (fun _ => 0)) 3 (some 0) (some 0),
         .getFrameInfo 0 (some 0) (some 0) (some 0) (some 0)]).world
      (Party.client 1) (some (fun _ => 0)) 3 (some 0) (some 0)).frameNumber
      = ((twoClientMachine.clients 1).ReadFrame twoClientMachine.world (Party.client 1)
          (some (fun _ => 0)) 3 (some 0) (some 0)).frameNumber) ∧
    ((twoClientMachine.clients 1).ReadFrame twoClientMachine.world (Party.client 1)
      (some (fun _ => 0)) 3 (some 0) (some 0)).frameNumber = some 1 :=
  ⟨(C28_reads_are_read_only twoClientMachine 1
      [.readFrame 0 (some (fun _ => 0)) 3 (some 0) (some 0),
       .getFrameInfo 0 (some 0) (some 0) (some 0) (some 0)]
      (some (fun _ => 0)) 3 (some 0) (some 0)
      (by intro a ha; simp at ha; rcases ha with h | h <;> subst h <;> rfl)).2.2.1,
   (C28_reads_are_read_only twoClientMachine 1
      [.readFrame 0 (some (fun _ => 0)) 3 (some 0) (some 0),
       .getFrameInfo 0 (some 0) (some 0) (some 0) (some 0)]
      (some (fun _ => 0)) 3 (some 0) (some 0)
      (by intro a ha; simp at ha; rcases ha with h | h <;> subst h <;> rfl)).2.2.2.2.2.2.1,
   by decide⟩

/-! ## The mutex across `WriteFrame` and `ReadFrame` -/

/-- A wait on the mutex that returns `WAIT_ABANDONED` has made the caller the owner. -/
theorem wait_mutex_abandoned (w : World) (h : Bool) (me : Party)
    (hw : (w.WaitForSingleObject_mutex h me).1 = WaitResult.WAIT_ABANDONED) :
    w.mutexLock = none ∧ (w.WaitForSingleObject_mutex h me).2.mutexLock = some (me, 0) := by
  unfold World.WaitForSingleObject_mutex at hw ⊢
  cases h
  · simp at hw
  · cases hl : w.mutexLock with
    | none =>
      cases ha : w.mutexAbandoned
      · simp [hl, ha] at hw
      · simp [hl, ha]
    | some pn =>
      obtain ⟨p, n⟩ := pn
      by_cases hp : p = me
      · simp [hl, hp] at hw
      · simp [hl, hp] at hw

/-- C29, the code on an abandoned mutex: a `WriteFrame` or `ReadFrame` whose wait returns
`WAIT_OBJECT_0` leaves the ownership of the mutex as it found it, and one whose wait returns
`WAIT_TIMEOUT` or `WAIT_FAILED` leaves it too; but when the wait returns `WAIT_ABANDONED`,
which makes the caller the owner, the call returns false without a release and the caller
owns the mutex afterwards. On a channel whose mutex was abandoned, `WriteFrame` of server 0
returns false and leaves server 0 the owner; the `ReadFrame` of client 0 that follows returns
false although frame 1 is unread and `serverPID` is not 0; and the next `WriteFrame` returns
true and leaves server 0 the owner still. -/
theorem C29_abandoned_mutex_stays_owned :
    (∀ (self : PS3EyeSharedMemoryServer) (w : World) (me : Party) (d : Option Buf)
        (n t : Nat),
      ((w.WaitForSingleObject_mutex self.m_mutex me).1 = WaitResult.WAIT_OBJECT_0 ∨
        (w.WaitForSingleObject_mutex self.m_mutex me).1 = WaitResult.WAIT_TIMEOUT ∨
        (w.WaitForSingleObject_mutex self.m_mutex me).1 = WaitResult.WAIT_FAILED) →
      (self.WriteFrame w me d n t).2.2.mutexLock = w.mutexLock) ∧
    (∀ (self : PS3EyeSharedMemoryClient) (w : World) (me : Party) (d : Option Buf) (n : Nat)
        (f t : Option Nat),
      ((w.WaitForSingleObject_mutex self.m_mutex me).1 = WaitResult.WAIT_OBJECT_0 ∨
        (w.WaitForSingleObject_mutex self.m_mutex me).1 = WaitResult.WAIT_TIMEOUT ∨
        (w.WaitForSingleObject_mutex self.m_mutex me).1 = WaitResult.WAIT_FAILED) →
      (self.ReadFrame w me d n f t).world.mutexLock = w.mutexLock) ∧
    (∀ (self : PS3EyeSharedMemoryServer) (w : World) (me : Party) (data : Buf) (n t : Nat),
      self.IsCreated = true → n ≤ PS3EYE_FRAME_SIZE →
      (w.WaitForSingleObject_mutex self.m_mutex me).1 = WaitResult.WAIT_ABANDONED →
      (self.WriteFrame w me (some data) n t).1 = false ∧
      w.mutexLock = none ∧
      (self.WriteFrame w me (some data) n t).2.2.mutexLock = some (me, 0)) ∧
    (∀ (self : PS3EyeSharedMemoryClient) (w : World) (me : Party) (dest : Buf) (n : Nat)
        (f t : Option Nat),
      self.IsConnected = true →
      (w.WaitForSingleObject_mutex self.m_mutex me).1 = WaitResult.WAIT_ABANDONED →
      (self.ReadFrame w me (some dest) n f t).ret = false ∧
      w.mutexLock = none ∧
      (self.ReadFrame w me (some dest) n f t).world.mutexLock = some (me, 0)) ∧
    (abandonedMachine.world.mutexLock = none ∧
      abandonedMachine.world.mutexAbandoned = true ∧
      (abandonedMachine.servers 0).Created ∧
      ((abandonedMachine.servers 0).WriteFrame abandonedMachine.world (Party.server 0)
        (some (bufOfList [4, 5, 6])) 3 2000).1 = false ∧
      (abandonedMachine.step (.writeFrame 0 (some (bufOfList [4, 5, 6])) 3 2000)).world.mutexLock
        = some (Party.server 0, 0) ∧
      (abandonedMachine.step
        (.writeFrame 0 (some (bufOfList [4, 5, 6])) 3 2000)).world.header.frameNumber = 1 ∧
      ((abandonedMachine.step (.writeFrame 0 (some (bufOfList [4, 5, 6])) 3 2000)).clients
        0).m_lastFrameNumber = 0 ∧
      (abandonedMachine.step
        (.writeFrame 0 (some (bufOfList [4, 5, 6])) 3 2000)).world.header.serverPID = 100 ∧
      (((abandonedMachine.step (.writeFrame 0 (some (bufOfList [4, 5, 6])) 3 2000)).clients
        0).ReadFrame
        (abandonedMachine.step (.writeFrame 0 (some (bufOfList [4, 5, 6])) 3 2000)).world
        (Party.client 0) (some (fun _ => 0)) 3 (some 0) (some 0)).ret = false ∧
      (((abandonedMachine.step (.writeFrame 0 (some (bufOfList [4, 5, 6])) 3 2000)).servers
        0).WriteFrame
        (abandonedMachine.step (.writeFrame 0 (some (bufOfList [4, 5, 6])) 3 2000)).world
        (Party.server 0) (some (bufOfList [7, 8, 9])) 3 3000).1 = true ∧
      (abandonedMachine.run
        [.writeFrame 0 (some (bufOfList [4, 5, 6])) 3 2000,
         .writeFrame 0 (some (bufOfList [7, 8, 9])) 3 3000]).world.mutexLock
        = some (Party.server 0, 0)) := by
  refine ⟨fun self w me d n t hw => ?_, fun self w me d n f t hw => ?_,
    fun self w me data n t hc hn hw => ?_, fun self w me dest n f t hc hw => ?_,
    ?_, ?_, ?_, ?_, ?_, ?_, ?_, ?_, ?_, ?_, ?_⟩
  · have hna : (w.WaitForSingleObject_mutex self.m_mutex me).1 ≠ WaitResult.WAIT_ABANDONED := by
      rcases hw with h | h | h <;> rw [h] <;> simp
    cases hr : (self.WriteFrame w me d n t).1
    · rcases WriteFrame_false_world self w me d n t hr with e | ⟨hno, e⟩
      · rw [e]
      · rw [e]
        rcases wait_mutex_not_acquired w self.m_mutex me hno with e2 | ⟨-, -, -, e3, -⟩
        · rw [e2]
        · exact absurd e3 hna
    · cases d with
      | none => simp [PS3EyeSharedMemoryServer.WriteFrame] at hr
      | some data => exact (WriteFrame_true self w me data n t hr).2.2.2.2.2
  · have hna : (w.WaitForSingleObject_mutex self.m_mutex me).1 ≠ WaitResult.WAIT_ABANDONED := by
      rcases hw with h | h | h <;> rw [h] <;> simp
    rcases ReadFrame_world_cases self w me d n f t with ⟨-, e⟩ | ⟨hno, e⟩ | ⟨ho, e⟩
    · rw [e]
    · rw [e]
      rcases wait_mutex_not_acquired w self.m_mutex me hno with e2 | ⟨-, -, -, e3, -⟩
      · rw [e2]
      · exact absurd e3 hna
    · rw [e]
      exact wait_release_mutexLock w self.m_mutex me ho
  · have hno : (w.WaitForSingleObject_mutex self.m_mutex me).1 ≠ WaitResult.WAIT_OBJECT_0 := by
      rw [hw]; simp
    have hm : self.m_sharedMemory = true := hc
    have hn2 : ¬ n > PS3EYE_FRAME_SIZE := by omega
    obtain ⟨a, b⟩ := wait_mutex_abandoned w self.m_mutex me hw
    refine ⟨?_, a, ?_⟩
    · simp [PS3EyeSharedMemoryServer.WriteFrame, hm, hn2, hno]
    · simp [PS3EyeSharedMemoryServer.WriteFrame, hm, hn2, hno, b]
  · have hno : (w.WaitForSingleObject_mutex self.m_mutex me).1 ≠ WaitResult.WAIT_OBJECT_0 := by
      rw [hw]; simp
    have hm : self.m_sharedMemory = true := hc
    obtain ⟨a, b⟩ := wait_mutex_abandoned w self.m_mutex me hw
    refine ⟨?_, a, ?_⟩
    · simp [PS3EyeSharedMemoryClient.ReadFrame, hm, hno]
    · simp [PS3EyeSharedMemoryClient.ReadFrame, hm, hno, b]
  all_goals decide

/-! ## The new-frame event -/

/-- C30: a `WriteFrame` of a server with every handle non-null that returns true leaves the
new-frame event signalled; whatever calls follow, as long as none of them is a `WriteFrame`,
at most one `WaitForFrame` call among them returns true, whichever clients make the calls; a
`WaitForFrame` that returns true leaves the event reset; and what a `ReadFrame` hands back
does not depend on the state of the event, nor on a `WaitForFrame` of any client made before
it. -/
theorem C30_one_wakeup_per_publish (s : Machine) (i : Nat) (data : Buf) (n t : Nat)
    (acts : List Action)
    (hc : (s.servers i).Created)
    (hw : ((s.servers i).WriteFrame s.world (Party.server i) (some data) n t).1 = true)
    (hacts : ∀ a ∈ acts, a.isWriteFrame = false) :
    (s.step (.writeFrame i (some data) n t)).world.newFrameSignaled = true ∧
    (s.step (.writeFrame i (some data) n t)).wakeups acts ≤ 1 ∧
    (∀ (self : PS3EyeSharedMemoryClient) (w : World), (self.WaitForFrame w).1 = true →
      w.newFrameSignaled = true ∧ (self.WaitForFrame w).2.newFrameSignaled = false) ∧
    (∀ (self : PS3EyeSharedMemoryClient) (w : World) (b : Bool) (me : Party)
        (d : Option Buf) (k : Nat) (f ts : Option Nat),
      (self.ReadFrame { w with newFrameSignaled := b } me d k f ts).ret
        = (self.ReadFrame w me d k f ts).ret ∧
      (self.ReadFrame { w with newFrameSignaled := b } me d k f ts).destBuffer
        = (self.ReadFrame w me d k f ts).destBuffer ∧
      (self.ReadFrame { w with newFrameSignaled := b } me d k f ts).frameNumber
        = (self.ReadFrame w me d k f ts).frameNumber ∧
      (self.ReadFrame { w with newFrameSignaled := b } me d k f ts).timestamp
        = (self.ReadFrame w me d k f ts).timestamp) ∧
    (∀ (other self : PS3EyeSharedMemoryClient) (w : World) (me : Party)
        (d : Option Buf) (k : Nat) (f ts : Option Nat),
      (self.ReadFrame (other.WaitForFrame w).2 me d k f ts).ret
        = (self.ReadFrame w me d k f ts).ret ∧
      (self.ReadFrame (other.WaitForFrame w).2 me d k f ts).destBuffer
        = (self.ReadFrame w me d k f ts).destBuffer ∧
      (self.ReadFrame (other.WaitForFrame w).2 me d k f ts).frameNumber
        = (self.ReadFrame w me d k f ts).frameNumber ∧
      (self.ReadFrame (other.WaitForFrame w).2 me d k f ts).timestamp
        = (self.ReadFrame w me d k f ts).timestamp) := by
  have hsig : (s.step (.writeFrame i (some data) n t)).world.newFrameSignaled = true := by
    show ((s.servers i).WriteFrame s.world (Party.server i) (some data) n t).2.2.newFrameSignaled
      = true
    rw [(WriteFrame_true _ _ _ _ _ _ hw).2.2.2.1, hc.2.2.1]
    rfl
  refine ⟨hsig, ?_, fun self w h => ?_, fun self w b me d k f ts => ?_,
    fun other self w me d k f ts => ?_⟩
  · have := wakeups_le acts (s.step (.writeFrame i (some data) n t)) hacts
    rw [hsig] at this
    simpa using this
  · obtain ⟨g1, g2⟩ := WaitForFrame_spec self w
    rw [g1] at h
    have h' : self.m_newFrameEvent = true ∧ w.newFrameSignaled = true := by
      simpa using h
    refine ⟨h'.2, ?_⟩
    rw [g2]
    simp [h'.1, h'.2]
  · obtain ⟨g1, -, g3, g4, g5⟩ := ReadFrame_congr self { w with newFrameSignaled := b } w me
      d k f ts rfl rfl
      (by rw [wait_mutex_fst_congr { w with newFrameSignaled := b } w self.m_mutex me rfl rfl])
    exact ⟨g1, g3, g4, g5⟩
  · have hl : (other.WaitForFrame w).2.mutexLock = w.mutexLock ∧
        (other.WaitForFrame w).2.mutexAbandoned = w.mutexAbandoned := by
      rw [(WaitForFrame_spec other w).2]
      split <;> exact ⟨rfl, rfl⟩
    obtain ⟨g1, -, g3, g4, g5⟩ := ReadFrame_congr self (other.WaitForFrame w).2 w me
      d k f ts (WaitForFrame_world other w).1 (WaitForFrame_world other w).2
      (by rw [wait_mutex_fst_congr (other.WaitForFrame w).2 w self.m_mutex me hl.1 hl.2])
    exact ⟨g1, g3, g4, g5⟩

theorem C30_one_wakeup_per_publish_witness :
    twoClientMachine.world.newFrameSignaled = true ∧
    twoClientMachine.wakeups [.waitForFrame 0, .waitForFrame 1] ≤ 1 ∧
    ((twoClientMachine.clients 0).WaitForFrame twoClientMachine.world).1 = true ∧
    (((twoClientMachine.step (.waitForFrame 0)).clients 1).WaitForFrame
      (twoClientMachine.step (.waitForFrame 0)).world).1 = false ∧
    (((twoClientMachine.step (.waitForFrame 0)).clients 1).ReadFrame
      (twoClientMachine.step (.waitForFrame 0)).world (Party.client 1)
      (some (fun _ => 0)) 3 (some 0) (some 0)).frameNumber = some 1 :=
  ⟨(C30_one_wakeup_per_publish
      (Machine.init.run [.create 0 100 {}, .connect 0 {}, .connect 1 {}]) 0
      (bufOfList [1, 2, 3]) 3 1000 [.waitForFrame 0, .waitForFrame 1] (by decide) (by decide)
      (by intro a ha; simp at ha; rcases ha with h | h <;> subst h <;> rfl)).1,
   (C30_one_wakeup_per_publish
      (Machine.init.run [.create 0 100 {}, .connect 0 {}, .connect 1 {}]) 0
      (bufOfList [1, 2, 3]) 3 1000 [.waitForFrame 0, .waitForFrame 1] (by decide) (by decide)
      (by intro a ha; simp at ha; rcases ha with h | h <;> subst h <;> rfl)).2.1,
   by decide, by decide, by decide⟩

end PS3Eye
